import Mathlib

/-! # Loopback audio capture core: `CoreAudioDevice` and `CoreAudioModule`

A shallow embedding of `src/webrtc-native/CoreAudioDevice.cpp` (with the part of
`CoreAudioModule.cpp` that forwards to it) and theorems about it.

Modelling conventions.

* COM interface pointers are `Option`/`Bool` values: `none`/`false` is `nullptr`.
  An endpoint (`IMMDevice`) is identified by a natural number, an
  `IMMDeviceCollection` is the list of the endpoints it holds, an `IAudioClient`
  is identified by the endpoint it was activated on.
* Every call into the platform (COM, kernel objects, the clock) is answered by an
  explicit oracle value passed to the operation, so each operation is a pure
  function of the session state and of the platform's answers.
* `HRESULT` is an integer; `FAILED` is `hr < 0` and `SUCCEEDED` is `0 <= hr`, as in
  the Windows SDK.  Unsigned machine integers are naturals reduced modulo `2^w`
  at the places where the source computes in that width.
* `assert` is modelled as active: a failed assertion aborts the operation.
* The capture thread is a function of the session and of a script of platform
  answers (wait results, `GetBuffer` packets, clock readings, interference by
  other threads at the two places where the source checks for it).
* The capture-delay estimate is computed in IEEE-754 double precision as in
  the source: a finite `double` is held as a fraction, and every conversion and
  every operation rounds to nearest, ties to even (`Double` below).
* Logging, thread priorities and the keyboard hint are left out, and
  `new BYTE[]` is taken to succeed.
* The device enumerator `_ptrEnumerator` is present throughout (it is created
  by the constructor), and the text that `RecordingDeviceName` writes to its
  `name` and `guid` buffers is not modelled, only its result code.
-/

namespace webrtc

/-! ## Platform constants and small helpers -/

/-- A COM result code (a signed 32-bit value). -/
abbrev HRESULT := Int

/-- Windows SDK `S_OK`. -/
def S_OK : HRESULT := 0

/-- Windows SDK `S_FALSE`. -/
def S_FALSE : HRESULT := 1

/-- Windows SDK `E_FAIL` (0x80004005 as a signed 32-bit value). -/
def E_FAIL : HRESULT := -2147467259

/-- Windows SDK `AUDCLNT_S_BUFFER_EMPTY` (a success code different from `S_OK`). -/
def AUDCLNT_S_BUFFER_EMPTY : HRESULT := 0x08890001

/-- Windows SDK `AUDCLNT_BUFFERFLAGS_SILENT`. -/
def AUDCLNT_BUFFERFLAGS_SILENT : Nat := 2

/-- Windows SDK `WAIT_OBJECT_0`. -/
def WAIT_OBJECT_0 : Nat := 0

/-- Windows SDK `WAIT_TIMEOUT`. -/
def WAIT_TIMEOUT : Nat := 258

/-- Windows SDK macro `FAILED(hr)`. -/
def FAILED (hr : HRESULT) : Bool := decide (hr < 0)

/-- Windows SDK macro `SUCCEEDED(hr)`. -/
def SUCCEEDED (hr : HRESULT) : Bool := decide (0 ≤ hr)

/-- Reduction to an unsigned 16-bit value (`WORD`, `uint16_t`). -/
def u16 (n : Nat) : Nat := n % 2 ^ 16

/-- Reduction to an unsigned 32-bit value (`UINT`, `UINT32`, `DWORD`, `uint32_t`). -/
def u32 (n : Nat) : Nat := n % 2 ^ 32

/-- Reduction to an unsigned 64-bit value (`UINT64`). -/
def u64 (n : Nat) : Nat := n % 2 ^ 64

/-- The value of `static_cast<int16_t>(count)` for an unsigned `count`. -/
def toInt16 (count : Nat) : Int :=
  if count % 2 ^ 16 < 2 ^ 15 then ((count % 2 ^ 16 : Nat) : Int)
  else ((count % 2 ^ 16 : Nat) : Int) - 2 ^ 16

/-- The value of `(DWORD)hr` for a signed 32-bit `hr`. -/
def toDWORD (hr : HRESULT) : Nat := (hr % 2 ^ 32).toNat

/-! ## Double-precision arithmetic -/

/-- A finite value of the C++ type `double`, held as the fraction `num / den`
with `den > 0`.  The fraction need not be in lowest terms; only its value
matters.  Every value produced by the operations below is a multiple of a
power of two with a significand of at most 53 bits. -/
structure Double where
  num : Int
  den : Nat
deriving DecidableEq, Repr

namespace Double

/-- The integer nearest to `N / D`, a tie going to the even neighbour. -/
def nearestEven (N D : Nat) : Nat :=
  if D < 2 * (N % D) ∨ (2 * (N % D) = D ∧ (N / D) % 2 = 1) then N / D + 1 else N / D

/-- For `n / D ≥ 2^53`: the number of binary digits by which `n / D` exceeds 53
digits, that is the least `j` with `n / (D * 2^j) < 2^53`. -/
def upShift : Nat → Nat → Nat → Nat
  | 0, _, _ => 0
  | fuel + 1, n, D => if n < 2 ^ 53 * D then 0 else upShift fuel n (2 * D) + 1

/-- For `0 < N / d < 2^53`: the number of binary digits to scale `N / d` up by so
that it has 53 digits, that is the least `j` with `2^52 ≤ N * 2^j / d`. -/
def downShift : Nat → Nat → Nat → Nat
  | 0, _, _ => 0
  | fuel + 1, N, d => if 2 ^ 52 * d ≤ N then 0 else downShift fuel (2 * N) d + 1

/-- The value `n / d` rounded to a multiple of `2^j`. -/
def scaleUp (n d j : Nat) : Double := ⟨(nearestEven n (d * 2 ^ j) * 2 ^ j : Nat), 1⟩

/-- The value `n / d` rounded to a multiple of `2^(-j)`. -/
def scaleDown (n d j : Nat) : Double := ⟨(nearestEven (n * 2 ^ j) d : Nat), 2 ^ j⟩

/-- The `double` nearest to the positive value `n / d`: the value is rounded to
a multiple of the power of two that leaves it a 53-bit significand.  The
exponents met in this development lie far inside the range of the format (at
most 1100 binary digits either way are provided for). -/
def roundPos (n d : Nat) : Double :=
  if 2 ^ 53 * d ≤ n then scaleUp n d (upShift 1100 n d)
  else scaleDown n d (downShift 1100 n d)

/-- The `double` nearest to `num / den`, ties to even. -/
def roundNearest (num : Int) (den : Nat) : Double :=
  if num = 0 then ⟨0, 1⟩
  else if 0 < num then roundPos num.toNat den
  else ⟨-(roundPos (-num).toNat den).num, (roundPos (-num).toNat den).den⟩

/-- The conversion `(double)n` of an unsigned integer. -/
def ofNat (n : Nat) : Double := roundNearest n 1

/-- The product `a * b` of two `double`s. -/
def mul (a b : Double) : Double := roundNearest (a.num * b.num) (a.den * b.den)

/-- The difference `a - b` of two `double`s. -/
def sub (a b : Double) : Double := roundNearest (a.num * b.den - b.num * a.den) (a.den * b.den)

/-- The sum `a + b` of two `double`s. -/
def add (a b : Double) : Double := roundNearest (a.num * b.den + b.num * a.den) (a.den * b.den)

/-- The quotient `a / b` of two `double`s, for `b` other than zero. -/
def div (a b : Double) : Double :=
  if 0 < b.num then roundNearest (a.num * b.den) (a.den * b.num.toNat)
  else roundNearest (-(a.num * b.den)) (a.den * (-b.num).toNat)

/-- The value of `a` with its fraction digits dropped (rounding toward zero). -/
def trunc (a : Double) : Int := Int.tdiv a.num a.den

/-- The conversion `(uint32_t)a` as compiled for x64: the value is truncated
toward zero to a signed 64-bit integer (`cvttsd2si`) of which the low 32 bits
are kept; a value outside the signed 64-bit range gives the bit pattern
`0x8000000000000000`, whose low 32 bits are 0. -/
def toUInt32 (a : Double) : Nat :=
  if 2 ^ 63 ≤ (trunc a).natAbs then 0
  else (trunc a % 2 ^ 32).toNat

/-- The comparison `a <= b` of two `double`s. -/
def le (a b : Double) : Prop := a.num * b.den ≤ b.num * a.den

/-- The comparison of two `double`s can be evaluated. -/
instance decidableLe (a b : Double) : Decidable (Double.le a b) :=
  inferInstanceAs (Decidable (a.num * b.den ≤ b.num * a.den))

end Double

/-- The enumeration `AudioDeviceModule::WindowsDeviceType`. -/
inductive WindowsDeviceType where
  | kDefaultCommunicationDevice
  | kDefaultDevice
deriving DecidableEq, Repr

/-- Windows SDK `EDataFlow`. -/
inductive EDataFlow where
  | eRender
  | eCapture
deriving DecidableEq, Repr

/-- Windows SDK `ERole`. -/
inductive ERole where
  | eConsole
  | eMultimedia
  | eCommunications
deriving DecidableEq, Repr

/-! ## Session state -/

/-- The recording parameters held by the external `AudioDeviceBuffer`, as set
through `SetRecordingSampleRate` and `SetRecordingChannels`. -/
structure AudioDeviceBuffer where
  recSampleRate : Nat
  recChannels : Nat
deriving DecidableEq, Repr

/-- The member variables of `CoreAudioDevice` (CoreAudioDevice.h).
`threadsCreated` is a ghost counter of successful `CreateThread` calls;
`_hShutdownCaptureEvent` holds the signalled state of the manual-reset event. -/
structure CoreAudioDevice where
  _ptrAudioBuffer : Option AudioDeviceBuffer
  _ptrLoopbackCollection : Option (List Nat)
  _ptrDeviceIn : Option Nat
  _ptrClientIn : Option Nat
  _ptrLoopbackClient : Bool
  _ptrCaptureVolume : Bool
  _ptrRenderSimpleVolume : Bool
  _hRecThread : Bool
  _hShutdownCaptureEvent : Bool
  threadsCreated : Nat
  _sndCardRecDelay : Nat
  _readSamples : Nat
  _recAudioFrameSize : Nat
  _recSampleRate : Nat
  _recBlockSize : Nat
  _recChannels : Nat
  _recChannelsPrioList : List Nat
  _perfCounterFreq : Nat
  _initialized : Bool
  _recording : Bool
  _recIsInitialized : Bool
  _playIsInitialized : Bool
  _speakerIsInitialized : Bool
  _microphoneIsInitialized : Bool
  _usingInputDeviceIndex : Bool
  _inputDevice : WindowsDeviceType
  _inputDeviceIndex : Nat
deriving DecidableEq, Repr

/-- The constructor `CoreAudioDevice::CoreAudioDevice()`. -/
def CoreAudioDevice.ctor : CoreAudioDevice :=
  { _ptrAudioBuffer := none
    _ptrLoopbackCollection := none
    _ptrDeviceIn := none
    _ptrClientIn := none
    _ptrLoopbackClient := false
    _ptrCaptureVolume := false
    _ptrRenderSimpleVolume := false
    _hRecThread := false
    _hShutdownCaptureEvent := false
    threadsCreated := 0
    _sndCardRecDelay := 0
    _readSamples := 0
    _recAudioFrameSize := 0
    _recSampleRate := 0
    _recBlockSize := 0
    _recChannels := 2
    _recChannelsPrioList := [2, 1, 4]
    _perfCounterFreq := 1
    _initialized := false
    _recording := false
    _recIsInitialized := false
    _playIsInitialized := false
    _speakerIsInitialized := false
    _microphoneIsInitialized := false
    _usingInputDeviceIndex := false
    _inputDevice := WindowsDeviceType.kDefaultCommunicationDevice
    _inputDeviceIndex := 0 }

/-- The answers of the platform to the calls made by the caller-thread
operations.  Endpoints are naturals; `IsFormatSupported e rate channels` and
`AudioClientInitialize e rate channels` are the answers of the audio client
activated on endpoint `e` for the 16-bit PCM format with that rate and channel
count. -/
structure Platform where
  QueryPerformanceFrequency : Option Nat
  EnumAudioEndpoints : HRESULT × List Nat
  GetCount : List Nat → HRESULT × Nat
  Item : List Nat → Nat → HRESULT × Option Nat
  GetDefaultAudioEndpoint : EDataFlow → ERole → HRESULT × Option Nat
  ActivateEndpointVolume : Nat → HRESULT × Bool
  ActivateAudioClient : Nat → HRESULT
  IsFormatSupported : Nat → Nat → Nat → HRESULT
  AudioClientInitialize : Nat → Nat → Nat → HRESULT
  SetEventHandle : Nat → HRESULT
  GetService : Nat → HRESULT

namespace CoreAudioDevice

/-! ## Enumeration helpers used by initialisation -/

/-- The source function `CoreAudioDevice::_RefreshDeviceList`. -/
def _RefreshDeviceList (env : Platform) (s : CoreAudioDevice) : Int × CoreAudioDevice :=
  if FAILED env.EnumAudioEndpoints.1 then (-1, s)
  else (0, { s with _ptrLoopbackCollection := some env.EnumAudioEndpoints.2 })

/-- The source function `CoreAudioDevice::_DeviceListCount`. -/
def _DeviceListCount (env : Platform) (s : CoreAudioDevice) : Int :=
  match s._ptrLoopbackCollection with
  | none => toInt16 0
  | some coll =>
    if FAILED (env.GetCount coll).1 then -1 else toInt16 (env.GetCount coll).2

/-- The source function `CoreAudioDevice::RecordingDevices`. -/
def RecordingDevices (env : Platform) (s : CoreAudioDevice) : Int × CoreAudioDevice :=
  if (_RefreshDeviceList env s).1 ≠ -1 then
    (_DeviceListCount env (_RefreshDeviceList env s).2, (_RefreshDeviceList env s).2)
  else (-1, (_RefreshDeviceList env s).2)

/-- The source function `CoreAudioDevice::_GetDefaultDevice`: the result code and the value left in
`*ppDevice`. -/
def _GetDefaultDevice (env : Platform) (role : ERole) : Int × Option Nat :=
  if FAILED (env.GetDefaultAudioEndpoint EDataFlow.eRender role).1 then
    (-1, (env.GetDefaultAudioEndpoint EDataFlow.eRender role).2)
  else (0, (env.GetDefaultAudioEndpoint EDataFlow.eRender role).2)

/-- The source function `CoreAudioDevice::_GetListDevice`: the result code and the value left in
`*ppDevice`, which is `prev` when `Item` is not reached. -/
def _GetListDevice (env : Platform) (index : Nat) (prev : Option Nat) : Int × Option Nat :=
  if FAILED env.EnumAudioEndpoints.1 then (-1, prev)
  else if FAILED (env.Item env.EnumAudioEndpoints.2 index).1 then
    (-1, (env.Item env.EnumAudioEndpoints.2 index).2)
  else (0, (env.Item env.EnumAudioEndpoints.2 index).2)

/-- The source function `CoreAudioDevice::InitMicrophone`. -/
def InitMicrophone (env : Platform) (s : CoreAudioDevice) : Int × CoreAudioDevice :=
  if s._recording then (-1, s)
  else if s._ptrDeviceIn = none then (-1, s)
  else
    let s1 := if s._usingInputDeviceIndex then (RecordingDevices env s).2 else s
    if s._usingInputDeviceIndex ∧
        (s._inputDeviceIndex : Int) > (RecordingDevices env s).1 - 1 then (-1, s1)
    else
      let r := if s1._usingInputDeviceIndex then _GetListDevice env s1._inputDeviceIndex none
               else _GetDefaultDevice env ERole.eMultimedia
      match r.2 with
      | none => (-1, { s1 with _ptrDeviceIn := none })
      | some d =>
        if r.1 ≠ 0 then (-1, { s1 with _ptrDeviceIn := none })
        else if (env.ActivateEndpointVolume d).1 ≠ 0 ∨ (env.ActivateEndpointVolume d).2 = false then
          (-1, { s1 with _ptrDeviceIn := some d, _ptrCaptureVolume := false })
        else
          (0, { s1 with _ptrDeviceIn := some d, _ptrCaptureVolume := true,
                        _microphoneIsInitialized := true })

/-! ## Format negotiation and `InitRecording` -/

/-- The fields of the local `WAVEFORMATEXTENSIBLE Wfx` that the negotiation
loop writes or reads. -/
structure WAVEFORMATEX where
  nChannels : Nat
  nSamplesPerSec : Nat
  nAvgBytesPerSec : Nat
  nBlockAlign : Nat
  wBitsPerSample : Nat
deriving DecidableEq, Repr

/-- The local array `freqs` of `InitRecording`. -/
def freqs : List Nat := [48000, 44100, 16000, 96000, 32000, 8000]

/-- The value of `Wfx` before the loops: zero-initialised, then
`wBitsPerSample = 16`. -/
def Wfx0 : WAVEFORMATEX :=
  { nChannels := 0, nSamplesPerSec := 0, nAvgBytesPerSec := 0, nBlockAlign := 0,
    wBitsPerSample := 16 }

/-- The four assignments to `Wfx.Format` at the head of the inner loop body. -/
def setCandidate (Wfx : WAVEFORMATEX) (chan freq : Nat) : WAVEFORMATEX :=
  { Wfx with
    nChannels := chan
    nSamplesPerSec := freq
    nBlockAlign := u16 (chan * Wfx.wBitsPerSample / 8)
    nAvgBytesPerSec := u32 (freq * u16 (chan * Wfx.wBitsPerSample / 8)) }

/-- The inner loop of the negotiation (over `_recChannelsPrioList`) for one
frequency; the pair is the current `(hr, Wfx)`. -/
def channelLoop (isFormatSupported : Nat → Nat → HRESULT) (freq : Nat) :
    List Nat → HRESULT × WAVEFORMATEX → HRESULT × WAVEFORMATEX
  | [], acc => acc
  | chan :: rest, acc =>
    if isFormatSupported freq chan = S_OK then
      (isFormatSupported freq chan, setCandidate acc.2 chan freq)
    else
      channelLoop isFormatSupported freq rest
        (isFormatSupported freq chan, setCandidate acc.2 chan freq)

/-- The outer loop of the negotiation (over `freqs`), with the
`if (hr == S_OK) break;` that follows the inner loop. -/
def freqLoop (isFormatSupported : Nat → Nat → HRESULT) (prio : List Nat) :
    List Nat → HRESULT × WAVEFORMATEX → HRESULT × WAVEFORMATEX
  | [], acc => acc
  | freq :: rest, acc =>
    if (channelLoop isFormatSupported freq prio acc).1 = S_OK then
      channelLoop isFormatSupported freq prio acc
    else
      freqLoop isFormatSupported prio rest (channelLoop isFormatSupported freq prio acc)

/-- The label `Exit:` of `InitRecording`. -/
def InitRecording_Exit (s : CoreAudioDevice) : Int × CoreAudioDevice :=
  (-1, { s with _ptrClientIn := none, _ptrLoopbackClient := false })

/-- The `if (hr == S_OK)` block after the loops: the negotiated format is stored. -/
def storeFormat (s : CoreAudioDevice) (n : HRESULT × WAVEFORMATEX) : CoreAudioDevice :=
  if n.1 = S_OK then
    { s with
      _recAudioFrameSize := n.2.nBlockAlign
      _recSampleRate := n.2.nSamplesPerSec
      _recBlockSize := n.2.nSamplesPerSec / 100
      _recChannels := n.2.nChannels }
  else s

/-- The `if (_ptrAudioBuffer)` block: the attached buffer is told the selected
rate and `(uint8_t)_recChannels`. -/
def updateAudioBuffer (s : CoreAudioDevice) : CoreAudioDevice :=
  match s._ptrAudioBuffer with
  | none => s
  | some _ =>
    { s with
      _ptrAudioBuffer := some (AudioDeviceBuffer.mk s._recSampleRate (s._recChannels % 2 ^ 8)) }

/-- The part of `InitRecording` that runs on the resolved endpoint `dev`: from
the activation of the audio client to the end of the function. -/
def InitRecording_onEndpoint (env : Platform) (dev : Nat) (s1 : CoreAudioDevice) :
    Int × CoreAudioDevice :=
  if FAILED (env.ActivateAudioClient dev) then
    InitRecording_Exit { s1 with _ptrClientIn := none }
  else
    let n := freqLoop (env.IsFormatSupported dev) s1._recChannelsPrioList freqs (S_FALSE, Wfx0)
    let s2 := storeFormat { s1 with _ptrClientIn := some dev } n
    if FAILED (env.AudioClientInitialize dev n.2.nSamplesPerSec n.2.nChannels) then
      InitRecording_Exit s2
    else if FAILED (env.SetEventHandle dev) then
      InitRecording_Exit (updateAudioBuffer s2)
    else if FAILED (env.GetService dev) then
      InitRecording_Exit { (updateAudioBuffer s2) with _ptrLoopbackClient := false }
    else
      (0, { (updateAudioBuffer s2) with
              _ptrLoopbackClient := true, _recIsInitialized := true })

/-- The source function `CoreAudioDevice::InitRecording`: the guards, the clock query and the
refresh of the endpoint through `InitMicrophone`, then `InitRecording_onEndpoint`. -/
def InitRecording (env : Platform) (s : CoreAudioDevice) : Int × CoreAudioDevice :=
  if s._recording then (-1, s)
  else if s._recIsInitialized then (0, s)
  else
    match env.QueryPerformanceFrequency with
    | none => (-1, s)
    | some f =>
      if s._ptrDeviceIn = none then (-1, { s with _perfCounterFreq := f })
      else
        match (InitMicrophone env { s with _perfCounterFreq := f }).2._ptrDeviceIn with
        | none => (-1, (InitMicrophone env { s with _perfCounterFreq := f }).2)
        | some dev =>
          InitRecording_onEndpoint env dev (InitMicrophone env { s with _perfCounterFreq := f }).2

/-- The candidate (rate, channels) pairs in the order in which the two nested
loops visit them: `freqs` outermost, the priority list innermost. -/
def candidates (prio : List Nat) : List (Nat × Nat) :=
  freqs.flatMap (fun f => prio.map (fun c => (f, c)))

/-! ## `StartRecording` and `StopRecording` -/

/-- The ways in which an operation can end without returning. -/
inductive Fault where
  | assertFailed
  | divideByZero
  | nullDereference
  | hang
deriving DecidableEq, Repr

/-- The platform's answers to `StartRecording`: whether `CreateThread` returned
a handle, and the result of `WaitForSingleObject(_hCaptureStartedEvent, 1000)`. -/
structure StartOracle where
  CreateThread : Bool
  WaitForCaptureStarted : Nat
deriving DecidableEq, Repr

/-- The source function `CoreAudioDevice::StartRecording`. -/
def StartRecording (o : StartOracle) (s : CoreAudioDevice) : Int × CoreAudioDevice :=
  if !s._recIsInitialized then (-1, s)
  else if s._hRecThread then (0, s)
  else if s._recording then (0, s)
  else if !o.CreateThread then (-1, s)
  else if o.WaitForCaptureStarted ≠ WAIT_OBJECT_0 then
    (-1, { s with _hRecThread := true, threadsCreated := s.threadsCreated + 1 })
  else
    (0, { s with _hRecThread := true, threadsCreated := s.threadsCreated + 1,
                 _recording := true })

/-- What happens while `StopRecording` waits, unlocked, for the capture thread:
the result of `WaitForSingleObject(_hRecThread, 2000)` and whether the capture
thread has, by the time the caller re-acquires the lock, run the two
`SAFE_RELEASE`s at the end of `DoCaptureThread`. -/
structure JoinOracle where
  WaitForThread : Nat
  threadReleasedClients : Bool
deriving DecidableEq, Repr

/-- The session as the caller finds it when it re-acquires the lock after the
join in `StopRecording`. -/
def afterJoin (o : JoinOracle) (s : CoreAudioDevice) : CoreAudioDevice :=
  if o.threadReleasedClients then
    { s with _ptrClientIn := none, _ptrLoopbackClient := false }
  else s

/-- The part of `StopRecording` that follows the join, with the lock held
again: `ResetEvent`, the two assertions on the client interfaces, the two
flags, `CloseHandle` and the return of `err`. -/
def StopRecording_finish (err : Int) (s1 : CoreAudioDevice) :
    Except Fault (Int × CoreAudioDevice) :=
  if err = -1 ∨ s1._ptrClientIn = none then
    if err = -1 ∨ s1._ptrLoopbackClient = false then
      .ok (err, { s1 with _hShutdownCaptureEvent := false, _recIsInitialized := false,
                          _recording := false, _hRecThread := false })
    else .error Fault.assertFailed
  else .error Fault.assertFailed

/-- The source function `CoreAudioDevice::StopRecording`. -/
def StopRecording (o : JoinOracle) (s : CoreAudioDevice) :
    Except Fault (Int × CoreAudioDevice) :=
  if s._recIsInitialized = false then .ok (0, s)
  else if s._hRecThread = false then
    .ok (0, { s with _ptrClientIn := none, _ptrLoopbackClient := false,
                     _recIsInitialized := false, _recording := false })
  else
    StopRecording_finish (if o.WaitForThread ≠ WAIT_OBJECT_0 then -1 else 0)
      (afterJoin o { s with _hShutdownCaptureEvent := true })

/-- The source function `CoreAudioDevice::RecordingIsInitialized`. -/
def RecordingIsInitialized (s : CoreAudioDevice) : Bool := s._recIsInitialized

/-- The source function `CoreAudioDevice::Recording`. -/
def Recording (s : CoreAudioDevice) : Bool := s._recording

/-! ## The capture thread -/

/-- One block handed to the audio buffer: the bytes given to
`SetRecordedBuffer` (the first `_recBlockSize` frames of the sync buffer) and the
two values given to `SetVQEData`, followed by `DeliverRecordedData`. -/
structure RecordedBlock where
  payload : List Nat
  playDelayMs : Nat
  recDelayMs : Nat
deriving DecidableEq, Repr

/-- The local variables of `DoCaptureThread` together with the session as the
thread sees it.  `delivered` is the trace of delivered blocks, `lockDepth`
counts how often the thread holds the session lock, `lockFault` records an
`_UnLock()` issued while the thread did not hold it, and `captureStarted` records
`SetEvent(_hCaptureStartedEvent)`. -/
structure CaptureThread where
  dev : CoreAudioDevice
  syncBuffer : List Nat
  syncBufferSize : Nat
  syncBufIndex : Nat
  hr : HRESULT
  keepRecording : Bool
  delivered : List RecordedBlock
  lockDepth : Nat
  lockFault : Bool
  captureStarted : Bool
deriving DecidableEq, Repr

/-- The source function `CoreAudioDevice::_Lock`, as seen by the capture thread. -/
def _Lock (t : CaptureThread) : CaptureThread :=
  { t with lockDepth := t.lockDepth + 1 }

/-- The source function `CoreAudioDevice::_UnLock`, as seen by the capture thread. -/
def _UnLock (t : CaptureThread) : CaptureThread :=
  if t.lockDepth = 0 then { t with lockFault := true }
  else { t with lockDepth := t.lockDepth - 1 }

/-- The two `SAFE_RELEASE`s of the client interfaces. -/
def releaseClients (s : CoreAudioDevice) : CoreAudioDevice :=
  { s with _ptrClientIn := none, _ptrLoopbackClient := false }

/-- The answer of `IAudioCaptureClient::GetBuffer`. -/
structure CapturePacket where
  hr : HRESULT
  pData : Option (List Nat)
  framesAvailable : Nat
  flags : Nat
  recPos : Nat
  recTime : Nat
deriving DecidableEq, Repr

/-- The platform's answers during one pass of the inner loop.  `teardownBefore`
says that another thread released the client interfaces before the pass took the
lock; `teardownAfter k` says the same for the unlocked delivery of the `k`-th
block of this pass.  `t1` is the reading of `QueryPerformanceCounter`. -/
structure PassOracle where
  teardownBefore : Bool
  packet : CapturePacket
  ReleaseBuffer : HRESULT
  t1 : Nat
  teardownAfter : Nat → Bool

/-- How one pass of the inner loop ends. -/
inductive PassResult where
  | next (t : CaptureThread)
  | bufferEmpty (t : CaptureThread)
  | gotoExit (t : CaptureThread)
  | fault (f : Fault)
deriving DecidableEq, Repr

/-- The calls `CopyMemory(&buf[off], data, data.length)` and `ZeroMemory`; a write that
runs past the end of the block lands in the memory behind it. -/
def writeBytes (buf : List Nat) (off : Nat) (data : List Nat) : List Nat :=
  buf.take off ++ data ++ buf.drop (off + data.length)

/-- The bytes that a pass stores for its packet: the device memory, or zeros when
the packet is flagged silent or carries no data pointer. -/
def storedBytes (frameSize : Nat) (p : CapturePacket) : List Nat :=
  if p.flags &&& AUDCLNT_BUFFERFLAGS_SILENT ≠ 0 then
    List.replicate (u32 (p.framesAvailable * frameSize)) 0
  else
    match p.pData with
    | some d => d.take (u32 (p.framesAvailable * frameSize))
    | none => List.replicate (u32 (p.framesAvailable * frameSize)) 0

/-- The member `_perfCounterFactor` for a stored clock frequency `freq ≠ 0`:
`10000000.0 / (double)_perfCounterFreq.QuadPart` (line 1315).  Apart from the
constructor the member is assigned only there, in the statement that follows
the one reading `_perfCounterFreq` (line 1312), and the capture thread is
started only on a session that `InitRecording` has initialised; so whenever
the thread runs the member is this function of the stored frequency, and the
model recomputes it instead of storing it. -/
def _perfCounterFactor (freq : Nat) : Double :=
  Double.div (Double.ofNat 10000000) (Double.ofNat freq)

/-- The clock reading in 100-ns units, `(UINT64)t1.QuadPart * _perfCounterFactor`. -/
def clock100ns (freq t1 : Nat) : Double :=
  Double.mul (Double.ofNat (u64 t1)) (_perfCounterFactor freq)

/-- The elapsed time in milliseconds,
`(((UINT64)t1.QuadPart * _perfCounterFactor) - recTime) / 10000`. -/
def elapsedMs (freq t1 recTime : Nat) : Double :=
  Double.div (Double.sub (clock100ns freq t1) (Double.ofNat recTime)) (Double.ofNat 10000)

/-- The `double` converted at lines 1915-1917:
`elapsed + (10 * syncBufIndex) / _recBlockSize - 10`, where the quotient is
computed in `UINT32` and then converted, and the sum is formed before the
difference. -/
def recDelayValue (freq t1 recTime syncBufIndex recBlockSize : Nat) : Double :=
  Double.sub
    (Double.add (elapsedMs freq t1 recTime)
      (Double.ofNat (u32 (10 * syncBufIndex) / recBlockSize)))
    (Double.ofNat 10)

/-- The capture delay `sndCardRecDelay` computed after a packet has been
appended (lines 1915-1917):
`(uint32_t)((((UINT64)t1 * _perfCounterFactor) - recTime) / 10000
  + (10 * syncBufIndex) / _recBlockSize - 10)`, every step in double precision.
With a stored frequency of 0 the factor is infinite and the value converted
is not finite, which the conversion turns into 0. -/
def recDelay (freq t1 recTime syncBufIndex recBlockSize : Nat) : Nat :=
  if freq = 0 then 0
  else Double.toUInt32 (recDelayValue freq t1 recTime syncBufIndex recBlockSize)

/-- The end of one iteration of the block loop: `MoveMemory` of the remaining
`syncBufIndex - _recBlockSize` frames to the front of the sync buffer and
`syncBufIndex -= _recBlockSize`. -/
def shiftBlock (t : CaptureThread) : CaptureThread :=
  { t with
    syncBuffer :=
      writeBytes t.syncBuffer 0
        ((t.syncBuffer.drop (u32 (t.dev._recBlockSize * t.dev._recAudioFrameSize))).take
          (u32 ((t.syncBufIndex - t.dev._recBlockSize) * t.dev._recAudioFrameSize)))
    syncBufIndex := t.syncBufIndex - t.dev._recBlockSize }

/-- The delivery of one block: `SetRecordedBuffer`, `SetVQEData`, then
`DeliverRecordedData` between `_UnLock()` and `_Lock()`; `teardown` says whether
another thread released the client interfaces during the unlocked call. -/
def handOver (sndCardRecDelay : Nat) (teardown : Bool) (t : CaptureThread) : CaptureThread :=
  let t1 := _Lock (_UnLock
    { t with
      delivered := t.delivered ++
        [{ payload := t.syncBuffer.take (t.dev._recBlockSize * t.dev._recAudioFrameSize)
           playDelayMs := 0
           recDelayMs := sndCardRecDelay }] })
  if teardown then { t1 with dev := releaseClients t1.dev } else t1

/-- The loop `while (syncBufIndex >= _recBlockSize)`: `k` counts the blocks
already handled in this pass and `sndCardRecDelay` is the local of that name.
`fuel` bounds the number of iterations; the loop is reported as `hang` when the
bound is used up with the loop condition still true. -/
def deliverLoop (teardownAfter : Nat → Bool) :
    Nat → Nat → Nat → CaptureThread → PassResult
  | 0, _, _, t =>
    if t.syncBufIndex ≥ t.dev._recBlockSize then .fault Fault.hang else .next t
  | fuel + 1, k, sndCardRecDelay, t =>
    if t.syncBufIndex ≥ t.dev._recBlockSize then
      match t.dev._ptrAudioBuffer with
      | some _ =>
        if (handOver sndCardRecDelay (teardownAfter k) t).dev._ptrLoopbackClient = false ∨
            (handOver sndCardRecDelay (teardownAfter k) t).dev._ptrClientIn = none then
          .gotoExit (_UnLock (handOver sndCardRecDelay (teardownAfter k) t))
        else
          deliverLoop teardownAfter fuel (k + 1) (u32 (sndCardRecDelay + 2 ^ 32 - 10))
            (shiftBlock (handOver sndCardRecDelay (teardownAfter k) t))
      | none =>
        deliverLoop teardownAfter fuel (k + 1) (u32 (sndCardRecDelay + 2 ^ 32 - 10))
          (shiftBlock t)
    else .next t

/-- The effect of a successfully read and released packet on the thread's
state, up to the block loop: the packet's bytes are stored at the fill offset,
`hr` holds the result of `ReleaseBuffer`, `_readSamples` and `syncBufIndex`
advance by `framesAvailable`, and the capture delay is computed and stored. -/
def appendPacket (o : PassOracle) (t : CaptureThread) : CaptureThread :=
  { t with
    syncBuffer :=
      writeBytes t.syncBuffer (u32 (t.syncBufIndex * t.dev._recAudioFrameSize))
        (storedBytes t.dev._recAudioFrameSize o.packet)
    hr := o.ReleaseBuffer
    syncBufIndex := u32 (t.syncBufIndex + o.packet.framesAvailable)
    dev := { t.dev with
              _readSamples := u64 (t.dev._readSamples + o.packet.framesAvailable)
              _sndCardRecDelay :=
                recDelay t.dev._perfCounterFreq o.t1 o.packet.recTime
                  (u32 (t.syncBufIndex + o.packet.framesAvailable)) t.dev._recBlockSize } }

/-- The session as the thread finds it when it takes the lock at the head of a
pass. -/
def enterPass (o : PassOracle) (t : CaptureThread) : CaptureThread :=
  if o.teardownBefore then { (_Lock t) with dev := releaseClients (_Lock t).dev } else _Lock t

/-- The body of the inner loop `while (keepRecording)` of `DoCaptureThread`: one
`GetBuffer` and what follows it.  In the source the copy into the sync buffer
(the buffer of `appendPacket`) precedes the capacity assertion; a failed
assertion aborts the thread, so the fault carries no state and the write
already made is not part of the result.  `KeyPressed`/`SetTypingStatus` are
left out. -/
def capturePass (o : PassOracle) (t : CaptureThread) : PassResult :=
  if (enterPass o t).dev._ptrLoopbackClient = false ∨ (enterPass o t).dev._ptrClientIn = none then
    .gotoExit (_UnLock (enterPass o t))
  else if SUCCEEDED o.packet.hr then
    if o.packet.hr = AUDCLNT_S_BUFFER_EMPTY then
      .bufferEmpty (_UnLock { (enterPass o t) with hr := o.packet.hr })
    else if o.packet.framesAvailable = 0 then .fault Fault.assertFailed
    else if ¬ ((enterPass o t).syncBufferSize ≥
        u32 (u32 ((enterPass o t).syncBufIndex * (enterPass o t).dev._recAudioFrameSize) +
             u32 (o.packet.framesAvailable * (enterPass o t).dev._recAudioFrameSize)))
    then .fault Fault.assertFailed
    else if FAILED o.ReleaseBuffer then
      .gotoExit { (enterPass o t) with
                  syncBuffer := (appendPacket o (enterPass o t)).syncBuffer
                  hr := o.ReleaseBuffer }
    else if (enterPass o t).dev._recBlockSize = 0 then .fault Fault.divideByZero
    else
      match deliverLoop o.teardownAfter (appendPacket o (enterPass o t)).syncBufIndex 0
          (appendPacket o (enterPass o t)).dev._sndCardRecDelay
          (appendPacket o (enterPass o t)) with
      | .next t4 => .next (_UnLock t4)
      | r => r
  else .gotoExit { (enterPass o t) with hr := o.packet.hr }

/-- How a loop of the capture thread ends: `pending` when the platform's
answers are used up while the loop is still running, `done` when the loop was
left in the normal way, `gotoExit` on a jump to the label `Exit`. -/
inductive LoopResult where
  | pending (t : CaptureThread)
  | done (t : CaptureThread)
  | gotoExit (t : CaptureThread)
  | fault (f : Fault)
deriving DecidableEq, Repr

/-- The inner loop `while (keepRecording)`: one pass per `GetBuffer` answer. -/
def drainLoop : List PassOracle → CaptureThread → LoopResult
  | [], t => .pending t
  | o :: rest, t =>
    match capturePass o t with
    | .next t1 => drainLoop rest t1
    | .bufferEmpty t1 => .done t1
    | .gotoExit t1 => .gotoExit t1
    | .fault f => .fault f

/-- The result of `WaitForMultipleObjects(2, waitArray, FALSE, 500)` with
`waitArray = { _hShutdownCaptureEvent, _hCaptureSamplesReadyEvent }`; a
samples-ready wake-up carries the answers to the `GetBuffer` passes after it. -/
inductive WaitEvent where
  | shutdown
  | samplesReady (passes : List PassOracle)
  | timeout
  | unexpected

/-- The outer loop `while (keepRecording)` of `DoCaptureThread`. -/
def captureLoop : List WaitEvent → CaptureThread → LoopResult
  | [], t => .pending t
  | WaitEvent.shutdown :: _, t => .done { t with keepRecording := false }
  | WaitEvent.timeout :: _, t => .gotoExit t
  | WaitEvent.unexpected :: _, t => .gotoExit t
  | WaitEvent.samplesReady passes :: rest, t =>
    match drainLoop passes t with
    | .done t1 => captureLoop rest t1
    | r => r

/-- The platform's answers to one run of `DoCaptureThread`.  `uninitialised` is
the content of the freshly allocated sync buffer; `StopAfterLoop` answers the
`Stop` after a normal end of the loop, `StopPremature` and `ResetPremature` the
`hr = Stop(); hr = Reset()` of the premature branch, of which only the second
result survives. -/
structure ThreadOracle where
  comInitSucceeded : Bool
  GetBufferSize : HRESULT × Nat
  uninitialised : Nat → Nat
  Start : HRESULT
  events : List WaitEvent
  StopAfterLoop : HRESULT
  StopPremature : HRESULT
  ResetPremature : HRESULT

/-- How a run of `DoCaptureThread` ends: with the thread's exit code, still
`running` when the platform's answers are used up, or with a fault. -/
inductive ThreadResult where
  | returned (exitCode : Nat) (t : CaptureThread)
  | running (t : CaptureThread)
  | fault (f : Fault)
deriving DecidableEq, Repr

/-- The code of `DoCaptureThread` from the label `Exit:` to its `return`. -/
def DoCaptureThread_Exit (o : ThreadOracle) (t : CaptureThread) : ThreadResult :=
  if FAILED t.hr ∧ t.dev._ptrClientIn = none then .fault Fault.nullDereference
  else
    let t1 := _Lock (if FAILED t.hr then _UnLock t else t)
    let t2 : CaptureThread :=
      if t1.keepRecording ∧ t1.dev._ptrClientIn ≠ none then { t1 with hr := o.ResetPremature }
      else t1
    let t3 := _UnLock { t2 with dev := releaseClients t2.dev }
    .returned (toDWORD t3.hr) t3

/-- The local state at the start of `DoCaptureThread`. -/
def threadStart (s : CoreAudioDevice) : CaptureThread :=
  { dev := { s with _readSamples := 0 }
    syncBuffer := []
    syncBufferSize := 0
    syncBufIndex := 0
    hr := S_OK
    keepRecording := true
    delivered := []
    lockDepth := 0
    lockFault := false
    captureStarted := false }

/-- The state with which `DoCaptureThread` enters its loop when the start-up
succeeded: the sync buffer of `2 * (bufferLength * _recAudioFrameSize)` bytes
(computed in `UINT32`) is allocated, `hr` holds the result of `Start`, the lock
has been taken and released, and the capture-started event has been set. -/
def loopEntry (o : ThreadOracle) (s : CoreAudioDevice) : CaptureThread :=
  { (_UnLock
      { (_Lock (threadStart s)) with
        syncBufferSize := u32 (2 * u32 (o.GetBufferSize.2 * s._recAudioFrameSize))
        syncBuffer :=
          (List.range (u32 (2 * u32 (o.GetBufferSize.2 * s._recAudioFrameSize)))).map
            o.uninitialised
        hr := o.Start }) with
    captureStarted := true }

/-- The source function `CoreAudioDevice::DoCaptureThread`.  `InitCaptureThreadPriority` always
returns `S_OK` and the values that are only logged are left out. -/
def DoCaptureThread (o : ThreadOracle) (s : CoreAudioDevice) : ThreadResult :=
  if !o.comInitSucceeded then .returned 1 (threadStart s)
  else if s._ptrClientIn = none then .returned 1 (_Lock (threadStart s))
  else if FAILED o.GetBufferSize.1 then
    DoCaptureThread_Exit o { (_Lock (threadStart s)) with hr := o.GetBufferSize.1 }
  else if FAILED o.Start then
    DoCaptureThread_Exit o
      { (_Lock (threadStart s)) with
        syncBufferSize := u32 (2 * u32 (o.GetBufferSize.2 * s._recAudioFrameSize))
        syncBuffer :=
          (List.range (u32 (2 * u32 (o.GetBufferSize.2 * s._recAudioFrameSize)))).map
            o.uninitialised
        hr := o.Start }
  else
    match captureLoop o.events (loopEntry o s) with
    | .done t2 =>
      DoCaptureThread_Exit o
        (if t2.dev._ptrClientIn ≠ none then { t2 with hr := o.StopAfterLoop } else t2)
    | .gotoExit t2 => DoCaptureThread_Exit o t2
    | .pending t2 => .running t2
    | .fault f => .fault f

/-- The exit code of a capture-thread run that returned. -/
def ThreadResult.exitCode : ThreadResult → Option Nat
  | .returned c _ => some c
  | _ => none

/-- The final state of a capture-thread run that returned. -/
def ThreadResult.final : ThreadResult → Option CaptureThread
  | .returned _ t => some t
  | _ => none

/-! ## Conditions under which the drain step is studied -/

/-- The capture thread is in its loop in the nominal situation: an audio buffer
is attached, both client interfaces are present, block size and frame size are
positive, and the sync buffer has its allocated size (a 32-bit value) and holds
`syncBufIndex` frames. -/
structure CaptureThread.Nominal (t : CaptureThread) : Prop where
  attached : t.dev._ptrAudioBuffer ≠ none
  clientIn : t.dev._ptrClientIn ≠ none
  loopbackClient : t.dev._ptrLoopbackClient = true
  blockSize_pos : 0 < t.dev._recBlockSize
  frameSize_pos : 0 < t.dev._recAudioFrameSize
  buffer_length : t.syncBuffer.length = t.syncBufferSize
  size_u32 : t.syncBufferSize < 2 ^ 32
  fill_le : t.syncBufIndex * t.dev._recAudioFrameSize ≤ t.syncBufferSize

/-- A pass that reads a non-empty packet without any failure or interference:
no concurrent teardown, `GetBuffer` succeeds with a result other than
`AUDCLNT_S_BUFFER_EMPTY` and at least one frame, `ReleaseBuffer` does not fail,
and the device memory, when present, holds the announced number of bytes. -/
structure PassOracle.Nominal (frameSize : Nat) (o : PassOracle) : Prop where
  noTeardownBefore : o.teardownBefore = false
  succeeded : SUCCEEDED o.packet.hr = true
  notEmpty : o.packet.hr ≠ AUDCLNT_S_BUFFER_EMPTY
  frames_pos : o.packet.framesAvailable ≠ 0
  released : FAILED o.ReleaseBuffer = false
  noTeardownAfter : ∀ k, o.teardownAfter k = false
  data_length : ∀ d, o.packet.pData = some d → d.length = o.packet.framesAvailable * frameSize

/-- No packet of the sequence overflows the sync buffer: with `idx` frames held
when a packet arrives, its bytes fit behind them in `cap` bytes; the fill left
for the next packet is the remainder modulo the block size `b`. -/
def Fits (cap frameSize b : Nat) : Nat → List PassOracle → Prop
  | _, [] => True
  | idx, o :: rest =>
    idx * frameSize + o.packet.framesAvailable * frameSize ≤ cap ∧
    Fits cap frameSize b ((idx + o.packet.framesAvailable) % b) rest

/-- The number of frames carried by a sequence of packets. -/
def totalFrames (passes : List PassOracle) : Nat :=
  (passes.map (fun o => o.packet.framesAvailable)).sum

/-- The payload bytes of a sequence of delivered blocks, in delivery order. -/
def payloadBytes (blocks : List RecordedBlock) : List Nat :=
  (blocks.map (fun blk => blk.payload)).flatten

/-- The bytes of a sequence of packets, in capture order. -/
def packetBytes (frameSize : Nat) (passes : List PassOracle) : List Nat :=
  (passes.map (fun o => storedBytes frameSize o.packet)).flatten

/-- The state in which the capture thread is back at the wait at the top of its
outer loop after the wake-ups `pre`, each of which was a samples-ready wake-up
whose inner loop ran until the endpoint reported an empty buffer; `none` when
the thread did not get back there. -/
def atLoopTop : List WaitEvent → CaptureThread → Option CaptureThread
  | [], t => some t
  | WaitEvent.samplesReady passes :: rest, t =>
    match drainLoop passes t with
    | .done t1 => atLoopTop rest t1
    | _ => none
  | _ :: _, _ => none

/-! ## Device description and selection, probes, stereo configuration -/

/-- The value of `(UINT)n` for a signed 16-bit `n`, as in
`UINT nDevices = RecordingDevices();`. -/
def toUINT (n : Int) : Nat := (n % 2 ^ 32).toNat

/-- The result code of the source functions `_GetListDeviceName` and
`_GetListDeviceID`: -1 when `Item` fails on the current collection, otherwise
the 0 of `_GetDeviceName`/`_GetDeviceID`; without a collection `Item` is not
called. -/
def _GetListDeviceID (env : Platform) (s : CoreAudioDevice) (index : Nat) : Int :=
  match s._ptrLoopbackCollection with
  | none => 0
  | some coll => if FAILED (env.Item coll index).1 then -1 else 0

/-- The result code of the source functions `_GetDefaultDeviceName` and
`_GetDefaultDeviceID`; the assertion on `role` holds at their call sites, which
pass `eCommunications`. -/
def _GetDefaultDeviceID (env : Platform) (role : ERole) : Int :=
  if FAILED (env.GetDefaultAudioEndpoint EDataFlow.eRender role).1 then -1 else 0

/-- The source function `CoreAudioDevice::RecordingDeviceName`: its result code
and the session after it.  `nameIsNull` says whether the `name` argument is
`nullptr`; the text written to `name` and `guid` is not modelled. -/
def RecordingDeviceName (env : Platform) (index : Nat) (nameIsNull : Bool)
    (s : CoreAudioDevice) : Int × CoreAudioDevice :=
  let nDevices := (RecordingDevices env s).1
  let s1 := (RecordingDevices env s).2
  let defaultCommunicationDevice := decide (index = 2 ^ 16 - 1)
  let index1 := if defaultCommunicationDevice then 0 else index
  if (index1 : Int) > nDevices - 1 ∨ nameIsNull then (-1, s1)
  else if defaultCommunicationDevice then (_GetDefaultDeviceID env ERole.eCommunications, s1)
  else (_GetListDeviceID env s1 index1, s1)

/-- The source function `CoreAudioDevice::SetRecordingDevice(uint16_t index)`
("SetRecordingDevice I (II)").  The range check compares in `unsigned int`:
`index > (nDevices - 1)` with `UINT nDevices`. -/
def SetRecordingDevice_I (env : Platform) (index : Nat) (s : CoreAudioDevice) :
    Except Fault (Int × CoreAudioDevice) :=
  if s._recIsInitialized then .ok (-1, s)
  else if index > u32 (toUINT (RecordingDevices env s).1 + 2 ^ 32 - 1) then
    .ok (-1, (RecordingDevices env s).2)
  else
    match (RecordingDevices env s).2._ptrLoopbackCollection with
    | none => .error Fault.assertFailed
    | some coll =>
      if FAILED (env.Item coll index).1 then
        .ok (-1, { (RecordingDevices env s).2 with _ptrDeviceIn := none })
      else
        .ok (0, { (RecordingDevices env s).2 with
                    _ptrDeviceIn := (env.Item coll index).2
                    _usingInputDeviceIndex := true
                    _inputDeviceIndex := index })

/-- The source function
`CoreAudioDevice::SetRecordingDevice(AudioDeviceModule::WindowsDeviceType device)`
("SetRecordingDevice II (II)"); the local `role` is `eMultimedia`. -/
def SetRecordingDevice_II (env : Platform) (device : WindowsDeviceType) (s : CoreAudioDevice) :
    Int × CoreAudioDevice :=
  if s._recIsInitialized then (-1, s)
  else if FAILED (env.GetDefaultAudioEndpoint EDataFlow.eRender ERole.eMultimedia).1 then
    (-1, { (_RefreshDeviceList env s).2 with _ptrDeviceIn := none })
  else
    (0, { (_RefreshDeviceList env s).2 with
            _ptrDeviceIn := (env.GetDefaultAudioEndpoint EDataFlow.eRender ERole.eMultimedia).2
            _usingInputDeviceIndex := false
            _inputDevice := device })

/-- The source function `CoreAudioDevice::SetStereoRecording`. -/
def SetStereoRecording (enable : Bool) (s : CoreAudioDevice) : Int × CoreAudioDevice :=
  if enable then
    (0, { s with _recChannelsPrioList := (s._recChannelsPrioList.set 0 2).set 1 1
                 _recChannels := 2 })
  else
    (0, { s with _recChannelsPrioList := (s._recChannelsPrioList.set 0 1).set 1 2
                 _recChannels := 1 })

/-- The source function `CoreAudioDevice::StereoRecording`: the result code and
the value left in `enabled`. -/
def StereoRecording (s : CoreAudioDevice) : Int × Bool :=
  (0, decide (s._recChannels = 2))

/-- The source function `CoreAudioDevice::InitPlayout`. -/
def InitPlayout (s : CoreAudioDevice) : Int × CoreAudioDevice :=
  (0, { s with _playIsInitialized := true })

/-- The source function `CoreAudioDevice::StopPlayout`. -/
def StopPlayout (s : CoreAudioDevice) : Int × CoreAudioDevice := (0, s)

/-- The source function `CoreAudioDevice::PlayoutIsAvailable`: the result code,
the value left in `available` and the session after it. -/
def PlayoutIsAvailable (s : CoreAudioDevice) : Int × Bool × CoreAudioDevice :=
  (0, decide ((InitPlayout s).1 ≠ -1), (StopPlayout (InitPlayout s).2).2)

/-- The source function `CoreAudioDevice::RecordingIsAvailable`: the result
code, the value left in `available` and the session after it. -/
def RecordingIsAvailable (env : Platform) (o : JoinOracle) (s : CoreAudioDevice) :
    Except Fault (Int × Bool × CoreAudioDevice) :=
  match StopRecording o (InitRecording env s).2 with
  | .error f => .error f
  | .ok r => .ok (0, decide ((InitRecording env s).1 ≠ -1), r.2)

/-- The Windows semantics of `WaitForMultipleObjects(2, waitArray, FALSE, 500)`
for the `waitArray` of `DoCaptureThread`, whose first handle is
`_hShutdownCaptureEvent` and whose second is `_hCaptureSamplesReadyEvent`: the
result names the signalled handle with the smallest index, and is the time-out
when neither is signalled within the 500 ms. -/
def WaitForMultipleObjects (shutdownSignalled samplesReadySignalled : Bool)
    (passes : List PassOracle) : WaitEvent :=
  if shutdownSignalled then WaitEvent.shutdown
  else if samplesReadySignalled then WaitEvent.samplesReady passes
  else WaitEvent.timeout

/-! ## Session life cycle and sequences of public operations -/

/-- The source function `CoreAudioDevice::AttachAudioBuffer`: the buffer is
attached and told a recording rate and channel count of 0. -/
def AttachAudioBuffer (s : CoreAudioDevice) : CoreAudioDevice :=
  { s with _ptrAudioBuffer := some (AudioDeviceBuffer.mk 0 0) }

/-- The source function `CoreAudioDevice::Init`; `_EnumerateEndpointDevicesAll`
is a `const` member that only logs, and the result `InitStatus::OK` is 0. -/
def Init (s : CoreAudioDevice) : Int × CoreAudioDevice :=
  if s._initialized then (0, s)
  else (0, { s with _initialized := true })

/-- The source function `CoreAudioDevice::Terminate`. -/
def Terminate (s : CoreAudioDevice) : Int × CoreAudioDevice :=
  if !s._initialized then (0, s)
  else
    (0, { s with
            _initialized := false
            _speakerIsInitialized := false
            _microphoneIsInitialized := false
            _recording := false
            _ptrLoopbackCollection := none
            _ptrDeviceIn := none
            _ptrClientIn := none
            _ptrLoopbackClient := false
            _ptrCaptureVolume := false
            _ptrRenderSimpleVolume := false })

/-- The source function `CoreAudioDevice::InitSpeaker`. -/
def InitSpeaker (s : CoreAudioDevice) : Int × CoreAudioDevice :=
  (0, { s with _speakerIsInitialized := true })

/-- The source function `CoreAudioDevice::PlayoutDevices`, which has the body
of `RecordingDevices`. -/
def PlayoutDevices (env : Platform) (s : CoreAudioDevice) : Int × CoreAudioDevice :=
  if (_RefreshDeviceList env s).1 ≠ -1 then
    (_DeviceListCount env (_RefreshDeviceList env s).2, (_RefreshDeviceList env s).2)
  else (-1, (_RefreshDeviceList env s).2)

/-- One call of a public operation of `CoreAudioDevice` that writes session
state, together with the platform's answers to it.  The remaining public
operations (the volume, mute and stereo-playout stubs, `StartPlayout`,
`StopPlayout`, `SetPlayoutDevice`, `PlayoutDeviceName`, the `const` queries)
write no member of the session. -/
inductive Op where
  | AttachAudioBuffer
  | Init
  | Terminate
  | InitSpeaker
  | InitMicrophone (env : Platform)
  | SetStereoRecording (enable : Bool)
  | PlayoutDevices (env : Platform)
  | RecordingDevices (env : Platform)
  | RecordingDeviceName (env : Platform) (index : Nat) (nameIsNull : Bool)
  | SetRecordingDevice_I (env : Platform) (index : Nat)
  | SetRecordingDevice_II (env : Platform) (device : WindowsDeviceType)
  | PlayoutIsAvailable
  | RecordingIsAvailable (env : Platform) (o : JoinOracle)
  | InitPlayout
  | InitRecording (env : Platform)
  | StartRecording (o : StartOracle)
  | StopRecording (o : JoinOracle)

/-- The session after one call; a failed assertion ends the run. -/
def Op.apply : Op → CoreAudioDevice → Except Fault CoreAudioDevice
  | .AttachAudioBuffer, s => .ok (CoreAudioDevice.AttachAudioBuffer s)
  | .Init, s => .ok (CoreAudioDevice.Init s).2
  | .Terminate, s => .ok (CoreAudioDevice.Terminate s).2
  | .InitSpeaker, s => .ok (CoreAudioDevice.InitSpeaker s).2
  | .InitMicrophone env, s => .ok (CoreAudioDevice.InitMicrophone env s).2
  | .SetStereoRecording enable, s => .ok (CoreAudioDevice.SetStereoRecording enable s).2
  | .PlayoutDevices env, s => .ok (CoreAudioDevice.PlayoutDevices env s).2
  | .RecordingDevices env, s => .ok (CoreAudioDevice.RecordingDevices env s).2
  | .RecordingDeviceName env index nameIsNull, s =>
    .ok (CoreAudioDevice.RecordingDeviceName env index nameIsNull s).2
  | .SetRecordingDevice_I env index, s =>
    match CoreAudioDevice.SetRecordingDevice_I env index s with
    | .ok r => .ok r.2
    | .error f => .error f
  | .SetRecordingDevice_II env device, s =>
    .ok (CoreAudioDevice.SetRecordingDevice_II env device s).2
  | .PlayoutIsAvailable, s => .ok (CoreAudioDevice.PlayoutIsAvailable s).2.2
  | .RecordingIsAvailable env o, s =>
    match CoreAudioDevice.RecordingIsAvailable env o s with
    | .ok r => .ok r.2.2
    | .error f => .error f
  | .InitPlayout, s => .ok (CoreAudioDevice.InitPlayout s).2
  | .InitRecording env, s => .ok (CoreAudioDevice.InitRecording env s).2
  | .StartRecording o, s => .ok (CoreAudioDevice.StartRecording o s).2
  | .StopRecording o, s =>
    match CoreAudioDevice.StopRecording o s with
    | .ok r => .ok r.2
    | .error f => .error f

/-- The session after a sequence of calls made one at a time, first call
first. -/
def run : List Op → CoreAudioDevice → Except Fault CoreAudioDevice
  | [], s => .ok s
  | op :: rest, s =>
    match op.apply s with
    | .ok s1 => run rest s1
    | .error f => .error f

/-- Whether a call is `Terminate`. -/
def Op.isTerminate : Op → Bool
  | .Terminate => true
  | _ => false

/-- The members of the session that record how far recording has got: the
flags `_recording` and `_recIsInitialized`, the thread handle and the two client
interfaces. -/
def recState (s : CoreAudioDevice) : Bool × Bool × Bool × Option Nat × Bool :=
  (s._recording, s._recIsInitialized, s._hRecThread, s._ptrClientIn, s._ptrLoopbackClient)

/-- The session is Running: recording is initialised and `Recording()` is true. -/
def Running (s : CoreAudioDevice) : Prop :=
  s._recIsInitialized = true ∧ s._recording = true

end CoreAudioDevice

/-! ## The module facade -/

/-- The members of `CoreAudioModule`; `bufferStartRecordingCalls` is a ghost
counter of the calls to `audio_device_buffer_.StartRecording()`. -/
structure CoreAudioModule where
  initialized_ : Bool
  audio_device_ : CoreAudioDevice
  bufferStartRecordingCalls : Nat
deriving DecidableEq, Repr

namespace CoreAudioModule

/-- The source function `CoreAudioModule::Recording`. -/
def Recording (m : CoreAudioModule) : Bool :=
  if !m.initialized_ then false else m.audio_device_.Recording

/-- The source function `CoreAudioModule::StartRecording`. -/
def StartRecording (o : CoreAudioDevice.StartOracle) (m : CoreAudioModule) :
    Int × CoreAudioModule :=
  if !m.initialized_ then (-1, m)
  else if m.Recording then (0, m)
  else
    (( m.audio_device_.StartRecording o).1,
     { m with
       bufferStartRecordingCalls := m.bufferStartRecordingCalls + 1
       audio_device_ := (m.audio_device_.StartRecording o).2 })

/-- The source function `CoreAudioModule::SetStereoRecording`.  The member
`audio_device_buffer_` is the buffer the device holds in `_ptrAudioBuffer` once
attached. -/
def SetStereoRecording (enable : Bool) (m : CoreAudioModule) : Int × CoreAudioModule :=
  if !m.initialized_ then (-1, m)
  else if m.audio_device_.RecordingIsInitialized then (-1, m)
  else if (m.audio_device_.SetStereoRecording enable).1 = -1 then
    (-1, { m with audio_device_ := (m.audio_device_.SetStereoRecording enable).2 })
  else
    (0, { m with
          audio_device_ :=
            { (m.audio_device_.SetStereoRecording enable).2 with
              _ptrAudioBuffer :=
                (m.audio_device_.SetStereoRecording enable).2._ptrAudioBuffer.map
                  (fun b => AudioDeviceBuffer.mk b.recSampleRate (if enable then 2 else 1)) } })

end CoreAudioModule

/-! ## Concrete scenarios -/

namespace Scenario

/-- A platform with the single active endpoint `7`, on which every call
succeeds, and whose audio client accepts exactly 44100 Hz with 2 channels. -/
def envOnly44100x2 : Platform :=
  { QueryPerformanceFrequency := some 10000000
    EnumAudioEndpoints := (S_OK, [7])
    GetCount := fun l => (S_OK, l.length)
    Item := fun l i => match l.get? i with
      | some e => (S_OK, some e)
      | none => (E_FAIL, none)
    GetDefaultAudioEndpoint := fun _ _ => (S_OK, some 7)
    ActivateEndpointVolume := fun _ => (S_OK, true)
    ActivateAudioClient := fun _ => S_OK
    IsFormatSupported := fun _ rate channels =>
      if rate = 44100 ∧ channels = 2 then S_OK else S_FALSE
    AudioClientInitialize := fun _ _ _ => S_OK
    SetEventHandle := fun _ => S_OK
    GetService := fun _ => S_OK }

/-- The same platform with an audio client that answers `S_FALSE` to every
`IsFormatSupported` query and accepts the stream in `Initialize`. -/
def envNoFormat : Platform :=
  { envOnly44100x2 with IsFormatSupported := fun _ _ _ => S_FALSE }

/-- A freshly constructed session on which endpoint `7` has been selected by
role. -/
def selected : CoreAudioDevice :=
  { CoreAudioDevice.ctor with _initialized := true, _ptrDeviceIn := some 7 }

/-- The session `selected` after a successful `InitRecording` on
`envOnly44100x2`: 44100 Hz, 2 channels, both client interfaces present. -/
def initialized : CoreAudioDevice :=
  (CoreAudioDevice.InitRecording envOnly44100x2 selected).2

/-- The session `initialized` after a successful `StartRecording`. -/
def running : CoreAudioDevice :=
  (CoreAudioDevice.StartRecording { CreateThread := true, WaitForCaptureStarted := WAIT_OBJECT_0 }
    initialized).2

/-- A capture-thread run in which every platform call succeeds, on an endpoint
buffer of 8 frames, with the given sequence of wait results. -/
def threadRun (events : List CoreAudioDevice.WaitEvent) : CoreAudioDevice.ThreadOracle :=
  { comInitSucceeded := true
    GetBufferSize := (S_OK, 8)
    uninitialised := fun _ => 0
    Start := S_OK
    events := events
    StopAfterLoop := S_OK
    StopPremature := S_OK
    ResetPremature := S_OK }

/-- A `GetBuffer` pass in which `GetBuffer` itself fails with `E_FAIL`. -/
def failingGetBuffer : CoreAudioDevice.PassOracle :=
  { teardownBefore := false
    packet := { hr := E_FAIL, pData := none, framesAvailable := 0, flags := 0,
                recPos := 0, recTime := 0 }
    ReleaseBuffer := S_OK
    t1 := 0
    teardownAfter := fun _ => false }

/-- A pass that finds the client interfaces released by another thread. -/
def tornDown : CoreAudioDevice.PassOracle :=
  { failingGetBuffer with teardownBefore := true }

/-- A pass that reads `n` frames of device memory `data` without any failure,
with clock reading `t1` and packet time stamp `recTime`. -/
def goodPass (data : List Nat) (n t1 recTime : Nat) : CoreAudioDevice.PassOracle :=
  { teardownBefore := false
    packet := { hr := S_OK, pData := some data, framesAvailable := n, flags := 0,
                recPos := 0, recTime := recTime }
    ReleaseBuffer := S_OK
    t1 := t1
    teardownAfter := fun _ => false }

/-- A capture thread in its loop with block size 3 frames, frame size 2 bytes
and an empty sync buffer of 16 bytes. -/
def smallThread : CoreAudioDevice.CaptureThread :=
  { dev := { initialized with _recBlockSize := 3, _recAudioFrameSize := 2,
                              _ptrAudioBuffer := some (AudioDeviceBuffer.mk 300 1) }
    syncBuffer := List.replicate 16 0
    syncBufferSize := 16
    syncBufIndex := 0
    hr := S_OK
    keepRecording := true
    delivered := []
    lockDepth := 0
    lockFault := false
    captureStarted := true }

/-- Two packets of 4 and 3 frames (8 and 6 bytes). -/
def twoPackets : List CoreAudioDevice.PassOracle :=
  [goodPass [1, 2, 3, 4, 5, 6, 7, 8] 4 21000 1000, goodPass [9, 10, 11, 12, 13, 14] 3 41000 2000]

/-- The join in `StopRecording` succeeds and the capture thread has released
the client interfaces on its way out. -/
def joined : CoreAudioDevice.JoinOracle :=
  { WaitForThread := WAIT_OBJECT_0, threadReleasedClients := true }

/-- The session `running` after a `StopRecording` whose join succeeded. -/
def stopped : CoreAudioDevice :=
  { running with
    _ptrClientIn := none
    _ptrLoopbackClient := false
    _hShutdownCaptureEvent := false
    _recIsInitialized := false
    _recording := false
    _hRecThread := false }

/-- A pass in which `GetBuffer` reports `AUDCLNT_S_BUFFER_EMPTY`. -/
def emptyPass : CoreAudioDevice.PassOracle :=
  { failingGetBuffer with
    packet := { hr := AUDCLNT_S_BUFFER_EMPTY, pData := none, framesAvailable := 0, flags := 0,
                recPos := 0, recTime := 0 } }

/-- A samples-ready wake-up that reads one packet of 2 frames (8 bytes at 4
bytes per frame) and then finds the endpoint buffer empty. -/
def oneWakeUp : CoreAudioDevice.WaitEvent :=
  CoreAudioDevice.WaitEvent.samplesReady [goodPass [1, 2, 3, 4, 5, 6, 7, 8] 2 21000 1000, emptyPass]

/-- A capture-thread run with one samples-ready wake-up followed by a wait at
which the shutdown event and the samples-ready event are both signalled, with
two packets waiting to be read. -/
def shutdownRun : CoreAudioDevice.ThreadOracle :=
  threadRun [oneWakeUp, CoreAudioDevice.WaitForMultipleObjects true true twoPackets]

/-- The state of `shutdownRun` on the running session when it is back at the
wait after its first wake-up. -/
def shutdownRunTop : CoreAudioDevice.CaptureThread :=
  (CoreAudioDevice.atLoopTop [oneWakeUp] (CoreAudioDevice.loopEntry shutdownRun running)).getD
    smallThread

/-- The platform `envOnly44100x2` with no active endpoint: the enumeration
succeeds with an empty collection, whose `Item` fails for every index. -/
def envNoEndpoints : Platform :=
  { envOnly44100x2 with EnumAudioEndpoints := (S_OK, []) }

/-- The platform `envOnly44100x2` on which the enumeration of endpoints fails. -/
def envRefreshFails : Platform :=
  { envOnly44100x2 with EnumAudioEndpoints := (E_FAIL, []) }

/-- The session `selected` holding the collection of an earlier, successful
refresh. -/
def selectedWithList : CoreAudioDevice :=
  { selected with _ptrLoopbackCollection := some [7] }

/-- A packet of 7 frames (14 bytes), read 2 ms after its time stamp on a clock
of 10 MHz. -/
def sevenFrames : CoreAudioDevice.PassOracle :=
  goodPass [1, 2, 3, 4, 5, 6, 7, 8, 9, 10, 11, 12, 13, 14] 7 21000 1000

/-- The calls that lead from construction to an initialised session on
`envOnly44100x2`: `Init`, selection of the default device, `InitRecording`. -/
def setUp : List CoreAudioDevice.Op :=
  [CoreAudioDevice.Op.Init,
   CoreAudioDevice.Op.SetRecordingDevice_II envOnly44100x2 WindowsDeviceType.kDefaultDevice,
   CoreAudioDevice.Op.InitRecording envOnly44100x2]

/-- A `StartRecording` whose thread is created but does not signal the
capture-started event within the second allowed. -/
def startTimesOut : CoreAudioDevice.StartOracle :=
  { CreateThread := true, WaitForCaptureStarted := WAIT_TIMEOUT }

/-- A `StartRecording` whose thread is created and signals the capture-started
event. -/
def startSucceeds : CoreAudioDevice.StartOracle :=
  { CreateThread := true, WaitForCaptureStarted := WAIT_OBJECT_0 }

/-- The session `initialized` after `Terminate`. -/
def terminated : CoreAudioDevice :=
  (CoreAudioDevice.Terminate initialized).2

/-- A capture-thread run that is woken by the shutdown event at its first wait
and whose final `Stop` fails. -/
def stopFails : CoreAudioDevice.ThreadOracle :=
  { (threadRun [CoreAudioDevice.WaitEvent.shutdown]) with StopAfterLoop := E_FAIL }

/-- The session `selected` after `InitRecording` on `envNoFormat` and a
successful `StartRecording`. -/
def runningNoFormat : CoreAudioDevice :=
  (CoreAudioDevice.StartRecording startSucceeds
    (CoreAudioDevice.InitRecording envNoFormat selected).2).2

/-- A session on which endpoint `8` was selected as index 1 of an earlier list
of two endpoints. -/
def staleSelection : CoreAudioDevice :=
  { selected with
    _ptrDeviceIn := some 8
    _usingInputDeviceIndex := true
    _inputDeviceIndex := 1 }

/-- A packet of 2 frames flagged silent whose device memory holds the bytes
9, 9, 9, 9. -/
def silentPass : CoreAudioDevice.PassOracle :=
  { teardownBefore := false
    packet := { hr := S_OK, pData := some [9, 9, 9, 9], framesAvailable := 2,
                flags := AUDCLNT_BUFFERFLAGS_SILENT, recPos := 0, recTime := 1000 }
    ReleaseBuffer := S_OK
    t1 := 21000
    teardownAfter := fun _ => false }

/-- The thread `smallThread` holding one frame, with every byte of its sync
buffer set to 7. -/
def dirtyThread : CoreAudioDevice.CaptureThread :=
  { smallThread with syncBuffer := List.replicate 16 7, syncBufIndex := 1 }

/-- The session reached from construction by `setUp` and a successful
`StartRecording`. -/
def started : CoreAudioDevice :=
  (CoreAudioDevice.StartRecording startSucceeds
    (CoreAudioDevice.InitRecording envOnly44100x2
      (CoreAudioDevice.SetRecordingDevice_II envOnly44100x2 WindowsDeviceType.kDefaultDevice
        (CoreAudioDevice.Init CoreAudioDevice.ctor).2).2).2).2

/-- The session reached from construction by `setUp` and a `StartRecording`
that timed out. -/
def timedOut : CoreAudioDevice :=
  (CoreAudioDevice.StartRecording startTimesOut
    (CoreAudioDevice.InitRecording envOnly44100x2
      (CoreAudioDevice.SetRecordingDevice_II envOnly44100x2 WindowsDeviceType.kDefaultDevice
        (CoreAudioDevice.Init CoreAudioDevice.ctor).2).2).2).2

/-- A capture-thread run whose COM initialisation fails. -/
def comInitFails : CoreAudioDevice.ThreadOracle :=
  { (threadRun []) with comInitSucceeded := false }

/-- The join in `StopRecording` succeeds on a capture thread that has ended
without releasing the client interfaces. -/
def joinedUnreleased : CoreAudioDevice.JoinOracle :=
  { WaitForThread := WAIT_OBJECT_0, threadReleasedClients := false }

end Scenario

/-! ## Theorems -/

namespace CoreAudioDevice

/-! ### Format negotiation -/

/-- The format written by `setCandidate` does not depend on the previous
candidate once `wBitsPerSample` is 16. -/
theorem setCandidate_eq (Wfx : WAVEFORMATEX) (chan freq : Nat)
    (h : Wfx.wBitsPerSample = 16) : setCandidate Wfx chan freq = setCandidate Wfx0 chan freq := by
  simp [setCandidate, Wfx0, h]

/-- The inner loop stops at the first channel count of the list that is
accepted at this frequency, and otherwise ends with a result other than `S_OK`. -/
theorem channelLoop_find (isSup : Nat → Nat → HRESULT) (freq : Nat) :
    ∀ (prio : List Nat) (acc : HRESULT × WAVEFORMATEX), acc.2.wBitsPerSample = 16 →
      acc.1 ≠ S_OK →
      (∀ c, prio.find? (fun c => decide (isSup freq c = S_OK)) = some c →
          channelLoop isSup freq prio acc = (S_OK, setCandidate Wfx0 c freq)) ∧
      (prio.find? (fun c => decide (isSup freq c = S_OK)) = none →
          (channelLoop isSup freq prio acc).1 ≠ S_OK ∧
          (channelLoop isSup freq prio acc).2.wBitsPerSample = 16) := by
  intro prio
  induction prio with
  | nil =>
    intro acc hb hne
    exact ⟨by simp, fun _ => ⟨by simpa [channelLoop] using hne, by simpa [channelLoop] using hb⟩⟩
  | cons chan rest ih =>
    intro acc hb hne
    by_cases hc : isSup freq chan = S_OK
    · constructor
      · intro c hfind
        simp [List.find?_cons, hc] at hfind
        subst hfind
        simp [channelLoop, hc, setCandidate_eq acc.2 chan freq hb]
      · intro hfind
        simp [List.find?_cons, hc] at hfind
    · have hstep : channelLoop isSup freq (chan :: rest) acc =
          channelLoop isSup freq rest (isSup freq chan, setCandidate acc.2 chan freq) := by
        simp [channelLoop, hc]
      have hb' : (isSup freq chan, setCandidate acc.2 chan freq).2.wBitsPerSample = 16 := by
        simpa [setCandidate] using hb
      have := ih (isSup freq chan, setCandidate acc.2 chan freq) hb' hc
      rw [hstep]
      constructor
      · intro c hfind
        simp [List.find?_cons, hc] at hfind
        exact this.1 c hfind
      · intro hfind
        exact this.2 (by simpa [List.find?_cons, hc] using hfind)

/-- The nested loops stop at the first accepted candidate in the order of
`candidates`, and otherwise end with a result other than `S_OK`. -/
theorem freqLoop_find (isSup : Nat → Nat → HRESULT) (prio : List Nat) :
    ∀ (fs : List Nat) (acc : HRESULT × WAVEFORMATEX), acc.2.wBitsPerSample = 16 →
      acc.1 ≠ S_OK →
      (∀ r c, (fs.flatMap (fun f => prio.map (fun c => (f, c)))).find?
            (fun p => decide (isSup p.1 p.2 = S_OK)) = some (r, c) →
          freqLoop isSup prio fs acc = (S_OK, setCandidate Wfx0 c r)) ∧
      ((fs.flatMap (fun f => prio.map (fun c => (f, c)))).find?
            (fun p => decide (isSup p.1 p.2 = S_OK)) = none →
          (freqLoop isSup prio fs acc).1 ≠ S_OK ∧
          (freqLoop isSup prio fs acc).2.wBitsPerSample = 16) := by
  intro fs
  induction fs with
  | nil =>
    intro acc hb hne
    exact ⟨by simp, fun _ => ⟨by simpa [freqLoop] using hne, by simpa [freqLoop] using hb⟩⟩
  | cons f rest ih =>
    intro acc hb hne
    have hinner := channelLoop_find isSup f prio acc hb hne
    have hmap : (prio.map (fun c => (f, c))).find? (fun p => decide (isSup p.1 p.2 = S_OK))
        = Option.map (fun c => (f, c)) (prio.find? (fun c => decide (isSup f c = S_OK))) := by
      rw [List.find?_map]
      rfl
    rw [List.flatMap_cons, List.find?_append, hmap]
    cases hfind : prio.find? (fun c => decide (isSup f c = S_OK)) with
    | some c0 =>
      have h1 := hinner.1 c0 hfind
      constructor
      · intro r c hrc
        simp at hrc
        obtain ⟨rfl, rfl⟩ := hrc
        simp [freqLoop, h1]
      · intro hnone
        simp at hnone
    | none =>
      have h2 := hinner.2 hfind
      have hstep : freqLoop isSup prio (f :: rest) acc =
          freqLoop isSup prio rest (channelLoop isSup f prio acc) := by
        simp [freqLoop, h2.1]
      have := ih (channelLoop isSup f prio acc) h2.2 h2.1
      rw [hstep]
      simpa using this

/-- The call `RecordingDevices` leaves the channel priority list alone. -/
theorem RecordingDevices_prio (env : Platform) (s : CoreAudioDevice) :
    (RecordingDevices env s).2._recChannelsPrioList = s._recChannelsPrioList := by
  unfold RecordingDevices _RefreshDeviceList
  split_ifs <;> rfl

/-- The call `InitMicrophone` leaves the channel priority list alone. -/
theorem InitMicrophone_prio (env : Platform) (s : CoreAudioDevice) :
    (InitMicrophone env s).2._recChannelsPrioList = s._recChannelsPrioList := by
  unfold InitMicrophone
  have h := RecordingDevices_prio env s
  simp only []
  repeat' split
  all_goals first | rfl | exact h

/-- A candidate found by the scan has its channel count in the priority list. -/
theorem candidates_channel_mem (prio : List Nat) (r c : Nat)
    (h : (r, c) ∈ candidates prio) : c ∈ prio := by
  simp only [candidates, List.mem_flatMap, List.mem_map] at h
  obtain ⟨_, _, c', hc', heq⟩ := h
  cases heq
  exact hc'

/-- Telling the attached audio buffer the format does not change the stored
format. -/
theorem updateAudioBuffer_format (s : CoreAudioDevice) :
    (updateAudioBuffer s)._recSampleRate = s._recSampleRate ∧
    (updateAudioBuffer s)._recChannels = s._recChannels ∧
    (updateAudioBuffer s)._recAudioFrameSize = s._recAudioFrameSize ∧
    (updateAudioBuffer s)._recBlockSize = s._recBlockSize := by
  unfold updateAudioBuffer
  split <;> simp

/-- On an endpoint whose audio client could be activated, the part of
`InitRecording` after the activation stores the first accepted candidate. -/
theorem InitRecording_onEndpoint_format (env : Platform) (dev : Nat) (s1 : CoreAudioDevice)
    (r c : Nat) (hact : FAILED (env.ActivateAudioClient dev) = false)
    (hfind : (candidates s1._recChannelsPrioList).find?
        (fun p => decide (env.IsFormatSupported dev p.1 p.2 = S_OK)) = some (r, c))
    (hc15 : c < 2 ^ 15) :
    (InitRecording_onEndpoint env dev s1).2._recSampleRate = r ∧
    (InitRecording_onEndpoint env dev s1).2._recChannels = c ∧
    (InitRecording_onEndpoint env dev s1).2._recAudioFrameSize = 2 * c ∧
    (InitRecording_onEndpoint env dev s1).2._recBlockSize = r / 100 := by
  have hloop := (freqLoop_find (env.IsFormatSupported dev) s1._recChannelsPrioList freqs
    (S_FALSE, Wfx0) rfl (by decide)).1 r c hfind
  have hu : u16 (c * 16 / 8) = 2 * c := by
    unfold u16
    omega
  have hS : ∀ S, S = storeFormat { s1 with _ptrClientIn := some dev }
      (S_OK, setCandidate Wfx0 c r) →
      S._recSampleRate = r ∧ S._recChannels = c ∧ S._recAudioFrameSize = 2 * c ∧
      S._recBlockSize = r / 100 := by
    intro S hS
    subst hS
    simp [storeFormat, setCandidate, Wfx0, hu]
  simp only [InitRecording_onEndpoint, hact, hloop, Bool.false_eq_true, if_false]
  generalize storeFormat { s1 with _ptrClientIn := some dev }
      (S_OK, setCandidate Wfx0 c r) = S at hS ⊢
  obtain ⟨g1, g2, g3, g4⟩ := hS S rfl
  obtain ⟨h1, h2, h3, h4⟩ := updateAudioBuffer_format S
  split_ifs <;> simp [InitRecording_Exit, h1, h2, h3, h4, g1, g2, g3, g4]

/-- C1. Format negotiation in `InitRecording`: whenever the call reaches the
negotiation on an endpoint `dev` (not recording, not yet initialised, clock
available, endpoint resolved, audio client activated) and the endpoint accepts at
least one candidate, the pair `(r, c)` it stores is the first accepted one in the
order `freqs` (outer) by priority list (inner), and the stored format is sample
rate `r`, channels `c`, frame byte size `2 * c` and block size `r / 100`.  The
channel counts of the list are 16-bit values whose frame size fits 16 bits
(every list the code ever holds consists of 1, 2 and 4). -/
theorem InitRecording_selects_first_accepted (env : Platform) (s : CoreAudioDevice)
    (f dev : Nat)
    (hrec : s._recording = false) (hinit : s._recIsInitialized = false)
    (hqpf : env.QueryPerformanceFrequency = some f)
    (hsel : s._ptrDeviceIn ≠ none)
    (hdev : (InitMicrophone env { s with _perfCounterFreq := f }).2._ptrDeviceIn = some dev)
    (hact : FAILED (env.ActivateAudioClient dev) = false)
    (hprio : ∀ c ∈ s._recChannelsPrioList, c < 2 ^ 15)
    (hacc : ∃ p ∈ candidates s._recChannelsPrioList,
        env.IsFormatSupported dev p.1 p.2 = S_OK) :
    ∃ r c,
      (candidates s._recChannelsPrioList).find?
          (fun p => decide (env.IsFormatSupported dev p.1 p.2 = S_OK)) = some (r, c) ∧
      (InitRecording env s).2._recSampleRate = r ∧
      (InitRecording env s).2._recChannels = c ∧
      (InitRecording env s).2._recAudioFrameSize = 2 * c ∧
      (InitRecording env s).2._recBlockSize = r / 100 := by
  have hprio' : (InitMicrophone env { s with _perfCounterFreq := f }).2._recChannelsPrioList
      = s._recChannelsPrioList := by
    rw [InitMicrophone_prio]
  obtain ⟨p, hp, hok⟩ := hacc
  have hsome : ((candidates s._recChannelsPrioList).find?
      (fun p => decide (env.IsFormatSupported dev p.1 p.2 = S_OK))).isSome := by
    rw [List.find?_isSome]
    exact ⟨p, hp, by simpa using hok⟩
  obtain ⟨⟨r, c⟩, hfind⟩ := Option.isSome_iff_exists.1 hsome
  refine ⟨r, c, hfind, ?_⟩
  have hc15 : c < 2 ^ 15 :=
    hprio c (candidates_channel_mem _ r c (List.mem_of_find?_eq_some hfind))
  have hrun : InitRecording env s =
      InitRecording_onEndpoint env dev (InitMicrophone env { s with _perfCounterFreq := f }).2 := by
    unfold InitRecording
    rw [if_neg (by simp [hrec]), if_neg (by simp [hinit])]
    simp only [hqpf]
    rw [if_neg hsel]
    simp only [hdev]
  rw [hrun]
  exact InitRecording_onEndpoint_format env dev _ r c hact
    (by rw [hprio']; exact hfind) hc15
/-! ### The drain step -/

theorem u32_of_lt {n : Nat} (h : n < 2 ^ 32) : u32 n = n := Nat.mod_eq_of_lt h

@[simp] theorem _Lock_dev (t : CaptureThread) : (_Lock t).dev = t.dev := rfl
@[simp] theorem _Lock_syncBuffer (t : CaptureThread) : (_Lock t).syncBuffer = t.syncBuffer := rfl
@[simp] theorem _Lock_syncBufferSize (t : CaptureThread) :
    (_Lock t).syncBufferSize = t.syncBufferSize := rfl
@[simp] theorem _Lock_syncBufIndex (t : CaptureThread) :
    (_Lock t).syncBufIndex = t.syncBufIndex := rfl
@[simp] theorem _Lock_delivered (t : CaptureThread) : (_Lock t).delivered = t.delivered := rfl

@[simp] theorem _UnLock_dev (t : CaptureThread) : (_UnLock t).dev = t.dev := by
  unfold _UnLock; split <;> rfl
@[simp] theorem _UnLock_syncBuffer (t : CaptureThread) :
    (_UnLock t).syncBuffer = t.syncBuffer := by
  unfold _UnLock; split <;> rfl
@[simp] theorem _UnLock_syncBufferSize (t : CaptureThread) :
    (_UnLock t).syncBufferSize = t.syncBufferSize := by
  unfold _UnLock; split <;> rfl
@[simp] theorem _UnLock_syncBufIndex (t : CaptureThread) :
    (_UnLock t).syncBufIndex = t.syncBufIndex := by
  unfold _UnLock; split <;> rfl
@[simp] theorem _UnLock_delivered (t : CaptureThread) :
    (_UnLock t).delivered = t.delivered := by
  unfold _UnLock; split <;> rfl

@[simp] theorem handOver_dev (d : Nat) (t : CaptureThread) :
    (handOver d false t).dev = t.dev := by
  simp [handOver]
@[simp] theorem handOver_syncBuffer (d : Nat) (t : CaptureThread) :
    (handOver d false t).syncBuffer = t.syncBuffer := by
  simp [handOver]
@[simp] theorem handOver_syncBufferSize (d : Nat) (t : CaptureThread) :
    (handOver d false t).syncBufferSize = t.syncBufferSize := by
  simp [handOver]
@[simp] theorem handOver_syncBufIndex (d : Nat) (t : CaptureThread) :
    (handOver d false t).syncBufIndex = t.syncBufIndex := by
  simp [handOver]
@[simp] theorem handOver_delivered (d : Nat) (t : CaptureThread) :
    (handOver d false t).delivered = t.delivered ++
      [{ payload := t.syncBuffer.take (t.dev._recBlockSize * t.dev._recAudioFrameSize)
         playDelayMs := 0
         recDelayMs := d }] := by
  simp [handOver]

/-- Writing `data` at offset `off` of a block that has room for it keeps the
length of the block. -/
theorem writeBytes_length (buf : List Nat) (off : Nat) (data : List Nat)
    (h : off + data.length ≤ buf.length) : (writeBytes buf off data).length = buf.length := by
  simp only [writeBytes, List.length_append, List.length_take, List.length_drop]
  omega

/-- After writing `data` at offset `off`, the first `off + data.length` bytes are
the old first `off` bytes followed by `data`. -/
theorem writeBytes_take (buf : List Nat) (off : Nat) (data : List Nat)
    (h : off ≤ buf.length) :
    (writeBytes buf off data).take (off + data.length) = buf.take off ++ data := by
  unfold writeBytes
  apply List.take_left'
  simp only [List.length_append, List.length_take]
  omega

/-- One iteration of the block loop in the nominal situation: the block that is
handed over followed by what stays in the buffer is what the buffer held. -/
theorem shiftBlock_spec (t : CaptureThread) (h : t.Nominal)
    (hge : t.dev._recBlockSize ≤ t.syncBufIndex) :
    (shiftBlock t).Nominal ∧
    (shiftBlock t).syncBufIndex = t.syncBufIndex - t.dev._recBlockSize ∧
    t.syncBuffer.take (t.dev._recBlockSize * t.dev._recAudioFrameSize) ++
        (shiftBlock t).syncBuffer.take
          ((shiftBlock t).syncBufIndex * t.dev._recAudioFrameSize) =
      t.syncBuffer.take (t.syncBufIndex * t.dev._recAudioFrameSize) ∧
    (t.syncBuffer.take (t.dev._recBlockSize * t.dev._recAudioFrameSize)).length =
      t.dev._recBlockSize * t.dev._recAudioFrameSize := by
  obtain ⟨h1, h2, h3, h4, h5, h6, h7, h8⟩ := h
  set b := t.dev._recBlockSize with hb
  set fs := t.dev._recAudioFrameSize with hfs
  set idx := t.syncBufIndex with hidx
  have hsplit : idx * fs = b * fs + (idx - b) * fs := by
    rw [← Nat.add_mul]
    congr 1
    omega
  have hbfs : b * fs ≤ t.syncBufferSize := by omega
  have hrest : (idx - b) * fs ≤ t.syncBufferSize := by omega
  have hX : ((t.syncBuffer.drop (b * fs)).take ((idx - b) * fs)).length = (idx - b) * fs := by
    rw [List.length_take, List.length_drop]
    omega
  have hbuf : (shiftBlock t).syncBuffer =
      writeBytes t.syncBuffer 0 ((t.syncBuffer.drop (b * fs)).take ((idx - b) * fs)) := by
    simp only [shiftBlock]
    rw [u32_of_lt (lt_of_le_of_lt hbfs h7), u32_of_lt (lt_of_le_of_lt hrest h7)]
  have hidx' : (shiftBlock t).syncBufIndex = idx - b := rfl
  have hdev : (shiftBlock t).dev = t.dev := rfl
  have hsz : (shiftBlock t).syncBufferSize = t.syncBufferSize := rfl
  refine ⟨⟨?_, ?_, ?_, ?_, ?_, ?_, ?_, ?_⟩, hidx', ?_, ?_⟩
  · rw [hdev]; exact h1
  · rw [hdev]; exact h2
  · rw [hdev]; exact h3
  · rw [hdev]; exact h4
  · rw [hdev]; exact h5
  · rw [hbuf, hsz, writeBytes_length _ _ _ (by rw [hX]; omega)]
    exact h6
  · rw [hsz]; exact h7
  · rw [hidx', hdev, hsz]; exact hrest
  · rw [hidx', hbuf]
    have := writeBytes_take t.syncBuffer 0 ((t.syncBuffer.drop (b * fs)).take ((idx - b) * fs))
      (Nat.zero_le _)
    rw [hX, Nat.zero_add] at this
    rw [this, List.take_zero, List.nil_append, hsplit, List.take_add]
  · rw [List.length_take]
    omega

/-- Handing a block over without interference keeps the nominal situation. -/
theorem handOver_nominal (d : Nat) (t : CaptureThread) (h : t.Nominal) :
    (handOver d false t).Nominal := by
  obtain ⟨h1, h2, h3, h4, h5, h6, h7, h8⟩ := h
  constructor <;> simp only [handOver_dev, handOver_syncBuffer, handOver_syncBufferSize,
    handOver_syncBufIndex] <;> assumption

/-- The block loop in the nominal situation: it ends, delivers
`syncBufIndex / _recBlockSize` blocks of `_recBlockSize * _recAudioFrameSize`
bytes each, leaves `syncBufIndex % _recBlockSize` frames, and the delivered
bytes followed by the bytes left are the bytes held before. -/
theorem deliverLoop_nominal (ta : Nat → Bool) (hta : ∀ k, ta k = false) :
    ∀ (fuel k d : Nat) (t : CaptureThread), t.Nominal →
      t.syncBufIndex / t.dev._recBlockSize ≤ fuel →
      ∃ t' blocks, deliverLoop ta fuel k d t = .next t' ∧ t'.Nominal ∧ t'.dev = t.dev ∧
        t'.syncBufferSize = t.syncBufferSize ∧
        t'.syncBufIndex = t.syncBufIndex % t.dev._recBlockSize ∧
        t'.delivered = t.delivered ++ blocks ∧
        blocks.length = t.syncBufIndex / t.dev._recBlockSize ∧
        (∀ blk ∈ blocks,
          blk.payload.length = t.dev._recBlockSize * t.dev._recAudioFrameSize) ∧
        payloadBytes blocks ++
            t'.syncBuffer.take (t'.syncBufIndex * t.dev._recAudioFrameSize) =
          t.syncBuffer.take (t.syncBufIndex * t.dev._recAudioFrameSize) := by
  intro fuel
  induction fuel with
  | zero =>
    intro k d t h hfuel
    have hb := h.blockSize_pos
    have hlt : t.syncBufIndex < t.dev._recBlockSize := by
      rcases Nat.lt_or_ge t.syncBufIndex t.dev._recBlockSize with hlt | hge
      · exact hlt
      · have := Nat.div_pos hge hb
        omega
    refine ⟨t, [], ?_, h, rfl, rfl, (Nat.mod_eq_of_lt hlt).symm, by simp, ?_, by simp, by
      simp [payloadBytes]⟩
    · simp [deliverLoop, Nat.not_le.2 hlt]
    · simp [Nat.div_eq_of_lt hlt]
  | succ fuel ih =>
    intro k d t h hfuel
    have hb := h.blockSize_pos
    rcases Nat.lt_or_ge t.syncBufIndex t.dev._recBlockSize with hlt | hge
    · refine ⟨t, [], ?_, h, rfl, rfl, (Nat.mod_eq_of_lt hlt).symm, by simp, ?_, by simp, by
        simp [payloadBytes]⟩
      · simp [deliverLoop, Nat.not_le.2 hlt]
      · simp [Nat.div_eq_of_lt hlt]
    · obtain ⟨ab, hab⟩ := Option.ne_none_iff_exists'.1 h.attached
      have h1 := handOver_nominal d t h
      obtain ⟨hs1, hs2, hs3, hs4⟩ := shiftBlock_spec (handOver d false t) h1
        (by simpa using hge)
      simp only [handOver_dev, handOver_syncBuffer, handOver_syncBufIndex] at hs2 hs3 hs4
      have hdev : (shiftBlock (handOver d false t)).dev = t.dev := by
        simp [shiftBlock]
      have hfuel' : (shiftBlock (handOver d false t)).syncBufIndex /
          (shiftBlock (handOver d false t)).dev._recBlockSize ≤ fuel := by
        rw [hs2, hdev]
        have := Nat.div_eq_sub_div hb hge
        omega
      obtain ⟨t', blocks, e1, e2, e3, e4, e5, e6, e7, e8, e9⟩ :=
        ih (k + 1) (u32 (d + 2 ^ 32 - 10)) _ hs1 hfuel'
      rw [hdev] at e3 e5 e7 e8 e9
      rw [hs2] at e5 e7 e9
      refine ⟨t', RecordedBlock.mk
        (t.syncBuffer.take (t.dev._recBlockSize * t.dev._recAudioFrameSize)) 0 d :: blocks,
        ?_, e2, e3, ?_, ?_, ?_, ?_, ?_, ?_⟩
      · rw [deliverLoop, if_pos hge, hab]
        simp only [hta]
        rw [if_neg (by simp [h.loopbackClient, h.clientIn])]
        exact e1
      · rw [e4]
        simp [shiftBlock]
      · rw [e5]
        exact (Nat.mod_eq_sub_mod hge).symm
      · rw [e6]
        simp [shiftBlock]
      · rw [List.length_cons, e7]
        exact (Nat.div_eq_sub_div hb hge).symm
      · intro blk hblk
        rcases List.mem_cons.1 hblk with rfl | hmem
        · exact hs4
        · exact e8 blk hmem
      · have : payloadBytes (RecordedBlock.mk
            (t.syncBuffer.take (t.dev._recBlockSize * t.dev._recAudioFrameSize)) 0 d :: blocks) =
            t.syncBuffer.take (t.dev._recBlockSize * t.dev._recAudioFrameSize) ++
              payloadBytes blocks := by
          simp [payloadBytes]
        rw [this, List.append_assoc, e9, ← hs3, hs2]

/-- The bytes stored for a well-formed packet are as many as it announces. -/
theorem storedBytes_length (frameSize : Nat) (p : CapturePacket)
    (hlt : p.framesAvailable * frameSize < 2 ^ 32)
    (hd : ∀ d, p.pData = some d → d.length = p.framesAvailable * frameSize) :
    (storedBytes frameSize p).length = p.framesAvailable * frameSize := by
  unfold storedBytes
  rw [u32_of_lt hlt]
  split
  · simp
  · split
    · rename_i d hdata
      rw [List.length_take, hd d hdata]
      simp
    · simp

/-- One pass of the inner loop in the nominal situation, for a packet that
fits: the pass ends normally, delivers `(syncBufIndex + n) / _recBlockSize`
blocks and leaves `(syncBufIndex + n) % _recBlockSize` frames; the delivered
bytes followed by the bytes left are the bytes held before followed by the
bytes of the packet. -/
theorem capturePass_nominal (o : PassOracle) (t : CaptureThread) (h : t.Nominal)
    (ho : o.Nominal t.dev._recAudioFrameSize)
    (hfit : t.syncBufIndex * t.dev._recAudioFrameSize +
        o.packet.framesAvailable * t.dev._recAudioFrameSize ≤ t.syncBufferSize) :
    ∃ t' blocks, capturePass o t = .next t' ∧ t'.Nominal ∧
      t'.dev._recBlockSize = t.dev._recBlockSize ∧
      t'.dev._recAudioFrameSize = t.dev._recAudioFrameSize ∧
      t'.syncBufferSize = t.syncBufferSize ∧
      t'.syncBufIndex = (t.syncBufIndex + o.packet.framesAvailable) % t.dev._recBlockSize ∧
      t'.delivered = t.delivered ++ blocks ∧
      blocks.length = (t.syncBufIndex + o.packet.framesAvailable) / t.dev._recBlockSize ∧
      (∀ blk ∈ blocks,
        blk.payload.length = t.dev._recBlockSize * t.dev._recAudioFrameSize) ∧
      payloadBytes blocks ++
          t'.syncBuffer.take (t'.syncBufIndex * t.dev._recAudioFrameSize) =
        t.syncBuffer.take (t.syncBufIndex * t.dev._recAudioFrameSize) ++
          storedBytes t.dev._recAudioFrameSize o.packet := by
  obtain ⟨h1, h2, h3, h4, h5, h6, h7, h8⟩ := h
  obtain ⟨o1, o2, o3, o4, o5, o6, o7⟩ := ho
  have hoff : t.syncBufIndex * t.dev._recAudioFrameSize < 2 ^ 32 := by omega
  have hn : o.packet.framesAvailable * t.dev._recAudioFrameSize < 2 ^ 32 := by omega
  have hsum : (t.syncBufIndex + o.packet.framesAvailable) * t.dev._recAudioFrameSize
      ≤ t.syncBufferSize := by
    rw [Nat.add_mul]; exact hfit
  have hidx : t.syncBufIndex + o.packet.framesAvailable < 2 ^ 32 := by
    have := Nat.le_mul_of_pos_right (t.syncBufIndex + o.packet.framesAvailable) h5
    omega
  have hlen := storedBytes_length t.dev._recAudioFrameSize o.packet hn o7
  have hent : enterPass o t = _Lock t := by simp [enterPass, o1]
  -- the state handed to the block loop
  obtain ⟨t3, ht3⟩ : ∃ t3 : CaptureThread, t3 = appendPacket o (_Lock t) := ⟨_, rfl⟩
  have e_dev_b : t3.dev._recBlockSize = t.dev._recBlockSize := by rw [ht3]; rfl
  have e_dev_fs : t3.dev._recAudioFrameSize = t.dev._recAudioFrameSize := by rw [ht3]; rfl
  have e_idx : t3.syncBufIndex = t.syncBufIndex + o.packet.framesAvailable := by
    rw [ht3]
    simp only [appendPacket, _Lock_syncBufIndex]
    exact u32_of_lt hidx
  have e_sz : t3.syncBufferSize = t.syncBufferSize := by rw [ht3]; rfl
  have e_del : t3.delivered = t.delivered := by rw [ht3]; rfl
  have e_buf : t3.syncBuffer = writeBytes t.syncBuffer
      (t.syncBufIndex * t.dev._recAudioFrameSize)
      (storedBytes t.dev._recAudioFrameSize o.packet) := by
    rw [ht3]
    simp only [appendPacket, _Lock_syncBufIndex, _Lock_dev, _Lock_syncBuffer]
    rw [u32_of_lt hoff]
  have e_delay : t3.dev._sndCardRecDelay =
      recDelay t.dev._perfCounterFreq o.t1 o.packet.recTime
        (t.syncBufIndex + o.packet.framesAvailable) t.dev._recBlockSize := by
    rw [ht3]
    simp only [appendPacket, _Lock_syncBufIndex, _Lock_dev]
    rw [u32_of_lt hidx]
  have hN3 : t3.Nominal := by
    refine ⟨?_, ?_, ?_, ?_, ?_, ?_, ?_, ?_⟩
    · rw [ht3]; exact h1
    · rw [ht3]; exact h2
    · rw [ht3]; exact h3
    · rw [e_dev_b]; exact h4
    · rw [e_dev_fs]; exact h5
    · rw [e_buf, e_sz, writeBytes_length _ _ _ (by rw [hlen, h6]; exact hfit)]
      exact h6
    · rw [e_sz]; exact h7
    · rw [e_idx, e_dev_fs, e_sz]; exact hsum
  obtain ⟨t4, blocks, d1, d2, d3, d4, d5, d6, d7, d8, d9⟩ :=
    deliverLoop_nominal o.teardownAfter o6 t3.syncBufIndex 0 t3.dev._sndCardRecDelay t3 hN3
      (Nat.div_le_self _ _)
  rw [e_dev_b] at d5 d7 d8
  rw [e_dev_fs] at d8 d9
  rw [e_idx] at d5 d7 d9
  refine ⟨_UnLock t4, blocks, ?_, ?_, ?_, ?_, ?_, ?_, ?_, d7, d8, ?_⟩
  · unfold capturePass
    rw [hent]
    simp only [_Lock_dev, _Lock_syncBufIndex, _Lock_syncBufferSize]
    rw [if_neg (by simp [h3, h2]), if_pos o2, if_neg o3, if_neg o4,
      u32_of_lt hoff, u32_of_lt hn, u32_of_lt (lt_of_le_of_lt hfit h7),
      if_neg (by simpa using hfit), if_neg (by simp [o5]),
      if_neg (Nat.pos_iff_ne_zero.1 h4)]
    rw [← ht3, d1]
  · obtain ⟨n1, n2, n3, n4, n5, n6, n7, n8⟩ := d2
    constructor <;> simp only [_UnLock_dev, _UnLock_syncBuffer, _UnLock_syncBufferSize,
      _UnLock_syncBufIndex] <;> assumption
  · rw [_UnLock_dev, d3, e_dev_b]
  · rw [_UnLock_dev, d3, e_dev_fs]
  · rw [_UnLock_syncBufferSize, d4, e_sz]
  · rw [_UnLock_syncBufIndex, d5]
  · rw [_UnLock_delivered, d6, e_del]
  · rw [_UnLock_syncBuffer, _UnLock_syncBufIndex, d9, e_buf, Nat.add_mul, ← hlen]
    exact writeBytes_take _ _ _ (by rw [h6]; omega)

/-- Splitting a quotient at an intermediate remainder. -/
theorem div_add_mod_div (a c b : Nat) (hb : 0 < b) :
    a / b + (a % b + c) / b = (a + c) / b := by
  conv_rhs => rw [← Nat.div_add_mod a b]
  rw [Nat.add_assoc, Nat.mul_add_div hb]

/-- The inner loop fed with nominal packets that fit: all of them are processed,
the number of delivered blocks and the fill left are quotient and remainder of
the frames received, and the bytes come out in the order they went in. -/
theorem drainLoop_nominal :
    ∀ (passes : List PassOracle) (t : CaptureThread), t.Nominal →
      t.syncBufIndex < t.dev._recBlockSize →
      (∀ o ∈ passes, o.Nominal t.dev._recAudioFrameSize) →
      Fits t.syncBufferSize t.dev._recAudioFrameSize t.dev._recBlockSize t.syncBufIndex passes →
      ∃ t' blocks, drainLoop passes t = .pending t' ∧ t'.Nominal ∧
        t'.dev._recBlockSize = t.dev._recBlockSize ∧
        t'.dev._recAudioFrameSize = t.dev._recAudioFrameSize ∧
        t'.syncBufferSize = t.syncBufferSize ∧
        t'.syncBufIndex = (t.syncBufIndex + totalFrames passes) % t.dev._recBlockSize ∧
        t'.delivered = t.delivered ++ blocks ∧
        blocks.length = (t.syncBufIndex + totalFrames passes) / t.dev._recBlockSize ∧
        (∀ blk ∈ blocks,
          blk.payload.length = t.dev._recBlockSize * t.dev._recAudioFrameSize) ∧
        payloadBytes blocks ++
            t'.syncBuffer.take (t'.syncBufIndex * t.dev._recAudioFrameSize) =
          t.syncBuffer.take (t.syncBufIndex * t.dev._recAudioFrameSize) ++
            packetBytes t.dev._recAudioFrameSize passes := by
  intro passes
  induction passes with
  | nil =>
    intro t h hlt _ _
    exact ⟨t, [], rfl, h, rfl, rfl, rfl, by simp [totalFrames, Nat.mod_eq_of_lt hlt],
      by simp, by simp [totalFrames, Nat.div_eq_of_lt hlt], by simp,
      by simp [payloadBytes, packetBytes]⟩
  | cons o rest ih =>
    intro t h hlt hnom hfits
    have hb := h.blockSize_pos
    obtain ⟨hfit, hrest⟩ := hfits
    obtain ⟨t1, blocks1, c1, c2, c3, c4, c5, c6, c7, c8, c9, c10⟩ :=
      capturePass_nominal o t h (hnom o (List.mem_cons_self _ _)) hfit
    have hlt1 : t1.syncBufIndex < t1.dev._recBlockSize := by
      rw [c6, c3]
      exact Nat.mod_lt _ hb
    have hnom1 : ∀ o' ∈ rest, o'.Nominal t1.dev._recAudioFrameSize := by
      intro o' ho'
      rw [c4]
      exact hnom o' (List.mem_cons_of_mem _ ho')
    have hfits1 : Fits t1.syncBufferSize t1.dev._recAudioFrameSize t1.dev._recBlockSize
        t1.syncBufIndex rest := by
      rw [c5, c4, c3, c6]
      exact hrest
    obtain ⟨t', blocks2, e1, e2, e3, e4, e5, e6, e7, e8, e9, e10⟩ :=
      ih t1 c2 hlt1 hnom1 hfits1
    rw [c3] at e3 e6 e8 e9
    rw [c4] at e4 e9 e10
    rw [c5] at e5
    rw [c6] at e6 e8
    have htot : totalFrames (o :: rest) = o.packet.framesAvailable + totalFrames rest := by
      simp [totalFrames]
    refine ⟨t', blocks1 ++ blocks2, ?_, e2, e3, e4, e5, ?_, ?_, ?_, ?_, ?_⟩
    · rw [drainLoop, c1]
      exact e1
    · rw [e6, htot, Nat.mod_add_mod, Nat.add_assoc]
    · rw [e7, c7, List.append_assoc]
    · rw [List.length_append, c8, e8, htot, ← Nat.add_assoc]
      exact div_add_mod_div _ _ _ hb
    · intro blk hblk
      rcases List.mem_append.1 hblk with hm | hm
      · exact c9 blk hm
      · exact e9 blk hm
    · have hp : payloadBytes (blocks1 ++ blocks2) = payloadBytes blocks1 ++ payloadBytes blocks2 := by
        simp [payloadBytes]
      have hq : packetBytes t.dev._recAudioFrameSize (o :: rest) =
          storedBytes t.dev._recAudioFrameSize o.packet ++
            packetBytes t.dev._recAudioFrameSize rest := by
        simp [packetBytes]
      rw [hp, hq, List.append_assoc, e10, ← List.append_assoc, c10, List.append_assoc]

/-- Witness for C1 (the spec's example): on an endpoint that accepts only
(44100, 2), `InitRecording` stores rate 44100, 2 channels, frame size 4 and
block size 441. -/
theorem InitRecording_selects_first_accepted_witness :
    (InitRecording Scenario.envOnly44100x2 Scenario.selected).2._recSampleRate = 44100 ∧
    (InitRecording Scenario.envOnly44100x2 Scenario.selected).2._recChannels = 2 ∧
    (InitRecording Scenario.envOnly44100x2 Scenario.selected).2._recAudioFrameSize = 4 ∧
    (InitRecording Scenario.envOnly44100x2 Scenario.selected).2._recBlockSize = 441 := by
  obtain ⟨r, c, hfind, h1, h2, h3, h4⟩ :=
    InitRecording_selects_first_accepted Scenario.envOnly44100x2 Scenario.selected 10000000 7
      (by decide) (by decide) rfl (by decide) (by decide) (by decide) (by decide)
      ⟨(44100, 2), by decide, by decide⟩
  have e : (candidates Scenario.selected._recChannelsPrioList).find?
      (fun p => decide (Scenario.envOnly44100x2.IsFormatSupported 7 p.1 p.2 = S_OK))
      = some (44100, 2) := by decide
  rw [e] at hfind
  cases hfind
  exact ⟨h1, h2, h3, h4⟩

/-- C4. Negotiation failure on the code: on an endpoint that accepts none of the
18 candidates while the later platform calls succeed, `InitRecording` returns 0
and marks recording initialised; the stored block size and frame size are the
constructor's zeros. -/
theorem InitRecording_without_accepted_format :
    (∀ p ∈ candidates Scenario.selected._recChannelsPrioList,
        Scenario.envNoFormat.IsFormatSupported 7 p.1 p.2 ≠ S_OK) ∧
    (candidates Scenario.selected._recChannelsPrioList).length = 18 ∧
    (InitRecording Scenario.envNoFormat Scenario.selected).1 = 0 ∧
    (InitRecording Scenario.envNoFormat Scenario.selected).2._recIsInitialized = true ∧
    (InitRecording Scenario.envNoFormat Scenario.selected).2._recBlockSize = 0 ∧
    (InitRecording Scenario.envNoFormat Scenario.selected).2._recAudioFrameSize = 0 := by
  refine ⟨by decide, by decide, by decide, by decide, by decide, by decide⟩

/-- Every packet of a sequence that fits has at most `cap` bytes. -/
theorem Fits_bytes_le (cap frameSize b : Nat) :
    ∀ (passes : List PassOracle) (idx : Nat), Fits cap frameSize b idx passes →
      ∀ o ∈ passes, o.packet.framesAvailable * frameSize ≤ cap := by
  intro passes
  induction passes with
  | nil => intro _ _ o ho; cases ho
  | cons o' rest ih =>
    intro idx hfits o ho
    obtain ⟨h1, h2⟩ := hfits
    rcases List.mem_cons.1 ho with rfl | hmem
    · omega
    · exact ih _ h2 o hmem

/-- C2. Segmentation count: the inner loop of the capture thread, started with
an empty sync buffer in the nominal situation (audio buffer attached, clients
present, block size and frame size positive) and fed any sequence of non-empty
packets none of which overflows the sync buffer, processes all of them, delivers
exactly `N / _recBlockSize` blocks of `_recBlockSize * _recAudioFrameSize` bytes,
`N` being the total number of frames, and leaves `N % _recBlockSize` frames in
the sync buffer. -/
theorem drainLoop_block_count (passes : List PassOracle) (t : CaptureThread)
    (ht : t.Nominal) (hempty : t.syncBufIndex = 0)
    (hnom : ∀ o ∈ passes, o.Nominal t.dev._recAudioFrameSize)
    (hfits : Fits t.syncBufferSize t.dev._recAudioFrameSize t.dev._recBlockSize 0 passes) :
    ∃ t' blocks, drainLoop passes t = .pending t' ∧
      t'.delivered = t.delivered ++ blocks ∧
      blocks.length = totalFrames passes / t.dev._recBlockSize ∧
      (∀ blk ∈ blocks,
        blk.payload.length = t.dev._recBlockSize * t.dev._recAudioFrameSize) ∧
      t'.syncBufIndex = totalFrames passes % t.dev._recBlockSize := by
  obtain ⟨t', blocks, e1, _, _, _, _, e6, e7, e8, e9, _⟩ :=
    drainLoop_nominal passes t ht (by rw [hempty]; exact ht.blockSize_pos) hnom
      (by rw [hempty]; exact hfits)
  rw [hempty, Nat.zero_add] at e6 e8
  exact ⟨t', blocks, e1, e7, e8, e9, e6⟩

/-- Witness for C2: block size 3, frame size 2, packets of 4 and 3 frames: two
blocks are delivered and one frame is left. -/
theorem drainLoop_block_count_witness :
    ∃ t' blocks, drainLoop Scenario.twoPackets Scenario.smallThread = .pending t' ∧
      t'.delivered = Scenario.smallThread.delivered ++ blocks ∧
      blocks.length = totalFrames Scenario.twoPackets / Scenario.smallThread.dev._recBlockSize ∧
      (∀ blk ∈ blocks, blk.payload.length =
        Scenario.smallThread.dev._recBlockSize * Scenario.smallThread.dev._recAudioFrameSize) ∧
      t'.syncBufIndex = totalFrames Scenario.twoPackets % Scenario.smallThread.dev._recBlockSize :=
  drainLoop_block_count Scenario.twoPackets Scenario.smallThread
    ⟨by decide, by decide, by decide, by decide, by decide, by decide, by decide, by decide⟩
    rfl
    (by
      intro o ho
      simp only [Scenario.twoPackets, List.mem_cons, List.mem_singleton, List.not_mem_nil,
        or_false] at ho
      rcases ho with rfl | rfl <;>
        exact ⟨rfl, by decide, by decide, by decide, by decide, fun _ => rfl,
          fun d hd => by cases hd; decide⟩)
    ⟨by decide, by decide, trivial⟩

/-- C3. Segmentation content (FIFO): under the conditions of the segmentation
count, the payloads of the delivered blocks in delivery order (each exactly
`_recBlockSize * _recAudioFrameSize` bytes), followed by the bytes still held at
the front of the sync buffer, are the bytes of the packets in capture order;
for a packet that is not flagged silent these bytes are its device memory. -/
theorem drainLoop_fifo (passes : List PassOracle) (t : CaptureThread)
    (ht : t.Nominal) (hempty : t.syncBufIndex = 0)
    (hnom : ∀ o ∈ passes, o.Nominal t.dev._recAudioFrameSize)
    (hfits : Fits t.syncBufferSize t.dev._recAudioFrameSize t.dev._recBlockSize 0 passes) :
    ∃ t' blocks, drainLoop passes t = .pending t' ∧
      t'.delivered = t.delivered ++ blocks ∧
      (∀ blk ∈ blocks,
        blk.payload.length = t.dev._recBlockSize * t.dev._recAudioFrameSize) ∧
      payloadBytes blocks ++
          t'.syncBuffer.take (t'.syncBufIndex * t.dev._recAudioFrameSize) =
        packetBytes t.dev._recAudioFrameSize passes ∧
      (∀ o ∈ passes, ∀ d, o.packet.pData = some d →
        o.packet.flags &&& AUDCLNT_BUFFERFLAGS_SILENT = 0 →
        storedBytes t.dev._recAudioFrameSize o.packet = d) := by
  obtain ⟨t', blocks, e1, _, _, _, _, _, e7, _, e9, e10⟩ :=
    drainLoop_nominal passes t ht (by rw [hempty]; exact ht.blockSize_pos) hnom
      (by rw [hempty]; exact hfits)
  rw [hempty, Nat.zero_mul, List.take_zero, List.nil_append] at e10
  refine ⟨t', blocks, e1, e7, e9, e10, ?_⟩
  intro o ho d hd hflag
  have hle := Fits_bytes_le _ _ _ passes 0 hfits o ho
  have hlt : o.packet.framesAvailable * t.dev._recAudioFrameSize < 2 ^ 32 :=
    lt_of_le_of_lt hle ht.size_u32
  have hlen := (hnom o ho).data_length d hd
  unfold storedBytes
  rw [if_neg (by simp [hflag]), hd, u32_of_lt hlt, ← hlen]
  exact List.take_length d

/-- Witness for C3: block size 3, frame size 2, packets of 4 and 3 frames. -/
theorem drainLoop_fifo_witness :
    ∃ t' blocks, drainLoop Scenario.twoPackets Scenario.smallThread = .pending t' ∧
      t'.delivered = Scenario.smallThread.delivered ++ blocks ∧
      (∀ blk ∈ blocks, blk.payload.length =
        Scenario.smallThread.dev._recBlockSize * Scenario.smallThread.dev._recAudioFrameSize) ∧
      payloadBytes blocks ++
          t'.syncBuffer.take (t'.syncBufIndex * Scenario.smallThread.dev._recAudioFrameSize) =
        packetBytes Scenario.smallThread.dev._recAudioFrameSize Scenario.twoPackets ∧
      (∀ o ∈ Scenario.twoPackets, ∀ d, o.packet.pData = some d →
        o.packet.flags &&& AUDCLNT_BUFFERFLAGS_SILENT = 0 →
        storedBytes Scenario.smallThread.dev._recAudioFrameSize o.packet = d) :=
  drainLoop_fifo Scenario.twoPackets Scenario.smallThread
    ⟨by decide, by decide, by decide, by decide, by decide, by decide, by decide, by decide⟩
    rfl
    (by
      intro o ho
      simp only [Scenario.twoPackets, List.mem_cons, List.mem_singleton, List.not_mem_nil,
        or_false] at ho
      rcases ho with rfl | rfl <;>
        exact ⟨rfl, by decide, by decide, by decide, by decide, fun _ => rfl,
          fun d hd => by cases hd; decide⟩)
    ⟨by decide, by decide, trivial⟩

/-- The state with which the thread enters its loop is in the nominal
situation, with an empty sync buffer of the computed capacity, when the session
has an attached audio buffer, both client interfaces and a positive block and
frame size. -/
theorem loopEntry_nominal (o : ThreadOracle) (s : CoreAudioDevice)
    (hbuf : s._ptrAudioBuffer ≠ none) (hc : s._ptrClientIn ≠ none)
    (hl : s._ptrLoopbackClient = true) (hb : 0 < s._recBlockSize)
    (hfs : 0 < s._recAudioFrameSize) :
    (loopEntry o s).Nominal ∧ (loopEntry o s).syncBufIndex = 0 ∧
    (loopEntry o s).delivered = [] ∧
    (loopEntry o s).syncBufferSize = u32 (2 * u32 (o.GetBufferSize.2 * s._recAudioFrameSize)) := by
  have hdev : (loopEntry o s).dev = { s with _readSamples := 0 } := by
    simp [loopEntry, threadStart]
  have hsz : (loopEntry o s).syncBufferSize =
      u32 (2 * u32 (o.GetBufferSize.2 * s._recAudioFrameSize)) := by
    simp [loopEntry]
  have hbuf' : (loopEntry o s).syncBuffer =
      (List.range (u32 (2 * u32 (o.GetBufferSize.2 * s._recAudioFrameSize)))).map
        o.uninitialised := by
    simp [loopEntry]
  have hidx : (loopEntry o s).syncBufIndex = 0 := by
    simp [loopEntry, threadStart]
  have hdel : (loopEntry o s).delivered = [] := by
    simp [loopEntry, threadStart]
  refine ⟨⟨?_, ?_, ?_, ?_, ?_, ?_, ?_, ?_⟩, hidx, hdel, hsz⟩
  · rw [hdev]; exact hbuf
  · rw [hdev]; exact hc
  · rw [hdev]; exact hl
  · rw [hdev]; exact hb
  · rw [hdev]; exact hfs
  · rw [hbuf', hsz]; simp
  · rw [hsz]; exact Nat.mod_lt _ (by norm_num)
  · rw [hidx]; simp

/-- C6. Startup timeout on the code: on an initialised session without thread,
when `CreateThread` succeeds and the wait for the capture-started signal times
out, `StartRecording` returns -1 and `Recording()` stays false, but the session
still holds the thread handle it has just created. -/
theorem StartRecording_timeout_keeps_handle :
    Scenario.initialized._recIsInitialized = true ∧
    Scenario.initialized._hRecThread = false ∧
    (StartRecording { CreateThread := true, WaitForCaptureStarted := WAIT_TIMEOUT }
        Scenario.initialized).1 = -1 ∧
    (StartRecording { CreateThread := true, WaitForCaptureStarted := WAIT_TIMEOUT }
        Scenario.initialized).2.Recording = false ∧
    (StartRecording { CreateThread := true, WaitForCaptureStarted := WAIT_TIMEOUT }
        Scenario.initialized).2._hRecThread = true ∧
    (StartRecording { CreateThread := true, WaitForCaptureStarted := WAIT_TIMEOUT }
        Scenario.initialized).2.threadsCreated = 1 := by
  refine ⟨by decide, by decide, by decide, by decide, by decide, by decide⟩

/-- C7. Capture-thread exit report on the code: a thread that leaves its loop on
the 500 ms wait timeout, on a failed `GetBuffer`, or on detecting a concurrent
teardown, with the clean-up calls succeeding, returns exit code 0, the same
code as a thread that leaves on the shutdown signal; in the first three runs
`keepRecording` is still true at the end. -/
theorem DoCaptureThread_exit_code_premature :
    (DoCaptureThread (Scenario.threadRun [WaitEvent.shutdown])
        Scenario.running).exitCode = some 0 ∧
    (DoCaptureThread (Scenario.threadRun [WaitEvent.timeout])
        Scenario.running).exitCode = some 0 ∧
    ((DoCaptureThread (Scenario.threadRun [WaitEvent.timeout])
        Scenario.running).final.map (fun t => t.keepRecording)) = some true ∧
    (DoCaptureThread (Scenario.threadRun [WaitEvent.samplesReady [Scenario.failingGetBuffer]])
        Scenario.running).exitCode = some 0 ∧
    ((DoCaptureThread (Scenario.threadRun [WaitEvent.samplesReady [Scenario.failingGetBuffer]])
        Scenario.running).final.map (fun t => t.keepRecording)) = some true ∧
    (DoCaptureThread (Scenario.threadRun [WaitEvent.samplesReady [Scenario.tornDown]])
        Scenario.running).exitCode = some 0 ∧
    ((DoCaptureThread (Scenario.threadRun [WaitEvent.samplesReady [Scenario.tornDown]])
        Scenario.running).final.map (fun t => t.keepRecording)) = some true := by
  refine ⟨by decide, by decide, by decide, by decide, by decide, by decide, by decide⟩

/-- C9, counterexample: on the running session, when the join times out and the
capture thread has not released anything, `StopRecording` returns -1 and both
client handles are still present. -/
theorem StopRecording_timeout_keeps_clients :
    Scenario.running._recIsInitialized = true ∧ Scenario.running._hRecThread = true ∧
    ((StopRecording { WaitForThread := WAIT_TIMEOUT, threadReleasedClients := false }
        Scenario.running).toOption.map (fun r => (r.1, r.2._ptrClientIn, r.2._ptrLoopbackClient)))
      = some (-1, some 7, true) := by
  refine ⟨by decide, by decide, by decide⟩

/-- C9, amended. After `StopRecording` on an initialised session that has a
capture thread: when the thread exited within the join after releasing the
client interfaces, the call returns 0 and both handles are null, and whenever
the call returns 0 both handles are null; when the join timed out, the call
returns -1 and leaves both handles exactly as the capture thread left them
(`StopRecording` itself releases neither). -/
theorem StopRecording_client_handles (o : JoinOracle) (s : CoreAudioDevice)
    (hinit : s._recIsInitialized = true) (hthread : s._hRecThread = true) :
    (o.WaitForThread = WAIT_OBJECT_0 → o.threadReleasedClients = true →
      ∃ s', StopRecording o s = .ok (0, s') ∧ s'._ptrClientIn = none ∧
        s'._ptrLoopbackClient = false) ∧
    (∀ s', StopRecording o s = .ok (0, s') →
      s'._ptrClientIn = none ∧ s'._ptrLoopbackClient = false) ∧
    (o.WaitForThread ≠ WAIT_OBJECT_0 →
      ∃ s', StopRecording o s = .ok (-1, s') ∧
        s'._ptrClientIn = (afterJoin o s)._ptrClientIn ∧
        s'._ptrLoopbackClient = (afterJoin o s)._ptrLoopbackClient) := by
  have hrun : StopRecording o s =
      StopRecording_finish (if o.WaitForThread ≠ WAIT_OBJECT_0 then -1 else 0)
        (afterJoin o { s with _hShutdownCaptureEvent := true }) := by
    rw [StopRecording, if_neg (by simp [hinit]), if_neg (by simp [hthread])]
  rw [hrun]
  refine ⟨?_, ?_, ?_⟩
  · intro hw hrel
    simp [StopRecording_finish, hw, afterJoin, hrel]
  · intro s' h
    unfold StopRecording_finish at h
    split_ifs at h
    all_goals cases h
    all_goals simp_all
  · intro hw
    refine ⟨_, by simp [StopRecording_finish, hw]; rfl, ?_, ?_⟩ <;>
      (unfold afterJoin; split_ifs <;> rfl)

/-- Witness for the amended C9: the running session, join timed out, nothing
released by the thread. -/
theorem StopRecording_client_handles_witness :
    ∃ s', StopRecording { WaitForThread := WAIT_TIMEOUT, threadReleasedClients := false }
        Scenario.running = .ok (-1, s') ∧
      s'._ptrClientIn = (afterJoin { WaitForThread := WAIT_TIMEOUT, threadReleasedClients := false }
        Scenario.running)._ptrClientIn ∧
      s'._ptrLoopbackClient =
        (afterJoin { WaitForThread := WAIT_TIMEOUT, threadReleasedClients := false }
          Scenario.running)._ptrLoopbackClient :=
  (StopRecording_client_handles { WaitForThread := WAIT_TIMEOUT, threadReleasedClients := false }
    Scenario.running (by decide) (by decide)).2.2 (by decide)

/-- C10. Start idempotence: on a session that is Running (initialised and
recording), `StartRecording` returns 0 and leaves the whole session state, the
count of created threads included, unchanged, whatever the platform would
answer; hence whenever a `StartRecording` has returned 0, a second
`StartRecording` returns 0 and changes nothing.  The module facade returns 0
without reaching the device when `Recording()` is true. -/
theorem StartRecording_idempotent (o o' : StartOracle) (s : CoreAudioDevice)
    (m : CoreAudioModule) :
    (s._recIsInitialized = true → s._recording = true → StartRecording o s = (0, s)) ∧
    ((StartRecording o s).1 = 0 →
      StartRecording o' (StartRecording o s).2 = (0, (StartRecording o s).2)) ∧
    (StartRecording o (StartRecording o s).2).2 = (StartRecording o s).2 ∧
    (m.initialized_ = true → m.Recording = true → CoreAudioModule.StartRecording o m = (0, m)) := by
  refine ⟨?_, ?_, ?_, ?_⟩
  · intro hinit hrec
    unfold StartRecording
    cases hthr : s._hRecThread <;> simp [hinit, hrec]
  · intro h0
    unfold StartRecording at h0 ⊢
    cases hinit : s._recIsInitialized <;> cases hthr : s._hRecThread <;>
      cases hrec : s._recording <;> cases hc : o.CreateThread <;>
      by_cases hw : o.WaitForCaptureStarted = WAIT_OBJECT_0 <;>
      simp [hinit, hthr, hrec, hc, hw] at h0 ⊢
  · unfold StartRecording
    cases hinit : s._recIsInitialized <;> cases hthr : s._hRecThread <;>
      cases hrec : s._recording <;> cases hc : o.CreateThread <;>
      by_cases hw : o.WaitForCaptureStarted = WAIT_OBJECT_0 <;>
      simp [hinit, hthr, hrec, hc, hw]
  · intro hinit hrec
    simp [CoreAudioModule.StartRecording, hinit, hrec]

/-- Witness for C10: the running session, started a second time. -/
theorem StartRecording_idempotent_witness :
    StartRecording { CreateThread := true, WaitForCaptureStarted := WAIT_OBJECT_0 }
        Scenario.running = (0, Scenario.running) ∧
    Scenario.running.threadsCreated = 1 :=
  ⟨(StartRecording_idempotent { CreateThread := true, WaitForCaptureStarted := WAIT_OBJECT_0 }
      { CreateThread := true, WaitForCaptureStarted := WAIT_OBJECT_0 } Scenario.running
      { initialized_ := true, audio_device_ := Scenario.running,
        bufferStartRecordingCalls := 1 }).1 (by decide) (by decide),
   by decide⟩

/-! ### Stopping an idle session -/

/-- Whenever the tail of `StopRecording` returns, recording is neither
initialised nor running. -/
theorem StopRecording_finish_uninitialised (err : Int) (s1 : CoreAudioDevice) (r : Int)
    (s' : CoreAudioDevice) (h : StopRecording_finish err s1 = .ok (r, s')) :
    s'._recIsInitialized = false ∧ s'._recording = false := by
  unfold StopRecording_finish at h
  split_ifs at h
  all_goals cases h
  all_goals exact ⟨rfl, rfl⟩

/-- Whenever `StopRecording` returns, recording is no longer initialised. -/
theorem StopRecording_result_uninitialised (o : JoinOracle) (s : CoreAudioDevice) (r : Int)
    (s' : CoreAudioDevice) (h : StopRecording o s = .ok (r, s')) :
    s'._recIsInitialized = false := by
  unfold StopRecording at h
  split_ifs at h with h1 h2
  · cases h; exact h1
  · cases h; rfl
  · exact (StopRecording_finish_uninitialised _ _ r s' h).1
  · exact (StopRecording_finish_uninitialised _ _ r s' h).1

/-- C11. `StopRecording` on a session whose recording is not initialised returns
0 and leaves the session exactly as it was; and whenever a `StopRecording`
returns, whatever its result, a second `StopRecording` returns 0 and leaves the
session the first one produced unchanged. -/
theorem StopRecording_idle_noop (o o' : JoinOracle) (s : CoreAudioDevice) :
    (s._recIsInitialized = false → StopRecording o s = .ok (0, s)) ∧
    (∀ r s', StopRecording o s = .ok (r, s') → StopRecording o' s' = .ok (0, s')) := by
  refine ⟨fun h => by simp [StopRecording, h], fun r s' h => ?_⟩
  have h' := StopRecording_result_uninitialised o s r s' h
  simp [StopRecording, h']

/-- C11, witness: on the freshly constructed session `StopRecording` returns 0
and changes nothing; on the running session it returns 0 and yields
`Scenario.stopped`, on which a second call returns 0 and changes nothing. -/
theorem StopRecording_idle_noop_witness :
    StopRecording Scenario.joined CoreAudioDevice.ctor = .ok (0, CoreAudioDevice.ctor) ∧
    StopRecording Scenario.joined Scenario.running = .ok (0, Scenario.stopped) ∧
    StopRecording Scenario.joined Scenario.stopped = .ok (0, Scenario.stopped) :=
  ⟨(StopRecording_idle_noop Scenario.joined Scenario.joined CoreAudioDevice.ctor).1 (by decide),
   rfl,
   (StopRecording_idle_noop Scenario.joined Scenario.joined Scenario.running).2 0
     Scenario.stopped rfl⟩

/-! ### Shutdown at the wait -/

/-- Wake-ups after which the thread is back at the top of its loop can be cut
off the front of the sequence of wait results. -/
theorem captureLoop_atLoopTop (pre : List WaitEvent) :
    ∀ (evs : List WaitEvent) (t0 t : CaptureThread), atLoopTop pre t0 = some t →
      captureLoop (pre ++ evs) t0 = captureLoop evs t := by
  induction pre with
  | nil => intro evs t0 t h; simp [atLoopTop] at h; subst h; rfl
  | cons e pre ih =>
    intro evs t0 t h
    cases e with
    | samplesReady passes =>
      simp only [atLoopTop] at h
      simp only [List.cons_append, captureLoop]
      cases hd : drainLoop passes t0 with
      | done t1 => rw [hd] at h; exact ih evs t1 t h
      | pending t1 => rw [hd] at h; cases h
      | gotoExit t1 => rw [hd] at h; cases h
      | fault f => rw [hd] at h; cases h
    | shutdown => simp [atLoopTop] at h
    | timeout => simp [atLoopTop] at h
    | unexpected => simp [atLoopTop] at h

/-- The code from the label `Exit` on, entered with `keepRecording` false and
the capture client present: the thread returns `hr` as its exit code without
calling `Reset`, and leaves the delivered blocks and the sync buffer alone. -/
theorem DoCaptureThread_Exit_clean (o : ThreadOracle) (u : CaptureThread)
    (hk : u.keepRecording = false) (hcl : u.dev._ptrClientIn ≠ none) :
    ∃ t3, DoCaptureThread_Exit o u = .returned (toDWORD u.hr) t3 ∧
      t3.keepRecording = false ∧ t3.hr = u.hr ∧ t3.delivered = u.delivered ∧
      t3.syncBuffer = u.syncBuffer ∧ t3.syncBufIndex = u.syncBufIndex ∧
      t3.dev._readSamples = u.dev._readSamples := by
  cases hfl : FAILED u.hr <;> by_cases hd : u.lockDepth = 0 <;>
    simp [DoCaptureThread_Exit, _Lock, _UnLock, releaseClients, hfl, hd, hk, hcl]

/-- C12. When the wait at the top of the capture loop finds the shutdown event
signalled, whether or not the samples-ready event is signalled as well (the
shutdown event is the first handle of the wait array), the loop is left in
that iteration with `keepRecording` false and nothing else changed: no
`GetBuffer` pass is made.  In a run whose start-up succeeded and that is at the
top of its loop in state `t` with the capture client present, the thread then
calls `Stop`, takes the branch for a proper termination (no `Reset`), and
returns the result of `Stop` as its exit code; the blocks delivered, the sync
buffer, its fill and the count of samples read are those of `t`. -/
theorem DoCaptureThread_shutdown_wins (samplesReadySignalled : Bool) (passes : List PassOracle)
    (rest : List WaitEvent) :
    (∀ t : CaptureThread,
      captureLoop (WaitForMultipleObjects true samplesReadySignalled passes :: rest) t =
        .done { t with keepRecording := false }) ∧
    (∀ (o : ThreadOracle) (s : CoreAudioDevice) (pre : List WaitEvent) (t : CaptureThread),
      o.comInitSucceeded = true → s._ptrClientIn ≠ none →
      FAILED o.GetBufferSize.1 = false → FAILED o.Start = false →
      o.events = pre ++ WaitForMultipleObjects true samplesReadySignalled passes :: rest →
      atLoopTop pre (loopEntry o s) = some t → t.dev._ptrClientIn ≠ none →
      ∃ t3, DoCaptureThread o s = .returned (toDWORD o.StopAfterLoop) t3 ∧
        t3.keepRecording = false ∧ t3.hr = o.StopAfterLoop ∧
        t3.delivered = t.delivered ∧ t3.syncBuffer = t.syncBuffer ∧
        t3.syncBufIndex = t.syncBufIndex ∧ t3.dev._readSamples = t.dev._readSamples) := by
  refine ⟨fun t => rfl, ?_⟩
  intro o s pre t hcom hcl hsz hst hev htop hcl'
  have hloop : captureLoop o.events (loopEntry o s) = .done { t with keepRecording := false } := by
    rw [hev, captureLoop_atLoopTop pre _ _ t htop]; rfl
  have hcl2 : ({ t with keepRecording := false } : CaptureThread).dev._ptrClientIn ≠ none := hcl'
  unfold DoCaptureThread
  rw [hloop]
  simp only [hcom, hsz, hst, Bool.not_true, Bool.false_eq_true, if_false, hcl]
  rw [if_pos hcl2]
  exact DoCaptureThread_Exit_clean o
    { t with keepRecording := false, hr := o.StopAfterLoop } rfl hcl'


/-- C12, witness: in `Scenario.shutdownRun` the thread has read one packet when
it finds both events signalled; it returns 0 having delivered nothing, with the
2 frames it had read still in the sync buffer and none of the two waiting
packets read. -/
theorem DoCaptureThread_shutdown_wins_witness :
    captureLoop [WaitForMultipleObjects true true Scenario.twoPackets] Scenario.smallThread =
        .done { Scenario.smallThread with keepRecording := false } ∧
    ∃ t3, DoCaptureThread Scenario.shutdownRun Scenario.running = .returned 0 t3 ∧
      t3.keepRecording = false ∧ t3.hr = S_OK ∧ t3.delivered = [] ∧
      t3.syncBuffer = Scenario.shutdownRunTop.syncBuffer ∧
      t3.syncBufIndex = 2 ∧ t3.dev._readSamples = 2 :=
  ⟨(DoCaptureThread_shutdown_wins true Scenario.twoPackets []).1 Scenario.smallThread,
   (DoCaptureThread_shutdown_wins true Scenario.twoPackets []).2 Scenario.shutdownRun
     Scenario.running [Scenario.oneWakeUp] Scenario.shutdownRunTop rfl (by decide) rfl rfl rfl
     (by decide) (by decide)⟩

/-! ### Device selection and format state while recording -/

/-- C15. While the session is Running, both forms of `SetRecordingDevice` (by
index and by role) return -1 and leave the session exactly as it was, whatever
the index, the role and the platform's answers. -/
theorem SetRecordingDevice_while_running (env : Platform) (index : Nat)
    (device : WindowsDeviceType) (s : CoreAudioDevice) (h : Running s) :
    SetRecordingDevice_I env index s = .ok (-1, s) ∧
    SetRecordingDevice_II env device s = (-1, s) := by
  simp [SetRecordingDevice_I, SetRecordingDevice_II, h.1]

/-- C15, witness: on the running session, selecting endpoint 0 or the default
device is refused and changes nothing. -/
theorem SetRecordingDevice_while_running_witness :
    Running Scenario.running ∧
    SetRecordingDevice_I Scenario.envOnly44100x2 0 Scenario.running =
      .ok (-1, Scenario.running) ∧
    SetRecordingDevice_II Scenario.envOnly44100x2 WindowsDeviceType.kDefaultDevice
      Scenario.running = (-1, Scenario.running) :=
  ⟨⟨rfl, rfl⟩,
   SetRecordingDevice_while_running Scenario.envOnly44100x2 0 WindowsDeviceType.kDefaultDevice
     Scenario.running ⟨rfl, rfl⟩⟩

/-- C16, counterexample: on the running session, where `Recording()` is true,
`CoreAudioDevice::SetStereoRecording(false)` returns 0 and changes the channel
count from 2 to 1 and the priority list from `[2, 1, 4]` to `[1, 2, 4]`. -/
theorem SetStereoRecording_unguarded :
    Scenario.running.Recording = true ∧
    Scenario.running._recChannels = 2 ∧
    Scenario.running._recChannelsPrioList = [2, 1, 4] ∧
    (SetStereoRecording false Scenario.running).1 = 0 ∧
    (SetStereoRecording false Scenario.running).2._recChannels = 1 ∧
    (SetStereoRecording false Scenario.running).2._recChannelsPrioList = [1, 2, 4] := by
  decide

/-- C16, amended. While `Recording()` is true, `InitRecording` and
`InitMicrophone` return -1 and leave the whole session unchanged.
`CoreAudioDevice::SetStereoRecording` has no guard: it returns 0, leaves the
sample rate, the frame byte size and the block size unchanged, sets the channel
count to 2 or 1 and rewrites the first two slots of the priority list as 2, 1
or 1, 2.  The guard is in `CoreAudioModule::SetStereoRecording`, which returns
-1 and changes nothing once recording is initialised. -/
theorem format_state_while_recording (env : Platform) (enable : Bool) (s : CoreAudioDevice)
    (m : CoreAudioModule) (h : s.Recording = true)
    (hm : m.audio_device_.RecordingIsInitialized = true) :
    InitRecording env s = (-1, s) ∧ InitMicrophone env s = (-1, s) ∧
    (SetStereoRecording enable s).1 = 0 ∧
    (SetStereoRecording enable s).2._recSampleRate = s._recSampleRate ∧
    (SetStereoRecording enable s).2._recAudioFrameSize = s._recAudioFrameSize ∧
    (SetStereoRecording enable s).2._recBlockSize = s._recBlockSize ∧
    (SetStereoRecording enable s).2._recChannels = (if enable then 2 else 1) ∧
    (SetStereoRecording enable s).2._recChannelsPrioList =
      (if enable then (s._recChannelsPrioList.set 0 2).set 1 1
       else (s._recChannelsPrioList.set 0 1).set 1 2) ∧
    CoreAudioModule.SetStereoRecording enable m = (-1, m) := by
  have h' : s._recording = true := h
  have hm' : m.audio_device_._recIsInitialized = true := hm
  refine ⟨by simp [InitRecording, h'], by simp [InitMicrophone, h'], ?_, ?_, ?_, ?_, ?_, ?_, ?_⟩
  · cases enable <;> rfl
  · cases enable <;> rfl
  · cases enable <;> rfl
  · cases enable <;> rfl
  · cases enable <;> rfl
  · cases enable <;> rfl
  · simp [CoreAudioModule.SetStereoRecording, RecordingIsInitialized, hm']

/-- C16, witness: on the running session `InitRecording` and `InitMicrophone`
are refused, the device-level `SetStereoRecording(false)` switches to one
channel, and the module-level call is refused. -/
theorem format_state_while_recording_witness :
    InitRecording Scenario.envOnly44100x2 Scenario.running = (-1, Scenario.running) ∧
    InitMicrophone Scenario.envOnly44100x2 Scenario.running = (-1, Scenario.running) ∧
    (SetStereoRecording false Scenario.running).2._recSampleRate = 44100 ∧
    (SetStereoRecording false Scenario.running).2._recChannels = 1 ∧
    CoreAudioModule.SetStereoRecording false (CoreAudioModule.mk true Scenario.running 0) =
      (-1, CoreAudioModule.mk true Scenario.running 0) :=
  ⟨(format_state_while_recording Scenario.envOnly44100x2 false Scenario.running
      (CoreAudioModule.mk true Scenario.running 0) rfl rfl).1,
   (format_state_while_recording Scenario.envOnly44100x2 false Scenario.running
      (CoreAudioModule.mk true Scenario.running 0) rfl rfl).2.1,
   (format_state_while_recording Scenario.envOnly44100x2 false Scenario.running
      (CoreAudioModule.mk true Scenario.running 0) rfl rfl).2.2.2.1,
   (format_state_while_recording Scenario.envOnly44100x2 false Scenario.running
      (CoreAudioModule.mk true Scenario.running 0) rfl rfl).2.2.2.2.2.2.1,
   (format_state_while_recording Scenario.envOnly44100x2 false Scenario.running
      (CoreAudioModule.mk true Scenario.running 0) rfl rfl).2.2.2.2.2.2.2.2⟩

/-! ### The playout probe -/

/-- C19, counterexample: on the freshly constructed session `PlayoutIsAvailable`
leaves `available` true. -/
theorem PlayoutIsAvailable_reports_available :
    (PlayoutIsAvailable CoreAudioDevice.ctor).2.1 = true := by
  decide

/-- C19, amended. In every state `PlayoutIsAvailable` returns 0 and sets
`available` to true, because its `InitPlayout` attempt always returns 0; the
session is left with playout marked initialised and is otherwise unchanged. -/
theorem PlayoutIsAvailable_always_available (s : CoreAudioDevice) :
    (InitPlayout s).1 = 0 ∧
    PlayoutIsAvailable s = (0, true, { s with _playIsInitialized := true }) := by
  exact ⟨rfl, rfl⟩

/-! ### Stereo configuration -/

/-- One call of `SetStereoRecording` on a three-slot priority list ending in 4:
the list and the channel count are determined by the argument alone. -/
theorem SetStereoRecording_step (e : Bool) (s : CoreAudioDevice)
    (h : ∃ a b, s._recChannelsPrioList = [a, b, 4]) :
    (SetStereoRecording e s).1 = 0 ∧
    (SetStereoRecording e s).2._recChannelsPrioList = (if e then [2, 1, 4] else [1, 2, 4]) ∧
    (SetStereoRecording e s).2._recChannels = (if e then 2 else 1) := by
  obtain ⟨a, b, hab⟩ := h
  cases e <;> simp [SetStereoRecording, hab]

/-- C20. The priority list is `[2, 1, 4]` after construction, and
`StereoRecording` then reports true.  From any session whose list has three
slots with 4 in the last, every call of `SetStereoRecording` returns 0, and
after any sequence of calls ending with the argument `last` the list is
`[2, 1, 4]` when `last` is true and `[1, 2, 4]` when it is false, whatever the
earlier arguments; it is a permutation of `[1, 2, 4]` whose last slot holds 4,
and `StereoRecording` returns 0 and reports `last`. -/
theorem SetStereoRecording_last_argument (args : List Bool) (last : Bool) (s : CoreAudioDevice)
    (h : ∃ a b, s._recChannelsPrioList = [a, b, 4]) :
    CoreAudioDevice.ctor._recChannelsPrioList = [2, 1, 4] ∧
    StereoRecording CoreAudioDevice.ctor = (0, true) ∧
    (SetStereoRecording last (args.foldl (fun u e => (SetStereoRecording e u).2) s)).1 = 0 ∧
    ((args ++ [last]).foldl (fun u e => (SetStereoRecording e u).2) s)._recChannelsPrioList =
      (if last then [2, 1, 4] else [1, 2, 4]) ∧
    List.Perm ((args ++ [last]).foldl (fun u e => (SetStereoRecording e u).2) s)._recChannelsPrioList
      [1, 2, 4] ∧
    ((args ++ [last]).foldl (fun u e => (SetStereoRecording e u).2) s)._recChannelsPrioList.getLast?
      = some 4 ∧
    StereoRecording ((args ++ [last]).foldl (fun u e => (SetStereoRecording e u).2) s) =
      (0, last) := by
  have hpre : ∀ (l : List Bool) (u : CoreAudioDevice), (∃ a b, u._recChannelsPrioList = [a, b, 4]) →
      ∃ a b, (l.foldl (fun u e => (SetStereoRecording e u).2) u)._recChannelsPrioList
        = [a, b, 4] := by
    intro l
    induction l with
    | nil => intro u hu; exact hu
    | cons e l ih =>
      intro u hu
      refine ih _ ?_
      have := (SetStereoRecording_step e u hu).2.1
      cases e
      · exact ⟨1, 2, by simpa using this⟩
      · exact ⟨2, 1, by simpa using this⟩
  have hstep := SetStereoRecording_step last _ (hpre args s h)
  rw [List.foldl_append]
  simp only [List.foldl_cons, List.foldl_nil]
  refine ⟨rfl, rfl, hstep.1, hstep.2.1, ?_, ?_, ?_⟩
  · rw [hstep.2.1]; cases last
    · decide
    · decide
  · rw [hstep.2.1]; cases last <;> rfl
  · simp only [StereoRecording, hstep.2.2]
    cases last <;> simp

/-- C20, witness: from the constructed session, the calls with arguments true,
false, true, false leave `[1, 2, 4]`, and `StereoRecording` reports false. -/
theorem SetStereoRecording_last_argument_witness :
    ([true, false, true, false].foldl (fun u e => (SetStereoRecording e u).2)
        CoreAudioDevice.ctor)._recChannelsPrioList = [1, 2, 4] ∧
    StereoRecording ([true, false, true, false].foldl (fun u e => (SetStereoRecording e u).2)
        CoreAudioDevice.ctor) = (0, false) :=
  ⟨(SetStereoRecording_last_argument [true, false, true] false CoreAudioDevice.ctor
      ⟨2, 1, rfl⟩).2.2.2.1,
   (SetStereoRecording_last_argument [true, false, true] false CoreAudioDevice.ctor
      ⟨2, 1, rfl⟩).2.2.2.2.2.2⟩

/-! ### Describing and selecting an endpoint by index -/

/-- C17, counterexample: with one active endpoint, the 16-bit index 65535 is not
below the count 1, and `RecordingDeviceName` returns 0 for it. -/
theorem RecordingDeviceName_default_alias :
    (RecordingDevices Scenario.envOnly44100x2 Scenario.selected).1 = 1 ∧
    (65535 : Nat) < 2 ^ 16 ∧ (1 : Int) ≤ (65535 : Nat) ∧
    (RecordingDeviceName Scenario.envOnly44100x2 65535 false Scenario.selected).1 = 0 := by
  decide

/-- C17, amended. With `n` the count that `RecordingDeviceName` obtains from
the refresh it has just made (-1 when the refresh failed), the call returns -1
for every 16-bit index other than 65535 that is at least `n`.  The index 65535
stands for the default communication device and is checked as index 0: it
returns -1 when `n` is at most 0, and otherwise, with a `name` buffer given,
the result of looking up the default communication endpoint. -/
theorem RecordingDeviceName_out_of_range (env : Platform) (index : Nat) (nameIsNull : Bool)
    (s : CoreAudioDevice) (_hidx : index < 2 ^ 16)
    (hge : (RecordingDevices env s).1 ≤ (index : Int)) :
    (index ≠ 65535 → (RecordingDeviceName env index nameIsNull s).1 = -1) ∧
    (index = 65535 → (RecordingDevices env s).1 ≤ 0 →
      (RecordingDeviceName env index nameIsNull s).1 = -1) ∧
    (index = 65535 → 0 < (RecordingDevices env s).1 → nameIsNull = false →
      (RecordingDeviceName env index nameIsNull s).1 =
        _GetDefaultDeviceID env ERole.eCommunications) := by
  refine ⟨fun hne => ?_, fun he hn => ?_, fun he hn hnull => ?_⟩
  · have h1 : (index : Int) > (RecordingDevices env s).1 - 1 := by omega
    simp [RecordingDeviceName, hne, h1]
  · have h1 : (0 : Int) > (RecordingDevices env s).1 - 1 := by omega
    simp [RecordingDeviceName, he, h1]
  · have h1 : ¬ ((RecordingDevices env s).1 < 1) := by omega
    simp [RecordingDeviceName, he, hnull, h1]

/-- C17, witness: with one active endpoint, index 1 is refused; with none,
index 65535 is refused. -/
theorem RecordingDeviceName_out_of_range_witness :
    (RecordingDeviceName Scenario.envOnly44100x2 1 false Scenario.selected).1 = -1 ∧
    (RecordingDeviceName Scenario.envNoEndpoints 65535 false Scenario.selected).1 = -1 :=
  ⟨(RecordingDeviceName_out_of_range Scenario.envOnly44100x2 1 false Scenario.selected
      (by decide) (by decide)).1 (by decide),
   (RecordingDeviceName_out_of_range Scenario.envNoEndpoints 65535 false Scenario.selected
      (by decide) (by decide)).2.1 rfl (by decide)⟩

/-- C14: the range check of `SetRecordingDevice(uint16_t)` evaluated where the
refreshed count is not positive.  With no active endpoint (count 0) and
endpoint 7 selected before the call, index 0 passes the check, the selected
endpoint is released and the call returns -1 only because `Item` fails.  With a
failed refresh (count -1) and the collection of an earlier refresh still held,
index 0 passes the check and the call returns 0 with a by-index selection;
without such a collection the assertion on the collection fails. -/
theorem SetRecordingDevice_I_unsigned_check :
    (RecordingDevices Scenario.envNoEndpoints Scenario.selected).1 = 0 ∧
    Scenario.selected._ptrDeviceIn = some 7 ∧
    (SetRecordingDevice_I Scenario.envNoEndpoints 0 Scenario.selected).toOption =
      some (-1, { Scenario.selected with _ptrLoopbackCollection := some [], _ptrDeviceIn := none }) ∧
    (RecordingDevices Scenario.envRefreshFails Scenario.selectedWithList).1 = -1 ∧
    (SetRecordingDevice_I Scenario.envRefreshFails 0 Scenario.selectedWithList).toOption =
      some (0, { Scenario.selectedWithList with _usingInputDeviceIndex := true }) ∧
    SetRecordingDevice_I Scenario.envRefreshFails 0 Scenario.selected =
      .error Fault.assertFailed := by
  refine ⟨by decide, by decide, by decide, by decide, by decide, rfl⟩

/-! ### The recording probe -/

/-- The call `RecordingDevices` leaves the recording flag and the thread handle
alone. -/
theorem RecordingDevices_flags (env : Platform) (s : CoreAudioDevice) :
    (RecordingDevices env s).2._recording = s._recording ∧
    (RecordingDevices env s).2._hRecThread = s._hRecThread := by
  unfold RecordingDevices _RefreshDeviceList
  split_ifs <;> exact ⟨rfl, rfl⟩

/-- The call `InitMicrophone` leaves the recording flag and the thread handle
alone. -/
theorem InitMicrophone_flags (env : Platform) (s : CoreAudioDevice) :
    (InitMicrophone env s).2._recording = s._recording ∧
    (InitMicrophone env s).2._hRecThread = s._hRecThread := by
  unfold InitMicrophone
  have h := RecordingDevices_flags env s
  simp only []
  repeat' split
  all_goals first | exact ⟨rfl, rfl⟩ | exact h

/-- The part of `InitRecording` on the resolved endpoint leaves the recording
flag and the thread handle alone. -/
theorem InitRecording_onEndpoint_flags (env : Platform) (dev : Nat) (s1 : CoreAudioDevice) :
    (InitRecording_onEndpoint env dev s1).2._recording = s1._recording ∧
    (InitRecording_onEndpoint env dev s1).2._hRecThread = s1._hRecThread := by
  have hS : ∀ (u : CoreAudioDevice) n, (storeFormat u n)._recording = u._recording ∧
      (storeFormat u n)._hRecThread = u._hRecThread := by
    intro u n; unfold storeFormat; split_ifs <;> exact ⟨rfl, rfl⟩
  have hU : ∀ u : CoreAudioDevice, (updateAudioBuffer u)._recording = u._recording ∧
      (updateAudioBuffer u)._hRecThread = u._hRecThread := by
    intro u; unfold updateAudioBuffer; split <;> exact ⟨rfl, rfl⟩
  unfold InitRecording_onEndpoint
  simp only []
  generalize hn : freqLoop (env.IsFormatSupported dev) s1._recChannelsPrioList freqs
    (S_FALSE, Wfx0) = n
  have h1 := hS { s1 with _ptrClientIn := some dev } n
  have h2 := hU (storeFormat { s1 with _ptrClientIn := some dev } n)
  generalize storeFormat { s1 with _ptrClientIn := some dev } n = S at h1 h2
  generalize updateAudioBuffer S = U at h2
  simp only [] at h1 h2
  split_ifs <;> simp [InitRecording_Exit, h1.1, h1.2, h2.1, h2.2]

/-- The call `InitRecording` leaves the recording flag and the thread handle
alone. -/
theorem InitRecording_flags (env : Platform) (s : CoreAudioDevice) :
    (InitRecording env s).2._recording = s._recording ∧
    (InitRecording env s).2._hRecThread = s._hRecThread := by
  unfold InitRecording
  by_cases h1 : s._recording = true
  · rw [if_pos h1]; exact ⟨rfl, rfl⟩
  by_cases h2 : s._recIsInitialized = true
  · rw [if_neg h1, if_pos h2]; exact ⟨rfl, rfl⟩
  rw [if_neg h1, if_neg h2]
  cases hq : env.QueryPerformanceFrequency with
  | none => exact ⟨rfl, rfl⟩
  | some f =>
    simp only []
    have hm := InitMicrophone_flags env { s with _perfCounterFreq := f }
    by_cases h3 : s._ptrDeviceIn = none
    · rw [if_pos h3]; exact ⟨rfl, rfl⟩
    rw [if_neg h3]
    cases hd : (InitMicrophone env { s with _perfCounterFreq := f }).2._ptrDeviceIn with
    | none => exact hm
    | some dev =>
      simp only []
      have he := InitRecording_onEndpoint_flags env dev
        (InitMicrophone env { s with _perfCounterFreq := f }).2
      exact ⟨he.1.trans hm.1, he.2.trans hm.2⟩

/-- Whenever `StopRecording` returns on a session in which recording implies
initialised, recording is afterwards neither initialised nor running. -/
theorem StopRecording_result_idle (o : JoinOracle) (s : CoreAudioDevice)
    (hinv : s._recording = true → s._recIsInitialized = true) (r : Int) (s' : CoreAudioDevice)
    (h : StopRecording o s = .ok (r, s')) :
    s'._recIsInitialized = false ∧ s'._recording = false := by
  unfold StopRecording at h
  split_ifs at h with h1 h2
  · cases h
    refine ⟨h1, ?_⟩
    cases hr : s._recording
    · rfl
    · rw [hinv hr] at h1; cases h1
  · cases h; exact ⟨rfl, rfl⟩
  · exact StopRecording_finish_uninitialised _ _ r s' h
  · exact StopRecording_finish_uninitialised _ _ r s' h

/-- The call `StopRecording` returns when no capture thread is held, when the
join times out, or when the joined thread has released the client interfaces. -/
theorem StopRecording_returns (o : JoinOracle) (s : CoreAudioDevice)
    (h : s._hRecThread = false ∨ o.WaitForThread ≠ WAIT_OBJECT_0 ∨
      o.threadReleasedClients = true) :
    ∃ r, StopRecording o s = .ok r := by
  unfold StopRecording
  by_cases h1 : s._recIsInitialized = false
  · rw [if_pos h1]; exact ⟨_, rfl⟩
  rw [if_neg h1]
  by_cases h2 : s._hRecThread = false
  · rw [if_pos h2]; exact ⟨_, rfl⟩
  rw [if_neg h2]
  rcases h with h | h | h
  · exact absurd h h2
  · rw [if_pos h]
    unfold StopRecording_finish
    simp
  · unfold StopRecording_finish afterJoin
    simp [h]

/-- The recording probe where it returns.  On a session in which recording
implies initialised (as in every session the operations produce), whenever
`RecordingIsAvailable` returns it returns 0, has set `available` to true exactly when its `InitRecording` attempt
did not return -1, and leaves recording neither initialised nor running; and it
does return whenever its `StopRecording` does: when no capture thread is held,
when the join times out, or when the joined thread has released the client
interfaces. -/
theorem RecordingIsAvailable_probe (env : Platform) (o : JoinOracle) (s : CoreAudioDevice)
    (hinv : s._recording = true → s._recIsInitialized = true) :
    (∀ r, RecordingIsAvailable env o s = .ok r →
      r.1 = 0 ∧ (r.2.1 = true ↔ (InitRecording env s).1 ≠ -1) ∧
      r.2.2.RecordingIsInitialized = false ∧ r.2.2.Recording = false) ∧
    (s._hRecThread = false ∨ o.WaitForThread ≠ WAIT_OBJECT_0 ∨ o.threadReleasedClients = true →
      ∃ r, RecordingIsAvailable env o s = .ok r) := by
  have hfl := InitRecording_flags env s
  have hinv1 : (InitRecording env s).2._recording = true →
      (InitRecording env s).2._recIsInitialized = true := by
    intro h
    have hr : s._recording = true := by rw [← hfl.1]; exact h
    have : InitRecording env s = (-1, s) := by simp [InitRecording, hr]
    rw [this]; exact hinv hr
  unfold RecordingIsAvailable
  constructor
  · intro r hr
    cases hS : StopRecording o (InitRecording env s).2 with
    | error f => rw [hS] at hr; cases hr
    | ok q =>
      rw [hS] at hr
      cases hr
      obtain ⟨q1, q2⟩ := q
      have := StopRecording_result_idle o _ hinv1 q1 q2 hS
      exact ⟨rfl, by simp, this.1, this.2⟩
  · intro h
    rw [← hfl.2] at h
    obtain ⟨q, hq⟩ := StopRecording_returns o _ h
    rw [hq]
    exact ⟨_, rfl⟩

/-- The recording probe on two sessions: on the selected session it finds
recording available and leaves the session idle; on the running session it
finds it unavailable and stops the recording. -/
theorem RecordingIsAvailable_probe_example :
    (∀ r, RecordingIsAvailable Scenario.envOnly44100x2 Scenario.joined Scenario.running = .ok r →
      r.1 = 0 ∧ (r.2.1 = true ↔ (InitRecording Scenario.envOnly44100x2 Scenario.running).1 ≠ -1) ∧
      r.2.2.RecordingIsInitialized = false ∧ r.2.2.Recording = false) ∧
    (∃ r, RecordingIsAvailable Scenario.envOnly44100x2 Scenario.joined Scenario.running = .ok r) ∧
    (RecordingIsAvailable Scenario.envOnly44100x2 Scenario.joined Scenario.running).toOption =
      some (0, false, Scenario.stopped) ∧
    ((RecordingIsAvailable Scenario.envOnly44100x2 Scenario.joined Scenario.selected).toOption.map
      (fun r => (r.1, r.2.1, r.2.2._recIsInitialized, r.2.2._recording))) =
      some (0, true, false, false) :=
  ⟨(RecordingIsAvailable_probe Scenario.envOnly44100x2 Scenario.joined Scenario.running
      (by decide)).1,
   (RecordingIsAvailable_probe Scenario.envOnly44100x2 Scenario.joined Scenario.running
      (by decide)).2 (Or.inr (Or.inr rfl)),
   by decide, by decide⟩

/-- C18: `RecordingIsAvailable` evaluated after a start that timed out.  From
construction, after `Init`, selection of the default device and
`InitRecording`, a `StartRecording` whose thread does not signal in time
returns -1 and keeps the thread handle.  The thread, whose COM initialisation
failed, has returned 1 without releasing the client interfaces.  The probe's
`InitRecording` returns 0 at once; its `StopRecording` joins the thread and
finds `_ptrClientIn` still set, so the assertion
`err == -1 || _ptrClientIn == NULL` fails and the probe does not return. -/
theorem RecordingIsAvailable_assertion_fails :
    (run (Scenario.setUp ++ [Op.StartRecording Scenario.startTimesOut])
        CoreAudioDevice.ctor).toOption = some Scenario.timedOut ∧
    (Scenario.timedOut._recIsInitialized, Scenario.timedOut._recording,
      Scenario.timedOut._hRecThread) = (true, false, true) ∧
    (DoCaptureThread Scenario.comInitFails Scenario.timedOut).exitCode = some 1 ∧
    (DoCaptureThread Scenario.comInitFails Scenario.timedOut).final.map
        (fun t => (t.dev._ptrClientIn, t.dev._ptrLoopbackClient)) = some (some 7, true) ∧
    (InitRecording Scenario.envOnly44100x2 Scenario.timedOut).1 = 0 ∧
    (RecordingIsAvailable Scenario.envOnly44100x2 Scenario.joinedUnreleased
        Scenario.timedOut).toOption = none ∧
    RecordingIsAvailable Scenario.envOnly44100x2 Scenario.joinedUnreleased Scenario.timedOut =
      .error Fault.assertFailed := by
  refine ⟨by decide, by decide, by decide, by decide, by decide, by decide, rfl⟩

/-! ### The capture delay of delivered blocks -/

set_option maxRecDepth 4000 in
/-- The factor is rounded: on a clock of 3579545 Hz read at 78749990 ticks,
2 ms after a time stamp of 219980000, the product with the factor falls just
below 220000000 and the delay stored for a fill of one block is 1, where the
exact value of the expression is 2. -/
theorem recDelay_rounded_factor :
    219980000 * 3579545 + 20000 * 3579545 = 78749990 * 10000000 ∧
    Double.trunc (elapsedMs 3579545 78749990 219980000) = 1 ∧
    recDelay 3579545 78749990 219980000 3 3 = 1 := by
  refine ⟨by decide, by decide, by decide⟩

set_option maxRecDepth 4000 in
/-- The rounding of the sum can reach the next integer: on a clock of 19 kHz
read at 57 ticks, with time stamp 0 and a fill of one block, the elapsed time
the code computes is just below 3 ms, its whole part is 2, and the delay
stored is 3. -/
theorem recDelay_rounds_up :
    Double.trunc (elapsedMs 19000 57 0) = 2 ∧ recDelay 19000 57 0 3 3 = 3 := by
  constructor <;> decide

/-- C24: `StartRecording` evaluated after a start that timed out.  From
construction, after `Init`, selection of the default device and
`InitRecording`, a `StartRecording` whose thread does not signal in time
returns -1; the next `StartRecording` returns 0 without creating a thread, and
`Recording()` is false on return. -/
theorem StartRecording_after_timeout_not_running :
    (run Scenario.setUp CoreAudioDevice.ctor).toOption.map
        (fun s => (StartRecording Scenario.startTimesOut s).1) = some (-1) ∧
    (run Scenario.setUp CoreAudioDevice.ctor).toOption.map
        (fun s => (StartRecording Scenario.startSucceeds
          (StartRecording Scenario.startTimesOut s).2).1) = some 0 ∧
    (run (Scenario.setUp ++ [Op.StartRecording Scenario.startTimesOut,
        Op.StartRecording Scenario.startSucceeds]) CoreAudioDevice.ctor).toOption.map
        (fun s => (s.Recording, s.RecordingIsInitialized, s._hRecThread, s.threadsCreated)) =
      some (false, true, true, 1) := by
  refine ⟨by decide, by decide, by decide⟩

/-- C30: the lock count of `DoCaptureThread` evaluated on two paths.  Started on
a session whose capture client is missing (here after `Terminate`), the thread
returns 1 still holding the lock it took.  On a clean shutdown whose final
`Stop` fails, the thread releases the lock at the label `Exit` while it does
not hold it. -/
theorem DoCaptureThread_lock_imbalance :
    Scenario.terminated._recIsInitialized = true ∧ Scenario.terminated._ptrClientIn = none ∧
    (DoCaptureThread (Scenario.threadRun []) Scenario.terminated).exitCode = some 1 ∧
    (DoCaptureThread (Scenario.threadRun []) Scenario.terminated).final.map
        (fun t => (t.lockDepth, t.lockFault)) = some (1, false) ∧
    (DoCaptureThread Scenario.stopFails Scenario.running).final.map
        (fun t => (t.keepRecording, t.lockDepth, t.lockFault)) = some (false, 0, true) := by
  refine ⟨by decide, by decide, by decide, by decide, by decide⟩

/-- C26: `InitRecording` evaluated on an endpoint that accepts no candidate
format.  The call returns 0 and marks recording initialised with block size 0
and frame size 0; a capture thread started from that state stops at the
division by `_recBlockSize` on its first packet. -/
theorem InitRecording_initialised_with_zero_block :
    (InitRecording Scenario.envNoFormat Scenario.selected).1 = 0 ∧
    (InitRecording Scenario.envNoFormat Scenario.selected).2.RecordingIsInitialized = true ∧
    (InitRecording Scenario.envNoFormat Scenario.selected).2._recBlockSize = 0 ∧
    (InitRecording Scenario.envNoFormat Scenario.selected).2._recAudioFrameSize = 0 ∧
    DoCaptureThread
        (Scenario.threadRun [WaitEvent.samplesReady [Scenario.sevenFrames]])
        Scenario.runningNoFormat = .fault Fault.divideByZero := by
  refine ⟨by decide, by decide, by decide, by decide, by decide⟩

/-! ### Stale selections and the role argument -/

/-- The refresh made by `RecordingDevices` keeps the resolved endpoint, and its
count does not depend on the stored clock frequency. -/
theorem RecordingDevices_endpoint (env : Platform) (s : CoreAudioDevice) (f : Nat) :
    (RecordingDevices env s).2._ptrDeviceIn = s._ptrDeviceIn ∧
    (RecordingDevices env { s with _perfCounterFreq := f }).1 = (RecordingDevices env s).1 := by
  unfold RecordingDevices _RefreshDeviceList _DeviceListCount
  constructor
  · split_ifs <;> rfl
  · split_ifs <;> rfl

/-- With a by-index selection whose index is not below the refreshed count,
`InitMicrophone` returns -1 right after the refresh. -/
theorem InitMicrophone_stale (env : Platform) (s : CoreAudioDevice) (dev : Nat)
    (hrec : s._recording = false) (hsel : s._ptrDeviceIn = some dev)
    (hidx : s._usingInputDeviceIndex = true)
    (hstale : (RecordingDevices env s).1 ≤ (s._inputDeviceIndex : Int)) :
    InitMicrophone env s = (-1, (RecordingDevices env s).2) := by
  have hgt : (s._inputDeviceIndex : Int) > (RecordingDevices env s).1 - 1 := by omega
  simp [InitMicrophone, hrec, hsel, hidx, hgt]

/-- C28. Stale index at init: with a by-index selection whose stored index is
not below the count of the refreshed list, on a session that is neither
recording nor initialised and has an endpoint `dev` resolved, `InitMicrophone`
returns -1 having only refreshed the list, so the resolved endpoint is still
`dev`; and `InitRecording` (the clock being available) does not stop there: its
result is that of the activation and format negotiation on `dev`. -/
theorem InitRecording_stale_index (env : Platform) (s : CoreAudioDevice) (f dev : Nat)
    (hrec : s._recording = false) (hinit : s._recIsInitialized = false)
    (hsel : s._ptrDeviceIn = some dev) (hidx : s._usingInputDeviceIndex = true)
    (hqpf : env.QueryPerformanceFrequency = some f)
    (hstale : (RecordingDevices env s).1 ≤ (s._inputDeviceIndex : Int)) :
    InitMicrophone env s = (-1, (RecordingDevices env s).2) ∧
    (InitMicrophone env s).2._ptrDeviceIn = some dev ∧
    InitRecording env s =
      InitRecording_onEndpoint env dev
        (RecordingDevices env { s with _perfCounterFreq := f }).2 := by
  have h1 := InitMicrophone_stale env s dev hrec hsel hidx hstale
  have h2 := InitMicrophone_stale env { s with _perfCounterFreq := f } dev hrec hsel hidx
    (by rw [(RecordingDevices_endpoint env s f).2]; exact hstale)
  have h3 : (InitMicrophone env { s with _perfCounterFreq := f }).2._ptrDeviceIn = some dev := by
    rw [h2, (RecordingDevices_endpoint env _ f).1]; exact hsel
  refine ⟨h1, ?_, ?_⟩
  · rw [h1, (RecordingDevices_endpoint env s f).1]; exact hsel
  · unfold InitRecording
    rw [if_neg (by simp [hrec]), if_neg (by simp [hinit])]
    simp only [hqpf]
    rw [if_neg (by simp [hsel])]
    simp only [h3]
    rw [h2]

/-- C28, witness: endpoint 8 was selected as index 1; the list now holds the
single endpoint 7.  `InitMicrophone` returns -1 and keeps endpoint 8, and
`InitRecording` negotiates on endpoint 8. -/
theorem InitRecording_stale_index_witness :
    InitMicrophone Scenario.envOnly44100x2 Scenario.staleSelection =
      (-1, (RecordingDevices Scenario.envOnly44100x2 Scenario.staleSelection).2) ∧
    (InitMicrophone Scenario.envOnly44100x2 Scenario.staleSelection).2._ptrDeviceIn =
      some 8 ∧
    InitRecording Scenario.envOnly44100x2 Scenario.staleSelection =
      InitRecording_onEndpoint Scenario.envOnly44100x2 8
        (RecordingDevices Scenario.envOnly44100x2
          { Scenario.staleSelection with _perfCounterFreq := 10000000 }).2 :=
  InitRecording_stale_index Scenario.envOnly44100x2 Scenario.staleSelection 10000000 8
    rfl rfl rfl rfl rfl (by decide)

/-- The by-role selection depends on the platform only through the refresh of
the list and the query for the default render endpoint in the multimedia
role, and on its argument only in the role it stores. -/
theorem SetRecordingDevice_II_query (env env' : Platform) (d : WindowsDeviceType)
    (s : CoreAudioDevice) (he : env'.EnumAudioEndpoints = env.EnumAudioEndpoints)
    (hq : env'.GetDefaultAudioEndpoint EDataFlow.eRender ERole.eMultimedia =
      env.GetDefaultAudioEndpoint EDataFlow.eRender ERole.eMultimedia) :
    SetRecordingDevice_II env' d s = SetRecordingDevice_II env d s := by
  simp only [SetRecordingDevice_II, _RefreshDeviceList, he, hq]

/-- The by-role branch of `InitMicrophone` depends on the platform only through
the query for the default render endpoint in the multimedia role and the
activation of the volume control. -/
theorem InitMicrophone_by_role_query (env env' : Platform) (s : CoreAudioDevice)
    (hrole : s._usingInputDeviceIndex = false)
    (hq : env'.GetDefaultAudioEndpoint EDataFlow.eRender ERole.eMultimedia =
      env.GetDefaultAudioEndpoint EDataFlow.eRender ERole.eMultimedia)
    (hv : env'.ActivateEndpointVolume = env.ActivateEndpointVolume) :
    InitMicrophone env' s = InitMicrophone env s := by
  simp [InitMicrophone, hrole, _GetDefaultDevice, hq, hv]

/-- In its by-role branch `InitMicrophone` reads the stored role nowhere: a
different stored role gives the same result and the same session up to that
role. -/
theorem InitMicrophone_role_value (env : Platform) (d d' : WindowsDeviceType)
    (s : CoreAudioDevice) (hrole : s._usingInputDeviceIndex = false) :
    InitMicrophone env { s with _inputDevice := d } =
      ((InitMicrophone env { s with _inputDevice := d' }).1,
       { (InitMicrophone env { s with _inputDevice := d' }).2 with _inputDevice := d }) := by
  cases s
  simp only at hrole
  subst hrole
  simp only [InitMicrophone, Bool.false_eq_true, false_and, if_false]
  generalize _GetDefaultDevice env ERole.eMultimedia = r
  obtain ⟨r1, r2⟩ := r
  cases r2 <;> simp only [] <;> split_ifs <;> rfl

/-- C29. Role independence.  For any two role arguments `d` and `d'`, from the
same session and with the same platform answers, `SetRecordingDevice(role)`
returns the same result and resolves the same endpoint, and the two sessions
differ at most in the stored role; on success the stored role is the argument
and the endpoint is the answer to the query for the default render endpoint
in the multimedia role.  The call depends on the platform only through the
refresh of the list and that query.  The by-role branch of `InitMicrophone`
does not read the stored role either, and depends on the platform only
through the same query and the activation of the volume control. -/
theorem SetRecordingDevice_II_role_independent (env : Platform) (d d' : WindowsDeviceType)
    (s : CoreAudioDevice) :
    (SetRecordingDevice_II env d s).1 = (SetRecordingDevice_II env d' s).1 ∧
    (SetRecordingDevice_II env d s).2._ptrDeviceIn =
      (SetRecordingDevice_II env d' s).2._ptrDeviceIn ∧
    (SetRecordingDevice_II env d s).2 =
      { (SetRecordingDevice_II env d' s).2 with
        _inputDevice := (SetRecordingDevice_II env d s).2._inputDevice } ∧
    ((SetRecordingDevice_II env d s).1 = 0 →
      (SetRecordingDevice_II env d s).2._inputDevice = d ∧
      (SetRecordingDevice_II env d s).2._ptrDeviceIn =
        (env.GetDefaultAudioEndpoint EDataFlow.eRender ERole.eMultimedia).2) ∧
    (∀ env' : Platform, env'.EnumAudioEndpoints = env.EnumAudioEndpoints →
      env'.GetDefaultAudioEndpoint EDataFlow.eRender ERole.eMultimedia =
        env.GetDefaultAudioEndpoint EDataFlow.eRender ERole.eMultimedia →
      SetRecordingDevice_II env' d s = SetRecordingDevice_II env d s) ∧
    (s._usingInputDeviceIndex = false →
      InitMicrophone env { s with _inputDevice := d } =
        ((InitMicrophone env { s with _inputDevice := d' }).1,
         { (InitMicrophone env { s with _inputDevice := d' }).2 with _inputDevice := d }) ∧
      ∀ env' : Platform,
        env'.GetDefaultAudioEndpoint EDataFlow.eRender ERole.eMultimedia =
          env.GetDefaultAudioEndpoint EDataFlow.eRender ERole.eMultimedia →
        env'.ActivateEndpointVolume = env.ActivateEndpointVolume →
        InitMicrophone env' s = InitMicrophone env s) := by
  refine ⟨?_, ?_, ?_, ?_, fun env' he hq => SetRecordingDevice_II_query env env' d s he hq,
    fun hrole => ⟨?_, fun env' hq hv => InitMicrophone_by_role_query env env' s hrole hq hv⟩⟩
  · unfold SetRecordingDevice_II; split_ifs <;> rfl
  · unfold SetRecordingDevice_II; split_ifs <;> rfl
  · unfold SetRecordingDevice_II; split_ifs <;> rfl
  · intro h0
    unfold SetRecordingDevice_II at h0 ⊢
    split_ifs at h0 ⊢
    · simp at h0
    · simp at h0
    · exact ⟨rfl, rfl⟩
  · exact InitMicrophone_role_value env d d' s hrole

/-- C29, witness: on the constructed session, the two role values resolve
endpoint 7 with result 0, and `InitMicrophone` gives the same result for both
stored roles. -/
theorem SetRecordingDevice_II_role_independent_witness :
    ((SetRecordingDevice_II Scenario.envOnly44100x2 WindowsDeviceType.kDefaultDevice
        CoreAudioDevice.ctor).2._inputDevice = WindowsDeviceType.kDefaultDevice ∧
      (SetRecordingDevice_II Scenario.envOnly44100x2 WindowsDeviceType.kDefaultDevice
        CoreAudioDevice.ctor).2._ptrDeviceIn =
        (Scenario.envOnly44100x2.GetDefaultAudioEndpoint EDataFlow.eRender
          ERole.eMultimedia).2) ∧
    (SetRecordingDevice_II Scenario.envOnly44100x2 WindowsDeviceType.kDefaultDevice
        CoreAudioDevice.ctor).2._ptrDeviceIn =
      (SetRecordingDevice_II Scenario.envOnly44100x2
        WindowsDeviceType.kDefaultCommunicationDevice CoreAudioDevice.ctor).2._ptrDeviceIn ∧
    InitMicrophone Scenario.envOnly44100x2
        { Scenario.selected with _inputDevice := WindowsDeviceType.kDefaultDevice } =
      ((InitMicrophone Scenario.envOnly44100x2
          { Scenario.selected with
            _inputDevice := WindowsDeviceType.kDefaultCommunicationDevice }).1,
       { (InitMicrophone Scenario.envOnly44100x2
          { Scenario.selected with
            _inputDevice := WindowsDeviceType.kDefaultCommunicationDevice }).2 with
         _inputDevice := WindowsDeviceType.kDefaultDevice }) :=
  ⟨(SetRecordingDevice_II_role_independent Scenario.envOnly44100x2
      WindowsDeviceType.kDefaultDevice WindowsDeviceType.kDefaultCommunicationDevice
      CoreAudioDevice.ctor).2.2.2.1 (by decide),
   (SetRecordingDevice_II_role_independent Scenario.envOnly44100x2
      WindowsDeviceType.kDefaultDevice WindowsDeviceType.kDefaultCommunicationDevice
      CoreAudioDevice.ctor).2.1,
   ((SetRecordingDevice_II_role_independent Scenario.envOnly44100x2
      WindowsDeviceType.kDefaultDevice WindowsDeviceType.kDefaultCommunicationDevice
      Scenario.selected).2.2.2.2.2 rfl).1⟩

/-! ### Silent packets and the delay within a burst -/

/-- For a packet flagged silent the stored bytes are zeros, as many as the
32-bit product of frames and frame size, whatever its data pointer. -/
theorem storedBytes_silent (frameSize : Nat) (p : CapturePacket)
    (hs : p.flags &&& AUDCLNT_BUFFERFLAGS_SILENT ≠ 0) :
    storedBytes frameSize p = List.replicate (u32 (p.framesAvailable * frameSize)) 0 := by
  simp [storedBytes, hs]

/-- The block loop entered with less than one block in the buffer ends at once
and leaves the state as it is. -/
theorem deliverLoop_below (ta : Nat → Bool) (fuel k d : Nat) (t : CaptureThread)
    (hlt : t.syncBufIndex < t.dev._recBlockSize) :
    deliverLoop ta fuel k d t = .next t := by
  cases fuel <;> simp [deliverLoop, Nat.not_le.2 hlt]

/-- One pass in the nominal situation, for a packet that fits, up to the block
loop: the state made by appending the packet is nominal, holds the old fill
plus the packet's frames and the packet's bytes at the old fill offset, and
the pass is the block loop run on it. -/
theorem capturePass_appended (o : PassOracle) (t : CaptureThread) (h : t.Nominal)
    (ho : o.Nominal t.dev._recAudioFrameSize)
    (hfit : t.syncBufIndex * t.dev._recAudioFrameSize +
        o.packet.framesAvailable * t.dev._recAudioFrameSize ≤ t.syncBufferSize) :
    (appendPacket o (_Lock t)).Nominal ∧
    (appendPacket o (_Lock t)).syncBufIndex = t.syncBufIndex + o.packet.framesAvailable ∧
    (appendPacket o (_Lock t)).syncBuffer =
      writeBytes t.syncBuffer (t.syncBufIndex * t.dev._recAudioFrameSize)
        (storedBytes t.dev._recAudioFrameSize o.packet) ∧
    capturePass o t =
      (match deliverLoop o.teardownAfter (appendPacket o (_Lock t)).syncBufIndex 0
          (appendPacket o (_Lock t)).dev._sndCardRecDelay (appendPacket o (_Lock t)) with
       | .next t4 => .next (_UnLock t4)
       | r => r) := by
  obtain ⟨h1, h2, h3, h4, h5, h6, h7, h8⟩ := h
  obtain ⟨o1, o2, o3, o4, o5, o6, o7⟩ := ho
  have hoff : t.syncBufIndex * t.dev._recAudioFrameSize < 2 ^ 32 := by omega
  have hn : o.packet.framesAvailable * t.dev._recAudioFrameSize < 2 ^ 32 := by omega
  have hsum : (t.syncBufIndex + o.packet.framesAvailable) * t.dev._recAudioFrameSize
      ≤ t.syncBufferSize := by
    rw [Nat.add_mul]; exact hfit
  have hidx : t.syncBufIndex + o.packet.framesAvailable < 2 ^ 32 := by
    have := Nat.le_mul_of_pos_right (t.syncBufIndex + o.packet.framesAvailable) h5
    omega
  have hlen := storedBytes_length t.dev._recAudioFrameSize o.packet hn o7
  have hent : enterPass o t = _Lock t := by simp [enterPass, o1]
  have e_idx : (appendPacket o (_Lock t)).syncBufIndex =
      t.syncBufIndex + o.packet.framesAvailable := by
    simp only [appendPacket, _Lock_syncBufIndex]
    exact u32_of_lt hidx
  have e_buf : (appendPacket o (_Lock t)).syncBuffer = writeBytes t.syncBuffer
      (t.syncBufIndex * t.dev._recAudioFrameSize)
      (storedBytes t.dev._recAudioFrameSize o.packet) := by
    simp only [appendPacket, _Lock_syncBufIndex, _Lock_dev, _Lock_syncBuffer]
    rw [u32_of_lt hoff]
  have e_sz : (appendPacket o (_Lock t)).syncBufferSize = t.syncBufferSize := rfl
  have e_fs : (appendPacket o (_Lock t)).dev._recAudioFrameSize = t.dev._recAudioFrameSize := rfl
  refine ⟨⟨h1, h2, h3, h4, h5, ?_, h7, ?_⟩, e_idx, e_buf, ?_⟩
  · rw [e_buf, e_sz, writeBytes_length _ _ _ (by rw [hlen, h6]; exact hfit)]
    exact h6
  · rw [e_idx, e_fs, e_sz]; exact hsum
  · unfold capturePass
    rw [hent]
    simp only [_Lock_dev, _Lock_syncBufIndex, _Lock_syncBufferSize]
    rw [if_neg (by simp [h3, h2]), if_pos o2, if_neg o3, if_neg o4,
      u32_of_lt hoff, u32_of_lt hn, u32_of_lt (lt_of_le_of_lt hfit h7),
      if_neg (by simpa using hfit), if_neg (by simp [o5]),
      if_neg (Nat.pos_iff_ne_zero.1 h4)]

/-- One pass in the nominal situation, for a packet that fits: the session
after the pass is the session made when the packet was appended, and when
the fill stays below one block the sync buffer is the one made then. -/
theorem capturePass_nominal_session (o : PassOracle) (t : CaptureThread) (h : t.Nominal)
    (ho : o.Nominal t.dev._recAudioFrameSize)
    (hfit : t.syncBufIndex * t.dev._recAudioFrameSize +
        o.packet.framesAvailable * t.dev._recAudioFrameSize ≤ t.syncBufferSize) :
    ∃ t', capturePass o t = .next t' ∧
      t'.dev = (appendPacket o (_Lock t)).dev ∧
      (t.syncBufIndex + o.packet.framesAvailable < t.dev._recBlockSize →
        t'.syncBuffer =
          writeBytes t.syncBuffer (t.syncBufIndex * t.dev._recAudioFrameSize)
            (storedBytes t.dev._recAudioFrameSize o.packet)) := by
  obtain ⟨hN3, e_idx, e_buf, hpass⟩ := capturePass_appended o t h ho hfit
  obtain ⟨t4, blocks, d1, _, d3, _⟩ :=
    deliverLoop_nominal o.teardownAfter ho.noTeardownAfter
      (appendPacket o (_Lock t)).syncBufIndex 0
      (appendPacket o (_Lock t)).dev._sndCardRecDelay (appendPacket o (_Lock t)) hN3
      (Nat.div_le_self _ _)
  refine ⟨_UnLock t4, ?_, ?_, ?_⟩
  · rw [hpass, d1]
  · rw [_UnLock_dev, d3]
  · intro hlt
    have hb : (appendPacket o (_Lock t)).dev._recBlockSize = t.dev._recBlockSize := rfl
    have hbelow := deliverLoop_below o.teardownAfter
      (appendPacket o (_Lock t)).syncBufIndex 0
      (appendPacket o (_Lock t)).dev._sndCardRecDelay (appendPacket o (_Lock t))
      (by rw [e_idx, hb]; exact hlt)
    rw [hbelow] at d1
    cases d1
    rw [_UnLock_syncBuffer, e_buf]

/-- C23. Silent packets.  In the nominal situation, for a packet that fits and
carries the silent flag, whatever the device memory `memory` holds, the pass
ends normally and has appended `framesAvailable * _recAudioFrameSize` zero
bytes at the fill offset: the bytes of the blocks it delivers followed by the
bytes left in the sync buffer are the bytes held before followed by that many
zeros, and when the fill stays below one block the sync buffer is the old one
with the zeros written at byte offset `syncBufIndex * _recAudioFrameSize`.
The fill becomes `(syncBufIndex + framesAvailable) % _recBlockSize` and
`_readSamples` advances by `framesAvailable`, the same values as after the
pass for the same packet without the flag. -/
theorem capturePass_silent (o : PassOracle) (t : CaptureThread) (memory : Option (List Nat))
    (h : t.Nominal) (ho : o.Nominal t.dev._recAudioFrameSize)
    (hfit : t.syncBufIndex * t.dev._recAudioFrameSize +
        o.packet.framesAvailable * t.dev._recAudioFrameSize ≤ t.syncBufferSize)
    (hs : o.packet.flags &&& AUDCLNT_BUFFERFLAGS_SILENT ≠ 0)
    (hcnt : t.dev._readSamples + o.packet.framesAvailable < 2 ^ 64) :
    ∃ t' blocks,
      capturePass { o with packet := { o.packet with pData := memory } } t = .next t' ∧
      t'.delivered = t.delivered ++ blocks ∧
      blocks.length = (t.syncBufIndex + o.packet.framesAvailable) / t.dev._recBlockSize ∧
      payloadBytes blocks ++
          t'.syncBuffer.take (t'.syncBufIndex * t.dev._recAudioFrameSize) =
        t.syncBuffer.take (t.syncBufIndex * t.dev._recAudioFrameSize) ++
          List.replicate (o.packet.framesAvailable * t.dev._recAudioFrameSize) 0 ∧
      (t.syncBufIndex + o.packet.framesAvailable < t.dev._recBlockSize →
        t'.syncBuffer =
          writeBytes t.syncBuffer (t.syncBufIndex * t.dev._recAudioFrameSize)
            (List.replicate (o.packet.framesAvailable * t.dev._recAudioFrameSize) 0)) ∧
      t'.syncBufIndex = (t.syncBufIndex + o.packet.framesAvailable) % t.dev._recBlockSize ∧
      t'.dev._readSamples = t.dev._readSamples + o.packet.framesAvailable ∧
      ∃ t0, capturePass { o with packet := { o.packet with flags := 0 } } t = .next t0 ∧
        t0.syncBufIndex = t'.syncBufIndex ∧ t0.dev._readSamples = t'.dev._readSamples := by
  have hn : o.packet.framesAvailable * t.dev._recAudioFrameSize < 2 ^ 32 := by
    have := h.size_u32
    omega
  have hzero : storedBytes t.dev._recAudioFrameSize o.packet =
      List.replicate (o.packet.framesAvailable * t.dev._recAudioFrameSize) 0 := by
    rw [storedBytes_silent _ _ hs, u32_of_lt hn]
  have hmem : capturePass { o with packet := { o.packet with pData := memory } } t =
      capturePass o t := by
    have happ : ∀ u : CaptureThread,
        appendPacket { o with packet := { o.packet with pData := memory } } u =
          appendPacket o u := by
      intro u
      have h1 : storedBytes u.dev._recAudioFrameSize { o.packet with pData := memory } =
          storedBytes u.dev._recAudioFrameSize o.packet :=
        (storedBytes_silent u.dev._recAudioFrameSize { o.packet with pData := memory } hs).trans
          (storedBytes_silent u.dev._recAudioFrameSize o.packet hs).symm
      simp only [appendPacket, h1]
    have hent : enterPass { o with packet := { o.packet with pData := memory } } t =
        enterPass o t := rfl
    unfold capturePass
    rw [hent, happ]
  have hcount : ∀ p : PassOracle, p.packet.framesAvailable = o.packet.framesAvailable →
      (appendPacket p (_Lock t)).dev._readSamples =
        t.dev._readSamples + o.packet.framesAvailable := by
    intro p hp
    simp only [appendPacket, _Lock_dev, hp]
    exact Nat.mod_eq_of_lt hcnt
  obtain ⟨t', blocks, p1, _, _, _, _, p6, p7, p8, _, p10⟩ := capturePass_nominal o t h ho hfit
  obtain ⟨u, q1, q2, q3⟩ := capturePass_nominal_session o t h ho hfit
  have hsame : u = t' := by
    have := q1.symm.trans p1
    cases this
    rfl
  rw [hsame] at q2 q3
  have ho0 : PassOracle.Nominal t.dev._recAudioFrameSize
      { o with packet := { o.packet with flags := 0 } } :=
    ⟨ho.noTeardownBefore, ho.succeeded, ho.notEmpty, ho.frames_pos, ho.released,
      ho.noTeardownAfter, ho.data_length⟩
  obtain ⟨t0, _, r1, _, _, _, _, r6, _⟩ :=
    capturePass_nominal { o with packet := { o.packet with flags := 0 } } t h ho0 hfit
  obtain ⟨u0, s1, s2, _⟩ :=
    capturePass_nominal_session { o with packet := { o.packet with flags := 0 } } t h ho0 hfit
  have hsame0 : u0 = t0 := by
    have := s1.symm.trans r1
    cases this
    rfl
  rw [hsame0] at s2
  refine ⟨t', blocks, hmem.trans p1, p7, p8, ?_, ?_, p6, ?_, t0, r1, ?_, ?_⟩
  · rw [p10, hzero]
  · intro hlt
    rw [q3 hlt, hzero]
  · rw [q2]
    exact hcount o rfl
  · exact r6.trans p6.symm
  · rw [s2, q2, hcount o rfl]
    exact hcount _ rfl

/-- C23, witness: a silent packet of 2 frames whose device memory holds 9s,
stored behind one frame in a buffer full of 7s.  The pass delivers one block
of the frame held before followed by four zero bytes, the fill becomes 0 and
the sample counter 2, with or without the device memory. -/
theorem capturePass_silent_witness :
    ∃ t' blocks,
      capturePass { Scenario.silentPass with
        packet := { Scenario.silentPass.packet with pData := none } } Scenario.dirtyThread
        = .next t' ∧
      t'.delivered = Scenario.dirtyThread.delivered ++ blocks ∧
      payloadBytes blocks ++ t'.syncBuffer.take (t'.syncBufIndex * 2) = [7, 7, 0, 0, 0, 0] ∧
      t'.syncBufIndex = 0 ∧
      t'.dev._readSamples = Scenario.dirtyThread.dev._readSamples + 2 :=
  have ⟨t', blocks, h1, h2, _, h4, _, h6, h7, _⟩ :=
    capturePass_silent Scenario.silentPass Scenario.dirtyThread none
      ⟨by decide, by decide, by decide, by decide, by decide, by decide, by decide, by decide⟩
      ⟨rfl, by decide, by decide, by decide, by decide, fun _ => rfl,
        fun d hd => by cases hd; decide⟩
      (by decide) (by decide) (by decide)
  ⟨t', blocks, h1, h2, h4.trans (by decide), h6.trans (by decide), h7⟩

/-- The silent packet of 2 frames stored behind one frame in a buffer full of
7s, evaluated: one block with the payload 7, 7, 0, 0, 0, 0 is delivered and
the fill is 0. -/
theorem capturePass_silent_evaluated :
    (match capturePass Scenario.silentPass Scenario.dirtyThread with
     | .next t' => (t'.delivered.map (fun blk => blk.payload), t'.syncBufIndex)
     | _ => ([], 99)) = ([[7, 7, 0, 0, 0, 0]], 0) := by
  decide

/-- With a fill below the block size, a block size of at most `L + 1` frames and
packets of at most `L` frames, every packet fits a sync buffer of `2 * L`
frames. -/
theorem Fits_of_bounds (frameSize b L : Nat) (hb : 0 < b) (hbL : b ≤ L + 1) :
    ∀ (passes : List PassOracle) (idx : Nat), idx < b →
      (∀ o ∈ passes, o.packet.framesAvailable ≤ L) →
      Fits (2 * (L * frameSize)) frameSize b idx passes := by
  intro passes
  induction passes with
  | nil => intro _ _ _; trivial
  | cons o rest ih =>
    intro idx hidx hp
    have hn := hp o (List.mem_cons_self _ _)
    refine ⟨?_, ih _ (Nat.mod_lt _ hb) (fun o' ho' => hp o' (List.mem_cons_of_mem _ ho'))⟩
    have h1 : idx * frameSize ≤ L * frameSize := Nat.mul_le_mul_right _ (by omega)
    have h2 : o.packet.framesAvailable * frameSize ≤ L * frameSize :=
      Nat.mul_le_mul_right _ hn
    omega

/-- C21. Sync-buffer fill bound.  In the nominal situation, with a sync buffer
of `2 * L` frames (`L` the device buffer length), a block size of at most
`L + 1` frames, a fill below the block size at the start and packets of at most
`L` frames each: every packet, appended at the fill left by the ones before it,
stays within the capacity, so the inner loop processes all the packets without
the capacity assertion failing, and the fill it leaves is the remainder of the
frames received modulo the block size, hence below the block size and at most
`L`.  As this holds for every sequence of packets, it holds after each packet. -/
theorem drainLoop_fill_bound (passes : List PassOracle) (t : CaptureThread) (L : Nat)
    (h : t.Nominal)
    (hcap : t.syncBufferSize = 2 * (L * t.dev._recAudioFrameSize))
    (hbL : t.dev._recBlockSize ≤ L + 1)
    (hidx : t.syncBufIndex < t.dev._recBlockSize)
    (hnom : ∀ o ∈ passes, o.Nominal t.dev._recAudioFrameSize)
    (hlen : ∀ o ∈ passes, o.packet.framesAvailable ≤ L) :
    Fits t.syncBufferSize t.dev._recAudioFrameSize t.dev._recBlockSize t.syncBufIndex passes ∧
    ∃ t', drainLoop passes t = .pending t' ∧
      t'.syncBufIndex = (t.syncBufIndex + totalFrames passes) % t.dev._recBlockSize ∧
      t'.syncBufIndex < t.dev._recBlockSize ∧
      t'.syncBufIndex ≤ L ∧
      t'.syncBufferSize = t.syncBufferSize := by
  have hb := h.blockSize_pos
  have hfits : Fits t.syncBufferSize t.dev._recAudioFrameSize t.dev._recBlockSize
      t.syncBufIndex passes := by
    rw [hcap]
    exact Fits_of_bounds _ _ L hb hbL passes _ hidx hlen
  obtain ⟨t', blocks, e1, _, _, _, e5, e6, _⟩ := drainLoop_nominal passes t h hidx hnom hfits
  have hlt : t'.syncBufIndex < t.dev._recBlockSize := by rw [e6]; exact Nat.mod_lt _ hb
  exact ⟨hfits, t', e1, e6, hlt, by omega, e5⟩

/-- C21, witness: capacity 16 bytes at 2 bytes per frame (`L = 4`), block size
3, packets of 4 and 3 frames: both fit and one frame is left. -/
theorem drainLoop_fill_bound_witness :
    Fits 16 2 3 0 Scenario.twoPackets ∧
    ∃ t', drainLoop Scenario.twoPackets Scenario.smallThread = .pending t' ∧
      t'.syncBufIndex = 1 :=
  have ⟨hf, t', h1, h2, _⟩ :=
    drainLoop_fill_bound Scenario.twoPackets Scenario.smallThread 4
      ⟨by decide, by decide, by decide, by decide, by decide, by decide, by decide, by decide⟩
      (by decide) (by decide) (by decide)
      (by
        intro o ho
        simp only [Scenario.twoPackets, List.mem_cons, List.mem_singleton, List.not_mem_nil,
          or_false] at ho
        rcases ho with rfl | rfl <;>
          exact ⟨rfl, by decide, by decide, by decide, by decide, fun _ => rfl,
            fun d hd => by cases hd; decide⟩)
      (by
        intro o ho
        simp only [Scenario.twoPackets, List.mem_cons, List.mem_singleton, List.not_mem_nil,
          or_false] at ho
        rcases ho with rfl | rfl <;> decide)
  ⟨hf, t', h1, h2.trans (by decide)⟩

/-! ### Invariants of sequences of public operations -/

/-- The refresh of the device list leaves the recording state alone. -/
theorem _RefreshDeviceList_recState (env : Platform) (s : CoreAudioDevice) :
    recState (_RefreshDeviceList env s).2 = recState s := by
  unfold _RefreshDeviceList
  split_ifs <;> rfl

/-- The call `RecordingDevices` leaves the recording state alone. -/
theorem RecordingDevices_recState (env : Platform) (s : CoreAudioDevice) :
    recState (RecordingDevices env s).2 = recState s := by
  unfold RecordingDevices
  split_ifs <;> exact _RefreshDeviceList_recState env s

/-- The call `PlayoutDevices` leaves the recording state alone. -/
theorem PlayoutDevices_recState (env : Platform) (s : CoreAudioDevice) :
    recState (PlayoutDevices env s).2 = recState s := by
  unfold PlayoutDevices
  split_ifs <;> exact _RefreshDeviceList_recState env s

/-- The call `RecordingDeviceName` leaves the recording state alone. -/
theorem RecordingDeviceName_recState (env : Platform) (index : Nat) (nameIsNull : Bool)
    (s : CoreAudioDevice) :
    recState (RecordingDeviceName env index nameIsNull s).2 = recState s := by
  unfold RecordingDeviceName
  simp only []
  split_ifs <;> exact RecordingDevices_recState env s

/-- The call `InitMicrophone` leaves the recording state alone. -/
theorem InitMicrophone_recState (env : Platform) (s : CoreAudioDevice) :
    recState (InitMicrophone env s).2 = recState s := by
  unfold InitMicrophone
  have h := RecordingDevices_recState env s
  simp only []
  repeat' split
  all_goals first | rfl | exact h

/-- The by-index selection leaves the recording state alone. -/
theorem SetRecordingDevice_I_recState (env : Platform) (index : Nat) (s : CoreAudioDevice)
    (r : Int) (s' : CoreAudioDevice) (h : SetRecordingDevice_I env index s = .ok (r, s')) :
    recState s' = recState s := by
  have hr := RecordingDevices_recState env s
  unfold SetRecordingDevice_I at h
  split_ifs at h
  · cases h; rfl
  · cases h; exact hr
  · split at h
    · cases h
    · split_ifs at h <;> cases h <;> exact hr

/-- The by-role selection leaves the recording state alone. -/
theorem SetRecordingDevice_II_recState (env : Platform) (device : WindowsDeviceType)
    (s : CoreAudioDevice) :
    recState (SetRecordingDevice_II env device s).2 = recState s := by
  have hr := _RefreshDeviceList_recState env s
  unfold SetRecordingDevice_II
  split_ifs
  · rfl
  · exact hr
  · exact hr

/-- On a session that is not yet initialised, the part of `InitRecording` on the
resolved endpoint marks recording initialised only together with both client
interfaces. -/
theorem InitRecording_onEndpoint_clients (env : Platform) (dev : Nat) (s1 : CoreAudioDevice)
    (h : s1._recIsInitialized = false)
    (hi : (InitRecording_onEndpoint env dev s1).2._recIsInitialized = true) :
    (InitRecording_onEndpoint env dev s1).2._ptrClientIn ≠ none ∧
    (InitRecording_onEndpoint env dev s1).2._ptrLoopbackClient = true := by
  have hS : ∀ (u : CoreAudioDevice) n, (storeFormat u n)._recIsInitialized = u._recIsInitialized ∧
      (storeFormat u n)._ptrClientIn = u._ptrClientIn := by
    intro u n; unfold storeFormat; split_ifs <;> exact ⟨rfl, rfl⟩
  have hU : ∀ u : CoreAudioDevice,
      (updateAudioBuffer u)._recIsInitialized = u._recIsInitialized ∧
      (updateAudioBuffer u)._ptrClientIn = u._ptrClientIn := by
    intro u; unfold updateAudioBuffer; split <;> exact ⟨rfl, rfl⟩
  unfold InitRecording_onEndpoint at hi ⊢
  simp only [] at hi ⊢
  generalize hn : freqLoop (env.IsFormatSupported dev) s1._recChannelsPrioList freqs
    (S_FALSE, Wfx0) = n at hi ⊢
  have h1 := hS { s1 with _ptrClientIn := some dev } n
  have h2 := hU (storeFormat { s1 with _ptrClientIn := some dev } n)
  generalize storeFormat { s1 with _ptrClientIn := some dev } n = S at h1 h2 hi ⊢
  generalize updateAudioBuffer S = U at h2 hi ⊢
  simp only [] at h1 h2
  split_ifs at hi ⊢
  · simp [InitRecording_Exit, h] at hi
  · simp [InitRecording_Exit, h1.1, h] at hi
  · simp [InitRecording_Exit, h2.1, h1.1, h] at hi
  · simp [InitRecording_Exit, h2.1, h1.1, h] at hi
  · simp [h2.2, h1.2]

/-- The call `InitRecording` keeps the property that an initialised session
holds both client interfaces. -/
theorem InitRecording_clients (env : Platform) (s : CoreAudioDevice)
    (hinv : s._recIsInitialized = true → s._ptrClientIn ≠ none ∧ s._ptrLoopbackClient = true)
    (hi : (InitRecording env s).2._recIsInitialized = true) :
    (InitRecording env s).2._ptrClientIn ≠ none ∧
    (InitRecording env s).2._ptrLoopbackClient = true := by
  unfold InitRecording at hi ⊢
  by_cases h1 : s._recording = true
  · rw [if_pos h1] at hi ⊢; exact hinv hi
  by_cases h2 : s._recIsInitialized = true
  · rw [if_neg h1, if_pos h2] at hi ⊢; exact hinv hi
  rw [if_neg h1, if_neg h2] at hi ⊢
  have h2' : s._recIsInitialized = false := by simpa using h2
  cases hq : env.QueryPerformanceFrequency with
  | none => rw [hq] at hi; exact absurd hi h2
  | some f =>
    rw [hq] at hi
    simp only [] at hi ⊢
    have hm := InitMicrophone_recState env { s with _perfCounterFreq := f }
    have hmi : (InitMicrophone env { s with _perfCounterFreq := f }).2._recIsInitialized
        = false := by
      have := congrArg (fun p => p.2.1) hm
      exact this.trans h2'
    by_cases h3 : s._ptrDeviceIn = none
    · rw [if_pos h3] at hi; exact absurd hi h2
    rw [if_neg h3] at hi ⊢
    cases hd : (InitMicrophone env { s with _perfCounterFreq := f }).2._ptrDeviceIn with
    | none =>
      rw [hd] at hi
      simp only [] at hi
      rw [hmi] at hi
      cases hi
    | some dev =>
      rw [hd] at hi
      simp only [] at hi ⊢
      exact InitRecording_onEndpoint_clients env dev _ hmi hi

/-- A property kept by every call of a sequence holds after the sequence. -/
theorem run_preserves (P : CoreAudioDevice → Prop) :
    ∀ (ops : List Op) (s0 s : CoreAudioDevice),
      (∀ op ∈ ops, ∀ u u', P u → op.apply u = .ok u' → P u') →
      P s0 → run ops s0 = .ok s → P s := by
  intro ops
  induction ops with
  | nil =>
    intro s0 s _ h0 hr
    simp only [run] at hr
    cases hr
    exact h0
  | cons op rest ih =>
    intro s0 s hstep h0 hr
    simp only [run] at hr
    cases ha : op.apply s0 with
    | error f => rw [ha] at hr; cases hr
    | ok s1 =>
      rw [ha] at hr
      exact ih s1 s (fun op' hop' => hstep op' (List.mem_cons_of_mem _ hop'))
        (hstep op (List.mem_cons_self _ _) s0 s1 h0 ha) hr

/-- A call that leaves the recording state alone keeps every property of the
recording state. -/
theorem recState_eq_fields {s s' : CoreAudioDevice} (h : recState s' = recState s) :
    s'._recording = s._recording ∧ s'._recIsInitialized = s._recIsInitialized ∧
    s'._hRecThread = s._hRecThread ∧ s'._ptrClientIn = s._ptrClientIn ∧
    s'._ptrLoopbackClient = s._ptrLoopbackClient := by
  simp only [recState, Prod.mk.injEq] at h
  exact h

/-- Every public operation keeps the property that a recording session is
initialised and holds a capture-thread handle. -/
theorem Op_apply_recording (op : Op) (s s' : CoreAudioDevice)
    (hinv : s._recording = true → s._recIsInitialized = true ∧ s._hRecThread = true)
    (ha : op.apply s = .ok s') :
    s'._recording = true → s'._recIsInitialized = true ∧ s'._hRecThread = true := by
  have frame : recState s' = recState s →
      (s'._recording = true → s'._recIsInitialized = true ∧ s'._hRecThread = true) := by
    intro h
    obtain ⟨e1, e2, e3, _, _⟩ := recState_eq_fields h
    rw [e1, e2, e3]
    exact hinv
  cases op with
  | AttachAudioBuffer => cases ha; exact frame rfl
  | Init =>
    cases ha
    apply frame
    unfold Init
    split_ifs <;> rfl
  | Terminate =>
    cases ha
    unfold Terminate
    split_ifs
    · exact hinv
    · intro h; cases h
  | InitSpeaker => cases ha; exact frame rfl
  | InitMicrophone env => cases ha; exact frame (InitMicrophone_recState env s)
  | SetStereoRecording enable =>
    cases ha
    apply frame
    unfold SetStereoRecording
    split_ifs <;> rfl
  | PlayoutDevices env => cases ha; exact frame (PlayoutDevices_recState env s)
  | RecordingDevices env => cases ha; exact frame (RecordingDevices_recState env s)
  | RecordingDeviceName env index nameIsNull =>
    cases ha; exact frame (RecordingDeviceName_recState env index nameIsNull s)
  | SetRecordingDevice_I env index =>
    simp only [Op.apply] at ha
    cases hS : SetRecordingDevice_I env index s with
    | error f => rw [hS] at ha; cases ha
    | ok r =>
      rw [hS] at ha
      cases ha
      exact frame (SetRecordingDevice_I_recState env index s r.1 r.2 hS)
  | SetRecordingDevice_II env device =>
    cases ha; exact frame (SetRecordingDevice_II_recState env device s)
  | PlayoutIsAvailable => cases ha; exact frame rfl
  | RecordingIsAvailable env o =>
    simp only [Op.apply, RecordingIsAvailable] at ha
    have hfl := InitRecording_flags env s
    have hinv1 : (InitRecording env s).2._recording = true →
        (InitRecording env s).2._recIsInitialized = true := by
      intro h
      have hr : s._recording = true := by rw [← hfl.1]; exact h
      have : InitRecording env s = (-1, s) := by simp [InitRecording, hr]
      rw [this]; exact (hinv hr).1
    cases hS : StopRecording o (InitRecording env s).2 with
    | error f => rw [hS] at ha; cases ha
    | ok q =>
      rw [hS] at ha
      cases ha
      intro h
      rw [(StopRecording_result_idle o _ hinv1 q.1 q.2 hS).2] at h
      cases h
  | InitPlayout => cases ha; exact frame rfl
  | InitRecording env =>
    cases ha
    intro h
    have hfl := InitRecording_flags env s
    have hr : s._recording = true := by rw [← hfl.1]; exact h
    have : InitRecording env s = (-1, s) := by simp [InitRecording, hr]
    rw [this]
    exact hinv hr
  | StartRecording o =>
    cases ha
    unfold StartRecording
    split_ifs with h1 h2 h3 h4 h5
    · exact hinv
    · exact hinv
    · exact hinv
    · exact hinv
    · intro h
      exact ⟨(hinv h).1, rfl⟩
    · intro _
      exact ⟨by simpa using h1, rfl⟩
  | StopRecording o =>
    simp only [Op.apply] at ha
    cases hS : StopRecording o s with
    | error f => rw [hS] at ha; cases ha
    | ok q =>
      rw [hS] at ha
      cases ha
      intro h
      rw [(StopRecording_result_idle o s (fun hr => (hinv hr).1) q.1 q.2 hS).2] at h
      cases h

/-- C27. In every state reached from construction by a sequence of public
operations made one at a time (whatever the platform answers, as long as no
assertion stops the run), `Recording()` true implies that
`RecordingIsInitialized()` is true and that a capture-thread handle is held. -/
theorem run_recording_implies_initialised (ops : List Op) (s : CoreAudioDevice)
    (h : run ops CoreAudioDevice.ctor = .ok s) :
    s.Recording = true → s.RecordingIsInitialized = true ∧ s._hRecThread = true :=
  run_preserves
    (fun u => u._recording = true → u._recIsInitialized = true ∧ u._hRecThread = true)
    ops CoreAudioDevice.ctor s
    (fun op _ u u' hu ha => Op_apply_recording op u u' hu ha)
    (fun h0 => by cases h0) h

/-- C27, witness: after `Init`, selection of the default device,
`InitRecording` and a successful `StartRecording` the session is recording,
initialised and holds the thread handle. -/
theorem run_recording_implies_initialised_witness :
    run (Scenario.setUp ++ [Op.StartRecording Scenario.startSucceeds]) CoreAudioDevice.ctor =
      .ok Scenario.started ∧
    Scenario.started.Recording = true ∧
    Scenario.started.RecordingIsInitialized = true ∧ Scenario.started._hRecThread = true :=
  ⟨rfl, by decide,
   run_recording_implies_initialised
     (Scenario.setUp ++ [Op.StartRecording Scenario.startSucceeds]) Scenario.started rfl
     (by decide)⟩

/-- Every public operation other than `Terminate` keeps the property that an
initialised session holds both client interfaces. -/
theorem Op_apply_clients (op : Op) (s s' : CoreAudioDevice)
    (hT : op.isTerminate = false)
    (hinv : s._recIsInitialized = true → s._ptrClientIn ≠ none ∧ s._ptrLoopbackClient = true)
    (ha : op.apply s = .ok s') :
    s'._recIsInitialized = true → s'._ptrClientIn ≠ none ∧ s'._ptrLoopbackClient = true := by
  have frame : recState s' = recState s →
      (s'._recIsInitialized = true → s'._ptrClientIn ≠ none ∧ s'._ptrLoopbackClient = true) := by
    intro h
    obtain ⟨_, e2, _, e4, e5⟩ := recState_eq_fields h
    rw [e2, e4, e5]
    exact hinv
  cases op with
  | AttachAudioBuffer => cases ha; exact frame rfl
  | Init =>
    cases ha
    apply frame
    unfold Init
    split_ifs <;> rfl
  | Terminate => cases hT
  | InitSpeaker => cases ha; exact frame rfl
  | InitMicrophone env => cases ha; exact frame (InitMicrophone_recState env s)
  | SetStereoRecording enable =>
    cases ha
    apply frame
    unfold SetStereoRecording
    split_ifs <;> rfl
  | PlayoutDevices env => cases ha; exact frame (PlayoutDevices_recState env s)
  | RecordingDevices env => cases ha; exact frame (RecordingDevices_recState env s)
  | RecordingDeviceName env index nameIsNull =>
    cases ha; exact frame (RecordingDeviceName_recState env index nameIsNull s)
  | SetRecordingDevice_I env index =>
    simp only [Op.apply] at ha
    cases hS : SetRecordingDevice_I env index s with
    | error f => rw [hS] at ha; cases ha
    | ok r =>
      rw [hS] at ha
      cases ha
      exact frame (SetRecordingDevice_I_recState env index s r.1 r.2 hS)
  | SetRecordingDevice_II env device =>
    cases ha; exact frame (SetRecordingDevice_II_recState env device s)
  | PlayoutIsAvailable => cases ha; exact frame rfl
  | RecordingIsAvailable env o =>
    simp only [Op.apply, RecordingIsAvailable] at ha
    cases hS : StopRecording o (InitRecording env s).2 with
    | error f => rw [hS] at ha; cases ha
    | ok q =>
      rw [hS] at ha
      cases ha
      intro h
      rw [StopRecording_result_uninitialised o _ q.1 q.2 hS] at h
      cases h
  | InitPlayout => cases ha; exact frame rfl
  | InitRecording env =>
    cases ha
    exact InitRecording_clients env s hinv
  | StartRecording o =>
    cases ha
    unfold StartRecording
    split_ifs <;> exact hinv
  | StopRecording o =>
    simp only [Op.apply] at ha
    cases hS : StopRecording o s with
    | error f => rw [hS] at ha; cases ha
    | ok q =>
      rw [hS] at ha
      cases ha
      intro h
      rw [StopRecording_result_uninitialised o s q.1 q.2 hS] at h
      cases h

/-- Whenever the code from the label `Exit` on returns, it has released both
client interfaces and has not touched the initialised flag. -/
theorem DoCaptureThread_Exit_releases (o : ThreadOracle) (t : CaptureThread) (c : Nat)
    (t3 : CaptureThread) (hex : DoCaptureThread_Exit o t = .returned c t3) :
    t3.dev._ptrClientIn = none ∧ t3.dev._ptrLoopbackClient = false ∧
    t3.dev._recIsInitialized = t.dev._recIsInitialized := by
  unfold DoCaptureThread_Exit at hex
  by_cases h1 : FAILED t.hr = true ∧ t.dev._ptrClientIn = none
  · rw [if_pos h1] at hex; cases hex
  rw [if_neg h1] at hex
  simp only [ThreadResult.returned.injEq] at hex
  obtain ⟨_, rfl⟩ := hex
  simp only [_UnLock_dev]
  split_ifs <;> simp [releaseClients, _Lock_dev, _UnLock_dev]

/-- C25, counterexample: after `Init`, selection of the default device and
`InitRecording`, a `Terminate` leaves `RecordingIsInitialized()` true with both
client interfaces released, and a capture thread started from that state
returns 1 at its client check.  Likewise, when the capture thread of the
running session leaves through the wait time-out, the session it leaves is
still marked initialised and holds neither client interface. -/
theorem Terminate_keeps_initialised_flag :
    (run (Scenario.setUp ++ [Op.Terminate]) CoreAudioDevice.ctor).toOption.map
        (fun s => (s.RecordingIsInitialized, s._ptrClientIn, s._ptrLoopbackClient)) =
      some (true, none, false) ∧
    (run (Scenario.setUp ++ [Op.Terminate]) CoreAudioDevice.ctor).toOption.map
        (fun s => (DoCaptureThread (Scenario.threadRun []) s).exitCode) = some (some 1) ∧
    (DoCaptureThread (Scenario.threadRun [WaitEvent.timeout]) Scenario.running).final.map
        (fun t => (t.dev.RecordingIsInitialized, t.dev._ptrClientIn, t.dev._ptrLoopbackClient)) =
      some (true, none, false) := by
  refine ⟨by decide, by decide, by decide⟩

/-- C25, amended. In every state reached from construction by a sequence of
public operations other than `Terminate`, made one at a time before any exit
of a capture thread, `RecordingIsInitialized()` true implies that both client
interfaces are present.  `Terminate` on an initialised device, and the code
of the capture thread from the label `Exit` on, release both interfaces and
leave the initialised flag as it was. -/
theorem run_initialised_implies_clients (ops : List Op) (s : CoreAudioDevice)
    (hT : ∀ op ∈ ops, op.isTerminate = false)
    (h : run ops CoreAudioDevice.ctor = .ok s) :
    (s.RecordingIsInitialized = true → s._ptrClientIn ≠ none ∧ s._ptrLoopbackClient = true) ∧
    (∀ u : CoreAudioDevice, u._initialized = true →
      (Terminate u).2._ptrClientIn = none ∧ (Terminate u).2._ptrLoopbackClient = false ∧
      (Terminate u).2._recIsInitialized = u._recIsInitialized) ∧
    (∀ (o : ThreadOracle) (t : CaptureThread) (c : Nat) (t3 : CaptureThread),
      DoCaptureThread_Exit o t = .returned c t3 →
      t3.dev._ptrClientIn = none ∧ t3.dev._ptrLoopbackClient = false ∧
      t3.dev._recIsInitialized = t.dev._recIsInitialized) := by
  refine ⟨?_, ?_, ?_⟩
  · exact run_preserves
      (fun u => u._recIsInitialized = true → u._ptrClientIn ≠ none ∧ u._ptrLoopbackClient = true)
      ops CoreAudioDevice.ctor s
      (fun op hop u u' hu ha => Op_apply_clients op u u' (hT op hop) hu ha)
      (fun h0 => by cases h0) h
  · intro u hu
    simp [Terminate, hu]
  · intro o t c t3 hex
    exact DoCaptureThread_Exit_releases o t c t3 hex

/-- C25, witness: the session reached by `Init`, selection of the default
device, `InitRecording` and `StartRecording` is initialised and holds both
client interfaces. -/
theorem run_initialised_implies_clients_witness :
    run (Scenario.setUp ++ [Op.StartRecording Scenario.startSucceeds]) CoreAudioDevice.ctor =
      .ok Scenario.started ∧
    Scenario.started.RecordingIsInitialized = true ∧
    Scenario.started._ptrClientIn ≠ none ∧ Scenario.started._ptrLoopbackClient = true :=
  ⟨rfl, by decide,
   (run_initialised_implies_clients
     (Scenario.setUp ++ [Op.StartRecording Scenario.startSucceeds]) Scenario.started
     (by
       intro op hop
       simp only [Scenario.setUp, List.cons_append, List.nil_append, List.mem_cons,
         List.mem_singleton, List.not_mem_nil, or_false] at hop
       rcases hop with rfl | rfl | rfl | rfl <;> rfl)
     rfl).1 (by decide)⟩

end CoreAudioDevice

end webrtc
